import Mathlib

/-!
# CppUnitTestFramework: a verification development

Shallow embedding of `CppUnitTestFramework.hpp`.

* The logger is the recording logger (a "logger spy"): an `ILogger` value is
  the list of events received so far, oldest first, and every interface method
  appends its event.  The interface is write-only in the source, so this is all
  a caller can observe of it.
* C++ exceptions are explicit: an operation that can throw returns the thrown
  object next to its state.
* A test body is a block of framework operations (`Body`): assertions routed
  through `HandleAssert`, sections (a `SectionLock` held for a block),
  `Assert::Throws` around a callback, a `throw` of user code and `return`.
* `size_t` counters are natural numbers: each is bounded by the number of
  registered tests, so they never wrap.
* A `const char*` is read as a C string: `cstr` keeps the characters before the
  first NUL.  The message of an `AssertException` is what `what()` returns.
* A function template takes the operations of its type arguments as parameters:
  `operator==` as a function, the type traits `Ext::ToString` inspects as an
  `Ext.TypeInfo` instance.
* A `float` or `double` is given by its exact value; `std::to_string` on it is the
  fixed notation of `printf("%f")`.  Undefined behaviour is a missing result.
* `std::cout` is the list of lines written; the generated `main` takes the test
  vector as a parameter.
* The `ConsoleLogger` is a state (`m_test_failed`, `m_indent_level`, the text of
  `m_test_log`, the text written to `std::cout`) that receives the events of the
  interface one by one; `std::endl` is a line feed.
* The handles of a scope (`SectionLock`) are named by their position; a move
  assignment names its target and its source, which may be the same handle.
-/

namespace CppUnitTestFramework

/-! ## Data model -/

/-- Source location of an assertion (`struct AssertLocation`). -/
structure AssertLocation where
  SourceFile : String
  LineNumber : Nat
  deriving DecidableEq, Repr

/-- Severity of an assertion (`enum class AssertType`): `Throw` is the fatal
REQUIRE severity, `Continue` the continuing CHECK severity. -/
inductive AssertType where
  | Throw
  | Continue
  deriving DecidableEq, Repr

/-- The text a `const char*` denotes: the characters before the first NUL. -/
def cstr (s : String) : String :=
  String.mk (s.data.takeWhile (fun c => c != Char.ofNat 0))

/-- The failure object of an assertion (`struct AssertException`). -/
structure AssertException where
  m_message : String
  deriving DecidableEq, Repr

/-- The member `AssertException::what()`: `m_message.data()` read as a C string. -/
def AssertException.what (e : AssertException) : String :=
  cstr e.m_message

/-- A thrown C++ object: the `typeid` name of its dynamic type, the names of the
base classes a handler can catch it by, and the C string its `what()` returns
(meaningful when it derives from `std::exception`). -/
structure Thrown where
  type : String
  bases : List String
  what : String
  deriving DecidableEq, Repr

/-- Whether a handler `catch (const K&)` catches the thrown object. -/
def Thrown.catches (e : Thrown) (K : String) : Bool :=
  e.type == K || e.bases.contains K

/-- The object thrown by `throw *exception00`: a copy of the `AssertException`,
whose only base class is `std::exception`. -/
def AssertException.toThrown (e : AssertException) : Thrown :=
  { type := "AssertException", bases := ["std::exception"], what := e.what }

/-- The events of the `ILogger` interface, one constructor per method. -/
inductive Event where
  | BeginRun (test_count : Nat)
  | EndRun (pass_count fail_count skip_count : Nat)
  | SkipTest (name : String)
  | EnterTest (name : String)
  | ExitTest
  | SkipSection (name : String)
  | PushSection (name : String)
  | PopSection
  | AssertFailed (type : AssertType) (location : AssertLocation) (message : String)
  | UnhandledException (message : String)
  deriving DecidableEq, Repr

/-- The recording logger: the events received so far, oldest first. -/
abbrev ILogger := List Event

namespace ILogger

/-- The method `BeginRun(test_count)`. -/
def BeginRun (lg : ILogger) (test_count : Nat) : ILogger :=
  lg ++ [Event.BeginRun test_count]

/-- The method `EndRun(pass_count, fail_count, skip_count)`. -/
def EndRun (lg : ILogger) (pass_count fail_count skip_count : Nat) : ILogger :=
  lg ++ [Event.EndRun pass_count fail_count skip_count]

/-- The method `SkipTest(name)`. -/
def SkipTest (lg : ILogger) (name : String) : ILogger :=
  lg ++ [Event.SkipTest name]

/-- The method `EnterTest(name)`. -/
def EnterTest (lg : ILogger) (name : String) : ILogger :=
  lg ++ [Event.EnterTest name]

/-- The method `ExitTest()`. -/
def ExitTest (lg : ILogger) : ILogger :=
  lg ++ [Event.ExitTest]

/-- The method `PushSection(name)`. -/
def PushSection (lg : ILogger) (name : String) : ILogger :=
  lg ++ [Event.PushSection name]

/-- The method `PopSection()`. -/
def PopSection (lg : ILogger) : ILogger :=
  lg ++ [Event.PopSection]

/-- The method `AssertFailed(type, location, message)`. -/
def AssertFailed (lg : ILogger) (type : AssertType) (location : AssertLocation)
    (message : String) : ILogger :=
  lg ++ [Event.AssertFailed type location message]

/-- The method `UnhandledException(message)`. -/
def UnhandledException (lg : ILogger) (message : String) : ILogger :=
  lg ++ [Event.UnhandledException message]

end ILogger

/-! ## RunOptions and the keyword filter -/

/-- The run options (`struct RunOptions`). -/
structure RunOptions where
  Verbose : Bool := false
  Keywords : List String := []
  deriving DecidableEq, Repr

/-- Whether `needle` starts `hay`. -/
def startsWith : List Char → List Char → Bool
  | [], _ => true
  | _ :: _, [] => false
  | a :: as, b :: bs => a == b && startsWith as bs

/-- The search of `std::string_view::find`: the first position at which
`needle` occurs in `hay`, counted from `pos`; `none` stands for `npos`. -/
def findFrom (needle : List Char) : List Char → Nat → Option Nat
  | [], pos => if needle.isEmpty then some pos else none
  | c :: cs, pos =>
    if startsWith needle (c :: cs) then some pos else findFrom needle cs (pos + 1)

/-- The call `haystack.find(needle)` on string views. -/
def find (haystack needle : String) : Option Nat :=
  findFrom needle.data haystack.data 0

/-- The inner loop of `ShouldRunTest`: some tag equals the keyword. -/
def tagsMatch (keyword : String) : List String → Bool
  | [] => false
  | tag :: rest => if tag == keyword then true else tagsMatch keyword rest

/-- The outer loop of `ShouldRunTest` over the keywords. -/
def keywordsMatch (test_name : String) (test_tags : List String) : List String → Bool
  | [] => false
  | keyword :: rest =>
    if (find test_name keyword).isSome then true
    else if tagsMatch keyword test_tags then true
    else keywordsMatch test_name test_tags rest

/-- The filter `TestRegistry::ShouldRunTest`. -/
def ShouldRunTest (options : RunOptions) (test_name : String) (test_tags : List String) : Bool :=
  if options.Keywords.isEmpty then true
  else keywordsMatch test_name test_tags options.Keywords

/-! ## SectionLock and CommonFixture -/

/-- The scoped section handle (`struct SectionLock`).  `m_logger00` records
whether the handle's logger pointer is non-null; a non-null pointer always
aliases the logger of the fixture that created the handle. -/
structure SectionLock where
  m_logger00 : Bool
  deriving DecidableEq, Repr

/-- The constructor `SectionLock(text, logger)`: takes the logger and notifies
`PushSection(text)`. -/
def SectionLock.ctor (text : String) (logger : ILogger) : SectionLock × ILogger :=
  ({ m_logger00 := true }, ILogger.PushSection logger text)

/-- The destructor `~SectionLock()`: notifies `PopSection()` when the pointer is
non-null, then resets it. -/
def SectionLock.dtor (self : SectionLock) (logger : ILogger) : SectionLock × ILogger :=
  if self.m_logger00 then ({ m_logger00 := false }, ILogger.PopSection logger)
  else (self, logger)

/-- The per-test runtime (`struct CommonFixture`). -/
structure CommonFixture where
  m_check_has_failed : Bool
  m_logger : ILogger
  deriving DecidableEq, Repr

/-- The constructor `CommonFixture(logger)`; `m_check_has_failed` starts false. -/
def CommonFixture.ctor (logger : ILogger) : CommonFixture :=
  { m_check_has_failed := false, m_logger := logger }

/-- The member `CommonFixture::HaveChecksFailed`. -/
def CommonFixture.HaveChecksFailed (self : CommonFixture) : Bool :=
  self.m_check_has_failed

/-- The member `CommonFixture::EnterSection(text)`: returns the handle built by
`SectionLock(text, m_logger)`. -/
def CommonFixture.EnterSection (self : CommonFixture) (text : String) :
    SectionLock × CommonFixture :=
  let r := SectionLock.ctor text self.m_logger
  (r.1, { self with m_logger := r.2 })

/-- The member `CommonFixture::HandleAssert(behavior, location, exception00)`.
The second component is the exception thrown, `none` on a normal return. -/
def CommonFixture.HandleAssert (self : CommonFixture) (behavior : AssertType)
    (location : AssertLocation) (exception00 : Option AssertException) :
    CommonFixture × Option Thrown :=
  match exception00 with
  | none => (self, none)
  | some ex =>
    let self1 := { self with
      m_logger := ILogger.AssertFailed self.m_logger behavior location ex.what }
    if behavior = AssertType.Throw then (self1, some ex.toThrown)
    else ({ self1 with m_check_has_failed := true }, none)

/-! ## Assert::Throws -/

/-- How a block of statements ends: it runs off its end, it executes `return`,
or an exception leaves it. -/
inductive Signal where
  | normal
  | returned
  | threw (e : Thrown)
  deriving DecidableEq, Repr

/-- The assertion `Assert::Throws<TException>(callback)`, for a callback acting
on a state `σ`.  Types are named by their `typeid` name. -/
def Assert.Throws {σ : Type} (TException : String) (callback : σ → σ × Signal) (s : σ) :
    σ × Option AssertException :=
  match callback s with
  | (s1, Signal.threw e) =>
    if e.catches TException then (s1, none)
    else if e.catches "std::exception" then
      (s1, some ⟨cstr ("Expected exception [" ++ TException ++ "] but caught ["
        ++ e.type ++ ": " ++ e.what ++ "]")⟩)
    else
      (s1, some ⟨cstr ("Expected exception [" ++ TException ++ "] but caught another")⟩)
  | (s1, _) =>
    (s1, some ⟨cstr ("Expected exception [" ++ TException ++ "] but none was thrown")⟩)

/-! ## Test bodies -/

/-- A block of a test body: a sequence of framework operations, each followed
by the rest of the block.
* `HandleAssert b loc o rest`: the statement `HandleAssert(b, loc, o);` where `o`
  is the outcome the assertion evaluated to;
* `EnterSection text inner rest`: `if (auto lock = EnterSection(text); true) { inner }`,
  the expansion of SECTION, SCENARIO, GIVEN, AND, WHEN and THEN;
* `Throws b loc K callback rest`:
  `HandleAssert(b, loc, Assert::Throws<K>([&] { callback }));`, the expansion of
  REQUIRE_THROW and CHECK_THROW;
* `throw e`: user code throws `e`;
* `ret`: the statement `return;`
* `done`: the end of the block. -/
inductive Body where
  | done
  | ret
  | throw (e : Thrown)
  | HandleAssert (behavior : AssertType) (location : AssertLocation)
      (exception00 : Option AssertException) (rest : Body)
  | EnterSection (text : String) (inner : Body) (rest : Body)
  | Throws (behavior : AssertType) (location : AssertLocation) (TException : String)
      (callback : Body) (rest : Body)
  deriving Repr

/-- Execution of a block on a fixture. -/
def exec : Body → CommonFixture → CommonFixture × Signal
  | Body.done, self => (self, Signal.normal)
  | Body.ret, self => (self, Signal.returned)
  | Body.throw e, self => (self, Signal.threw e)
  | Body.HandleAssert behavior location exception00 rest, self =>
    match self.HandleAssert behavior location exception00 with
    | (self1, some e) => (self1, Signal.threw e)
    | (self1, none) => exec rest self1
  | Body.EnterSection text inner rest, self =>
    let entered := self.EnterSection text
    let r := exec inner entered.2
    -- leaving the scope of the lock runs its destructor, on every exit path
    let left := SectionLock.dtor entered.1 r.1.m_logger
    let self2 := { r.1 with m_logger := left.2 }
    match r.2 with
    | Signal.normal => exec rest self2
    | s => (self2, s)
  | Body.Throws behavior location TException callback rest, self =>
    let r := Assert.Throws TException (exec callback) self
    match r.1.HandleAssert behavior location r.2 with
    | (self1, some e) => (self1, Signal.threw e)
    | (self1, none) => exec rest self1

/-! ## TestRegistry -/

/-- The callback type `std::function<bool (const ILoggerPtr&)>`: it returns a
flag or lets an exception escape, and leaves the logger in a new state. -/
abbrev TestCallback := ILogger → ILogger × Except Thrown Bool

/-- A registered descriptor (`struct TestDetails`). -/
structure TestDetails where
  Name : String
  Tags : List String
  Callback : TestCallback

/-- A test case type as `TEST_CASE` declares it: its static `Name` and `Tags` and
the body of its `Run()`; the fixture part is `CommonFixture`. -/
structure TTestCase where
  Name : String
  Tags : List String
  Run : Body
  deriving Repr

/-- The callback that `TestRegistry::Add<TTestCase>` stores: construct the test
case on the logger, run it, return `HaveChecksFailed()`. -/
def TestRegistry.AddCallback (T : TTestCase) : TestCallback :=
  fun logger =>
    let test_case := CommonFixture.ctor logger
    match exec T.Run test_case with
    | (test_case1, Signal.threw e) => (test_case1.m_logger, Except.error e)
    | (test_case1, _) => (test_case1.m_logger, Except.ok test_case1.HaveChecksFailed)

/-- The local `details` that `TestRegistry::Add<TTestCase>()` fills in. -/
def TestRegistry.details (T : TTestCase) : TestDetails :=
  { Name := T.Name, Tags := T.Tags, Callback := TestRegistry.AddCallback T }

/-- The registration `TestRegistry::Add<TTestCase>()` on the test vector:
`push_back` of the details. -/
def TestRegistry.Add (T : TTestCase) (s_test_vector : List TestDetails) : List TestDetails :=
  s_test_vector ++ [TestRegistry.details T]

/-- The state of the loop of `TestRegistry::Run`: the logger and the three counters. -/
structure RunState where
  logger : ILogger
  pass_count : Nat
  fail_count : Nat
  skip_count : Nat
  deriving DecidableEq, Repr

/-- The `try`/`catch` of `TestRegistry::Run` around one callback: the logger
afterwards and the value of `test_failed`. -/
def TestRegistry.RunCallback (Callback : TestCallback) (logger : ILogger) : ILogger × Bool :=
  match Callback logger with
  | (logger1, Except.ok test_failed) => (logger1, test_failed)
  | (logger1, Except.error e) =>
    if e.catches "AssertException" then (logger1, true)
    else if e.catches "std::exception" then (ILogger.UnhandledException logger1 e.what, true)
    else (ILogger.UnhandledException logger1 "<unstructured>", true)

/-- One iteration of the loop of `TestRegistry::Run`. -/
def TestRegistry.RunTestCase (options : RunOptions) (st : RunState) (test_case : TestDetails) :
    RunState :=
  if !ShouldRunTest options test_case.Name test_case.Tags then
    { st with logger := ILogger.SkipTest st.logger test_case.Name,
              skip_count := st.skip_count + 1 }
  else
    let logger1 := ILogger.EnterTest st.logger test_case.Name
    let r := TestRegistry.RunCallback test_case.Callback logger1
    let logger2 := ILogger.ExitTest r.1
    if r.2 then { st with logger := logger2, fail_count := st.fail_count + 1 }
    else { st with logger := logger2, pass_count := st.pass_count + 1 }

/-- The loop of `TestRegistry::Run` over the test vector, in order. -/
def TestRegistry.RunLoop (options : RunOptions) (all_test_cases : List TestDetails)
    (st : RunState) : RunState :=
  all_test_cases.foldl (TestRegistry.RunTestCase options) st

/-- The function `TestRegistry::Run(options, logger)` on a test vector: the
logger after the run. -/
def TestRegistry.Run (options : RunOptions) (all_test_cases : List TestDetails)
    (logger : ILogger) : ILogger :=
  let st := TestRegistry.RunLoop options all_test_cases
    { logger := ILogger.BeginRun logger all_test_cases.length,
      pass_count := 0, fail_count := 0, skip_count := 0 }
  ILogger.EndRun st.logger st.pass_count st.fail_count st.skip_count

/-- The test vector after registering the given test cases in order. -/
def TestRegistry.AddAll (Ts : List TTestCase) : List TestDetails :=
  Ts.foldl (fun s_test_vector T => TestRegistry.Add T s_test_vector) []

/-! ## Observations used in the statements -/

/-- The events a body sends to the logger when it runs on a fresh fixture. -/
def bodyEvents (b : Body) : List Event :=
  (exec b (CommonFixture.ctor [])).1.m_logger

/-- How a body run on a fresh fixture ends. -/
def bodySignal (b : Body) : Signal :=
  (exec b (CommonFixture.ctor [])).2

/-- The value of `HaveChecksFailed()` after a body ran on a fresh fixture. -/
def bodyChecksFailed (b : Body) : Bool :=
  (exec b (CommonFixture.ctor [])).1.HaveChecksFailed

/-- The events one iteration of the loop of `Run` adds for a registered test case. -/
def testEvents (options : RunOptions) (T : TTestCase) : List Event :=
  (TestRegistry.RunTestCase options
    { logger := [], pass_count := 0, fail_count := 0, skip_count := 0 }
    (TestRegistry.details T)).logger

/-- The report expected at the per-test boundary for the way a body ended:
nothing for a normal end or for the fatal signal, one `UnhandledException`
otherwise. -/
def faultReport : Signal → List Event
  | Signal.threw e =>
    if e.catches "AssertException" then []
    else if e.catches "std::exception" then [Event.UnhandledException e.what]
    else [Event.UnhandledException "<unstructured>"]
  | _ => []

/-- Events a fixture sends: section pushes and pops and assertion failures. -/
def Event.isBodyEvent : Event → Bool
  | Event.PushSection _ => true
  | Event.PopSection => true
  | Event.AssertFailed _ _ _ => true
  | _ => false

/-- A `BeginRun` event. -/
def Event.isBeginRun : Event → Bool
  | Event.BeginRun _ => true
  | _ => false

/-- An `EndRun` event. -/
def Event.isEndRun : Event → Bool
  | Event.EndRun _ _ _ => true
  | _ => false

/-- A `SkipTest` event. -/
def Event.isSkipTest : Event → Bool
  | Event.SkipTest _ => true
  | _ => false

/-- An `EnterTest` event. -/
def Event.isEnterTest : Event → Bool
  | Event.EnterTest _ => true
  | _ => false

/-- An `ExitTest` event. -/
def Event.isExitTest : Event → Bool
  | Event.ExitTest => true
  | _ => false

/-- An `UnhandledException` event. -/
def Event.isUnhandledException : Event → Bool
  | Event.UnhandledException _ => true
  | _ => false

/-- The name a `SkipTest` or `EnterTest` event carries. -/
def Event.visitedName : Event → Option String
  | Event.SkipTest name => some name
  | Event.EnterTest name => some name
  | _ => none

/-- The names carried by the `SkipTest` and `EnterTest` events of a trace, in order. -/
def visitedNames (trace : List Event) : List String :=
  trace.filterMap Event.visitedName

/-- Whether a block contains an `Assert::Throws` statement at any depth. -/
def Body.hasThrows : Body → Bool
  | Body.done => false
  | Body.ret => false
  | Body.throw _ => false
  | Body.HandleAssert _ _ _ rest => rest.hasThrows
  | Body.EnterSection _ inner rest => inner.hasThrows || rest.hasThrows
  | Body.Throws _ _ _ _ _ => true

/-- The outcome `Assert::Throws<K>` computes from the way its callback ended. -/
def throwsOutcome (K : String) : Signal → Option AssertException
  | Signal.threw e =>
    if e.catches K then none
    else if e.catches "std::exception" then
      some ⟨cstr ("Expected exception [" ++ K ++ "] but caught ["
        ++ e.type ++ ": " ++ e.what ++ "]")⟩
    else some ⟨cstr ("Expected exception [" ++ K ++ "] but caught another")⟩
  | _ => some ⟨cstr ("Expected exception [" ++ K ++ "] but none was thrown")⟩

/-- The value `Run` gives `test_failed` for a body: true when an exception left
the body, else the fixture's `HaveChecksFailed()`. -/
def bodyFailed (b : Body) : Bool :=
  match bodySignal b with
  | Signal.threw _ => true
  | _ => bodyChecksFailed b

/-- The test ran and was tallied as passed. -/
def testPassed (options : RunOptions) (T : TTestCase) : Bool :=
  ShouldRunTest options T.Name T.Tags && !bodyFailed T.Run

/-- The test ran and was tallied as failed. -/
def testFailed (options : RunOptions) (T : TTestCase) : Bool :=
  ShouldRunTest options T.Name T.Tags && bodyFailed T.Run

/-- The test was excluded by the filter. -/
def testSkipped (options : RunOptions) (T : TTestCase) : Bool :=
  !ShouldRunTest options T.Name T.Tags

/-- A continuing failure report: `AssertFailed` with severity `Continue`. -/
def Event.isContinueFailure : Event → Bool
  | Event.AssertFailed AssertType.Continue _ _ => true
  | _ => false

/-! ## Section macros -/

/-- The macro `SECTION(Text)` with its block and the statements after it:
`if (auto lock = EnterSection("Section: " Text); true) { inner } rest`.  The
literal initialises the `std::string` parameter as a C string. -/
def SECTION (Text : String) (inner rest : Body) : Body :=
  Body.EnterSection (cstr ("Section: " ++ Text)) inner rest

/-- The macro `SCENARIO(Text)`. -/
def SCENARIO (Text : String) (inner rest : Body) : Body :=
  Body.EnterSection (cstr ("Scenario: " ++ Text)) inner rest

/-- The macro `GIVEN(Text)`. -/
def GIVEN (Text : String) (inner rest : Body) : Body :=
  Body.EnterSection (cstr ("Given: " ++ Text)) inner rest

/-- The macro `AND(Text)`. -/
def AND (Text : String) (inner rest : Body) : Body :=
  Body.EnterSection (cstr ("And: " ++ Text)) inner rest

/-- The macro `WHEN(Text)`. -/
def WHEN (Text : String) (inner rest : Body) : Body :=
  Body.EnterSection (cstr ("When: " ++ Text)) inner rest

/-- The macro `THEN(Text)`. -/
def THEN (Text : String) (inner rest : Body) : Body :=
  Body.EnterSection (cstr ("Then: " ++ Text)) inner rest

/-! ## Observations on sections and on sequences of assertions -/

/-- A `PushSection` event. -/
def Event.isPushSection : Event → Bool
  | Event.PushSection _ => true
  | _ => false

/-- A `PopSection` event. -/
def Event.isPopSection : Event → Bool
  | Event.PopSection => true
  | _ => false

/-- The section depth after a trace that starts at depth `d`; `none` when a
`PopSection` arrives at depth 0. -/
def sectionDepth : Nat → List Event → Option Nat
  | d, [] => some d
  | d, Event.PushSection _ :: rest => sectionDepth (d + 1) rest
  | 0, Event.PopSection :: _ => none
  | d + 1, Event.PopSection :: rest => sectionDepth d rest
  | d, _ :: rest => sectionDepth d rest

/-- The arguments of one call of `HandleAssert`. -/
structure AssertCall where
  behavior : AssertType
  location : AssertLocation
  exception00 : Option AssertException
  deriving DecidableEq, Repr

/-- A call that is a continuing failure: severity `Continue` and a Fail outcome. -/
def AssertCall.isContinueFail (c : AssertCall) : Bool :=
  decide (c.behavior = AssertType.Continue) && c.exception00.isSome

/-- A sequence of `HandleAssert` calls on one fixture instance, in order; a call
that throws leaves the instance as it is at the throw. -/
def CommonFixture.HandleAsserts (self : CommonFixture) : List AssertCall → CommonFixture
  | [] => self
  | c :: rest =>
    CommonFixture.HandleAsserts (self.HandleAssert c.behavior c.location c.exception00).1 rest

/-- A run of failing continuing checks, one statement
`HandleAssert(Continue, location, failure)` per entry, before `rest`. -/
def failingChecks : List (AssertLocation × AssertException) → Body → Body
  | [], rest => rest
  | c :: cs, rest =>
    Body.HandleAssert AssertType.Continue c.1 (some c.2) (failingChecks cs rest)

/-- Sequencing of blocks: `first` followed by `second`, taken at the end of
`first`. -/
def Body.seq : Body → Body → Body
  | Body.done, second => second
  | Body.ret, _ => Body.ret
  | Body.throw e, _ => Body.throw e
  | Body.HandleAssert b loc o rest, second => Body.HandleAssert b loc o (rest.seq second)
  | Body.EnterSection text inner rest, second =>
    Body.EnterSection text inner (rest.seq second)
  | Body.Throws b loc K callback rest, second =>
    Body.Throws b loc K callback (rest.seq second)

/-- One enclosing section of a statement: the statements before the section in
its block, the section text, and the statements after the section. -/
structure EnclosingSection where
  before : Body
  text : String
  after : Body
  deriving Repr

/-- A fatal assertion failure inside nested sections, outermost first: in each
frame the statements `before`, then the section holding the next frame; in the
innermost block the statements `before`, the failing
`HandleAssert(Throw, location, failure)` and the statements `rest`. -/
def fatalInside : List EnclosingSection → Body → AssertLocation → AssertException → Body → Body
  | [], before, location, failure, rest =>
    before.seq (Body.HandleAssert AssertType.Throw location (some failure) rest)
  | f :: frames, before, location, failure, rest =>
    f.before.seq
      (Body.EnterSection f.text (fatalInside frames before location failure rest) f.after)

/-- The events of a body `fatalInside frames before ...` that precede the report
of the fatal failure: for each enclosing section the events of the statements
before it and its push, then the events of the innermost statements `before`. -/
def eventsBeforeFatal : List EnclosingSection → Body → List Event
  | [], before => bodyEvents before
  | f :: frames, before =>
    bodyEvents f.before ++ Event.PushSection f.text :: eventsBeforeFatal frames before

/-- Whether a text is a C string: it holds no NUL character. -/
def isCString (s : String) : Bool :=
  s.data.all (fun c => c != Char.ofNat 0)

/-! ## Ext::ToString -/

/-- The size of `size_t` and of a pointer, in bytes (a 64-bit platform). -/
def sizeof_size_t : Nat := 8

/-- The lowercase hexadecimal digit of a value below 16. -/
def hexDigit (d : Nat) : Char :=
  if d < 10 then Char.ofNat (48 + d) else Char.ofNat (87 + d)

/-- The last `width` hexadecimal digits of `n`, most significant first: what
`std::hex`, `std::setfill('0')` and `std::setw(width)` write for a value of at
most `width` digits. -/
def hexFixed : Nat → Nat → List Char
  | 0, _ => []
  | width + 1, n => hexFixed width (n / 16) ++ [hexDigit (n % 16)]

/-- What `Ext::ToString<T>` inspects of its argument type `T`, one field per
branch of its `if constexpr` chain:
* `is_null_pointer`: `std::is_null_pointer_v<T>`;
* `string_ctor`: the conversion `std::string(value)`, when
  `std::is_constructible_v<std::string, const T&>`;
* `pointer_address`: `reinterpret_cast<std::uintptr_t>(value)`, when
  `std::is_pointer_v<T>`;
* `enum_stream`: `typeid(T).name()` and the text `operator<<` writes for
  `static_cast<std::underlying_type_t<T>>(value)`, when `std::is_enum_v<T>`;
* `to_string`: `std::to_string(value)`, for the types that reach the last branch. -/
class Ext.TypeInfo (T : Type) where
  is_null_pointer : Bool
  string_ctor : Option (T → String)
  pointer_address : Option (T → Nat)
  enum_stream : Option (String × (T → String))
  to_string : T → String

/-- The function template `Ext::ToString`. -/
def Ext.ToString {T : Type} [info : Ext.TypeInfo T] (value : T) : String :=
  if info.is_null_pointer then "nullptr"
  else
    match info.string_ctor with
    | some ctor => ctor value
    | none =>
      match info.pointer_address with
      | some address =>
        "0x" ++ String.mk (hexFixed (sizeof_size_t * 2) (address value % 2 ^ 64))
      | none =>
        match info.enum_stream with
        | some (name, stream) => "[" ++ name ++ "] " ++ stream value
        | none => info.to_string value

/-- The type `int`: `std::to_string` writes the decimal text, with a minus sign
for a negative value. -/
instance instTypeInfoInt : Ext.TypeInfo Int where
  is_null_pointer := false
  string_ctor := none
  pointer_address := none
  enum_stream := none
  to_string := fun value => toString value

/-- The type `bool`: `std::to_string` takes it promoted to `int`. -/
instance instTypeInfoBool : Ext.TypeInfo Bool where
  is_null_pointer := false
  string_ctor := none
  pointer_address := none
  enum_stream := none
  to_string := fun value => if value then "1" else "0"

/-- A non-null pointer to characters: its address and the characters stored
there, read as a C string. -/
structure CharPtr where
  address : Nat
  chars : String
  deriving DecidableEq, Repr

/-- A text argument in one of its C++ representations: a `const char*` (a string
literal or another pointer to constant characters), a `char*` (a mutable buffer),
a `std::string` or a `std::string_view`. -/
inductive TextArg where
  | const_char_ptr (p : CharPtr)
  | char_ptr (p : CharPtr)
  | std_string (s : String)
  | std_string_view (s : String)
  deriving DecidableEq, Repr

/-- The character sequence of a text argument. -/
def TextArg.text : TextArg → String
  | TextArg.const_char_ptr p => cstr p.chars
  | TextArg.char_ptr p => cstr p.chars
  | TextArg.std_string s => s
  | TextArg.std_string_view s => s

/-- The address of a text argument that is a raw character pointer. -/
def TextArg.rawAddress : TextArg → Option Nat
  | TextArg.const_char_ptr p => some p.address
  | TextArg.char_ptr p => some p.address
  | _ => none

/-- The four text types are constructible to `std::string`: `Ext::ToString`
returns `std::string(value)`. -/
instance instTypeInfoTextArg : Ext.TypeInfo TextArg where
  is_null_pointer := false
  string_ctor := some TextArg.text
  pointer_address := none
  enum_stream := none
  to_string := fun _ => ""

/-- The expression `left == right` on two text arguments: two raw character
pointers compare their addresses (the built-in comparison, after array-to-pointer
conversion); with a `std::string` or `std::string_view` operand the library
operators compare the character sequences. -/
def TextArg.operatorEq (left right : TextArg) : Bool :=
  match left.rawAddress, right.rawAddress with
  | some a, some b => a == b
  | _, _ => left.text == right.text

/-! ## Assert -/

/-- The function template `Assert::AreEqual(left, right)`; `eq` is the
`operator==` of the two operand types.  The failure is built from
`msg.c_str()`. -/
def Assert.AreEqual {TLeft TRight : Type} [Ext.TypeInfo TLeft] [Ext.TypeInfo TRight]
    (eq : TLeft → TRight → Bool) (left : TLeft) (right : TRight) :
    Option AssertException :=
  let equal := eq left right
  if equal then none
  else
    let msg := "[" ++ Ext.ToString left ++ "] == [" ++ Ext.ToString right ++ "]"
    some ⟨cstr msg⟩

/-- The overload `Assert::AreEqual(const char* left, const char* right)`: the
operands are compared with `std::strcmp`. -/
def Assert.AreEqual_const_char_ptr (left right : CharPtr) : Option AssertException :=
  let equal := cstr left.chars == cstr right.chars
  if equal then none
  else
    let msg := "[" ++ Ext.ToString (TextArg.const_char_ptr left) ++ "] == [" ++
      Ext.ToString (TextArg.const_char_ptr right) ++ "]"
    some ⟨cstr msg⟩

/-- The call `Assert::AreEqual(left, right)` on two text arguments, after
overload resolution: two `const char*` arguments select the non-template
overload (both candidates convert them equally well, and the non-template one is
preferred); any other pair selects the template, whose forwarding references
bind without a conversion (a `char*` argument would need a qualification
conversion for the overload). -/
def Assert.AreEqualText (left right : TextArg) : Option AssertException :=
  match left, right with
  | TextArg.const_char_ptr p, TextArg.const_char_ptr q =>
    Assert.AreEqual_const_char_ptr p q
  | _, _ => Assert.AreEqual TextArg.operatorEq left right

/-- A pointer `T*`: the name of `T` and the address. -/
structure Pointer where
  pointee : String
  address : Nat
  deriving DecidableEq, Repr

/-- The expression `value == nullptr` on a pointer. -/
def Pointer.eqNullptr (value : Pointer) : Bool :=
  value.address == 0

/-- The expression `value == nullptr` on a `std::nullptr_t`. -/
def nullptr_t_eqNullptr (_ : Unit) : Bool :=
  true

/-- The function template `Assert::IsNull(value, expression)`; `eqNullptr` is the
comparison `value == nullptr` of the operand type. -/
def Assert.IsNull {T : Type} (eqNullptr : T → Bool) (value : T) (expression : String) :
    Option AssertException :=
  if eqNullptr value then none
  else some ⟨"IsNull(" ++ cstr expression ++ ")"⟩

/-- The function `Assert::IsTrue(value, expression)`. -/
def Assert.IsTrue (value : Bool) (expression : String) : Option AssertException :=
  if !value then some ⟨"IsTrue(" ++ cstr expression ++ ")"⟩
  else none

/-- The function `Assert::IsFalse(value, expression)`. -/
def Assert.IsFalse (value : Bool) (expression : String) : Option AssertException :=
  if value then some ⟨"IsFalse(" ++ cstr expression ++ ")"⟩
  else none

/-! ## Ext::ToString on pointers, enums and numbers -/

/-- The type `const char*` (non-null): it is constructible to `std::string`, and
it is a pointer. -/
instance instTypeInfoCharPtr : Ext.TypeInfo CharPtr where
  is_null_pointer := false
  string_ctor := some (fun value => cstr value.chars)
  pointer_address := some CharPtr.address
  enum_stream := none
  to_string := fun _ => ""

/-- The type `std::nullptr_t`. -/
instance instTypeInfoNullptr : Ext.TypeInfo Unit where
  is_null_pointer := true
  string_ctor := none
  pointer_address := none
  enum_stream := none
  to_string := fun _ => ""

/-- A pointer type `T*` whose pointee is not a character type. -/
instance instTypeInfoPointer : Ext.TypeInfo Pointer where
  is_null_pointer := false
  string_ctor := none
  pointer_address := some Pointer.address
  enum_stream := none
  to_string := fun _ => ""

/-- An integer type: its signedness and its width in bits (8, 16, 32 or 64).
The 8-bit types are the character types `signed char` and `unsigned char`
(`int8_t`, `uint8_t`). -/
structure IntegerType where
  signed : Bool
  bits : Nat
  deriving DecidableEq, Repr

/-- The text `operator<<` writes to a stream for a value of an integer type: the
character with that code for an 8-bit type, the decimal number otherwise. -/
def streamInteger (ty : IntegerType) (value : Int) : String :=
  if ty.bits = 8 then String.mk [Char.ofNat (value % 256).toNat]
  else toString value

/-- A value of an enum type, given by `typeid(T).name()` of the type, its
underlying type and the underlying integer. -/
structure EnumValue (name : String) (underlying : IntegerType) where
  value : Int
  deriving DecidableEq, Repr

/-- An enum type: `Ext::ToString` streams the value cast to its underlying type. -/
instance instTypeInfoEnum (name : String) (underlying : IntegerType) :
    Ext.TypeInfo (EnumValue name underlying) where
  is_null_pointer := false
  string_ctor := none
  pointer_address := none
  enum_stream := some (name, fun v => streamInteger underlying v.value)
  to_string := fun _ => ""

/-- A finite `float` or `double`, given by its exact value `num / den`. -/
structure FloatingPoint where
  num : Int
  den : Nat
  deriving DecidableEq, Repr

/-- The last `width` decimal digits of `n`, most significant first. -/
def decFixed : Nat → Nat → List Char
  | 0, _ => []
  | width + 1, n => decFixed width (n / 10) ++ [Char.ofNat (48 + n % 10)]

/-- The quotient `a / d` rounded to the nearest integer, ties to even. -/
def roundHalfEven (a d : Nat) : Nat :=
  let q := a / d
  let r := a % d
  if 2 * r < d then q
  else if d < 2 * r then q + 1
  else if q % 2 = 0 then q else q + 1

/-- The function `std::to_string` on a `float` or `double`: the `printf` format
`%f`, fixed notation with six digits after the point. -/
def std_to_string_f (value : FloatingPoint) : String :=
  let scaled := roundHalfEven (value.num.natAbs * 10 ^ 6) value.den
  (if value.num < 0 then "-" else "") ++ toString (scaled / 10 ^ 6) ++ "." ++
    String.mk (decFixed 6 (scaled % 10 ^ 6))

/-- The types `float` and `double`. -/
instance instTypeInfoFloatingPoint : Ext.TypeInfo FloatingPoint where
  is_null_pointer := false
  string_ctor := none
  pointer_address := none
  enum_stream := none
  to_string := std_to_string_f

/-- The call `Ext::ToString(value)` on a `const char*` that may be null (`none`).
`std::string(value)` requires a pointer to a C string; on a null pointer the
behaviour is undefined and no string is returned (`none`). -/
def Ext.ToString_const_char_ptr (value : Option CharPtr) : Option String :=
  match value with
  | none => none
  | some p => some (Ext.ToString p)

/-! ## RunOptions::ParseCommandLine, TEST_CASE and main -/

/-- The result of `ParseCommandLine`: the options afterwards, the lines written
to `std::cout` and the value returned. -/
structure ParseResult where
  options : RunOptions
  out : List String
  ok : Bool
  deriving DecidableEq, Repr

/-- The loop of `ParseCommandLine` over the arguments `argv[1]`, `argv[2]`, ... -/
def RunOptions.ParseArguments : RunOptions → List String → ParseResult
  | self, [] => { options := self, out := [], ok := true }
  | self, arg :: rest =>
    if arg.data.head? ≠ some '-' then
      RunOptions.ParseArguments { self with Keywords := self.Keywords ++ [arg] } rest
    else
      let option_name := String.mk (arg.data.drop 1)
      if option_name == "h" || option_name == "-help" || option_name == "?" then
        { options := self,
          out := ["Usage:",
                  "    -h, --help, -?:  Displays this message",
                  "    -v, --verbose:   Show verbose output"],
          ok := false }
      else if option_name == "v" || option_name == "-verbose" then
        RunOptions.ParseArguments { self with Verbose := true } rest
      else
        { options := self, out := ["Unknown option: " ++ option_name], ok := false }

/-- The member `RunOptions::ParseCommandLine(argc, argv)`; `argv` holds the `argc`
argument C strings, the program name first. -/
def RunOptions.ParseCommandLine (self : RunOptions) (argv : List String) : ParseResult :=
  RunOptions.ParseArguments self (argv.drop 1)

/-- The macro `TEST_CASE(TestFixture, TestName, tags...)` with the body of its
`Run()`: the name is `#TestFixture "::" #TestName`. -/
def TEST_CASE (TestFixture TestName : String) (tags : List String) (Run : Body) : TTestCase :=
  { Name := TestFixture ++ "::" ++ TestName, Tags := tags, Run := Run }

/-- What a run of the generated `main` does: its exit code, the lines
`ParseCommandLine` wrote, and the events `TestRegistry::Run` sent to the logger
it was given. -/
structure MainResult where
  exit_code : Int
  out : List String
  events : List Event
  deriving DecidableEq, Repr

/-- The generated `main(argc, argv)`, on the test vector filled by the
registrations. -/
def main (argv : List String) (s_test_vector : List TestDetails) : MainResult :=
  let parsed := RunOptions.ParseCommandLine {} argv
  if !parsed.ok then { exit_code := -1, out := parsed.out, events := [] }
  else
    { exit_code := 0, out := parsed.out,
      events := TestRegistry.Run parsed.options s_test_vector [] }

/-- An argument that `ParseCommandLine` rejects: it starts with `-` and is
neither `-v` nor `--verbose`. -/
def isRejectedArgument (arg : String) : Bool :=
  arg.data.head? == some '-' && !(arg == "-v" || arg == "--verbose")

/-- A positional argument: it does not start with `-`. -/
def isPositional (arg : String) : Bool :=
  arg.data.head? != some '-'

/-! ## Fatal failures outside callbacks -/

/-- A fatal failure of a body: the location and the failure object of the call
`HandleAssert(Throw, location, failure)` and the number of sections open around
the statement that makes it. -/
structure FatalFailure where
  location : AssertLocation
  failure : AssertException
  depth : Nat
  deriving DecidableEq, Repr

/-- The fatal failure a body runs into outside any `Assert::Throws` callback: the
first call `HandleAssert(Throw, location, failure)` with a Fail outcome that a
statement of the body itself makes, be it a plain assertion or a
`REQUIRE_THROW` whose `Assert::Throws` returned Fail, following the statements
in the order `exec` runs them.  Calls made by the statements of a callback do
not count; `none` when the body ends without such a call. -/
def Body.fatalFailure : Body → Option FatalFailure
  | Body.done => none
  | Body.ret => none
  | Body.throw _ => none
  | Body.HandleAssert behavior location exception00 rest =>
    match exception00 with
    | none => rest.fatalFailure
    | some ex =>
      if behavior = AssertType.Throw then some { location := location, failure := ex, depth := 0 }
      else rest.fatalFailure
  | Body.EnterSection _ inner rest =>
    match inner.fatalFailure with
    | some f => some { f with depth := f.depth + 1 }
    | none => if bodySignal inner = Signal.normal then rest.fatalFailure else none
  | Body.Throws behavior location TException callback rest =>
    match throwsOutcome TException (bodySignal callback) with
    | none => rest.fatalFailure
    | some ex =>
      if behavior = AssertType.Throw then some { location := location, failure := ex, depth := 0 }
      else rest.fatalFailure

/-- Whether a block holds a `throw` statement of user code outside every
`Assert::Throws` callback, at any depth of sections. -/
def Body.hasThrowOutside : Body → Bool
  | Body.done => false
  | Body.ret => false
  | Body.throw _ => true
  | Body.HandleAssert _ _ _ rest => rest.hasThrowOutside
  | Body.EnterSection _ inner rest => inner.hasThrowOutside || rest.hasThrowOutside
  | Body.Throws _ _ _ _ rest => rest.hasThrowOutside

/-! ## SectionLock moves -/

/-- The console logger (`struct ConsoleLogger`) with the standard output it
writes to: `m_test_log` is the text buffered in the string stream, `cout` the
text written to `std::cout` so far. -/
structure ConsoleLogger where
  m_run_options : RunOptions
  m_test_failed : Bool
  m_indent_level : Nat
  m_test_log : String
  cout : String
  deriving DecidableEq, Repr

namespace ConsoleLogger

/-- The end of a line, `std::endl`. -/
def endl : String := String.mk [Char.ofNat 10]

/-- The factory `ConsoleLogger::Create(options)`, on an empty standard output. -/
def Create (options : RunOptions) : ConsoleLogger :=
  { m_run_options := options, m_test_failed := false, m_indent_level := 0,
    m_test_log := "", cout := "" }

/-- The helper `Indent()`: four spaces per indent level go to the buffer. -/
def Indent (self : ConsoleLogger) : ConsoleLogger :=
  { self with
    m_test_log := self.m_test_log ++
      String.join (List.replicate self.m_indent_level "    ") }

/-- The helper `FlushLog()`: the buffer goes to `std::cout` as a C string and is
replaced by an empty stream. -/
def FlushLog (self : ConsoleLogger) : ConsoleLogger :=
  { self with cout := self.cout ++ cstr self.m_test_log, m_test_log := "" }

/-- The statement `if (m_run_options->Verbose) { FlushLog(); }`. -/
def FlushIfVerbose (self : ConsoleLogger) : ConsoleLogger :=
  if self.m_run_options.Verbose then self.FlushLog else self

/-- The method `BeginRun(test_count)`. -/
def BeginRun (self : ConsoleLogger) (test_count : Nat) : ConsoleLogger :=
  { self with
    cout := self.cout ++ "Running " ++ toString test_count ++ " test cases..." ++ endl }

/-- The method `EndRun(pass_count, fail_count, skip_count)`. -/
def EndRun (self : ConsoleLogger) (pass_count fail_count skip_count : Nat) : ConsoleLogger :=
  { self with
    cout := self.cout ++ "Complete." ++ endl ++
      "    Passed:  " ++ toString pass_count ++ endl ++
      "    Failed:  " ++ toString fail_count ++ endl ++
      "    Skipped: " ++ toString skip_count ++ endl }

/-- The method `SkipTest(name)`.  The call `m_test_log.clear()` resets the error
flags of the stream and keeps its content. -/
def SkipTest (self : ConsoleLogger) (name : String) : ConsoleLogger :=
  FlushIfVerbose
    { self with m_test_log := self.m_test_log ++ "Skip: " ++ cstr name ++ endl }

/-- The method `EnterTest(name)`. -/
def EnterTest (self : ConsoleLogger) (name : String) : ConsoleLogger :=
  FlushIfVerbose
    { self with
      m_test_failed := false,
      m_test_log := "" ++ "Test: " ++ cstr name ++ endl,
      m_indent_level := self.m_indent_level + 1 }

/-- The method `ExitTest()`. -/
def ExitTest (self : ConsoleLogger) : ConsoleLogger :=
  let self1 := { self with m_indent_level := 0 }
  if self1.m_test_failed || self1.m_run_options.Verbose then self1.FlushLog else self1

/-- The method `SkipSection(name)`. -/
def SkipSection (self : ConsoleLogger) (name : String) : ConsoleLogger :=
  let self1 := self.Indent
  FlushIfVerbose
    { self1 with m_test_log := self1.m_test_log ++ "[Skipped] " ++ cstr name ++ endl }

/-- The method `PushSection(name)`. -/
def PushSection (self : ConsoleLogger) (name : String) : ConsoleLogger :=
  let self1 := self.Indent
  FlushIfVerbose
    { self1 with
      m_test_log := self1.m_test_log ++ cstr name ++ endl,
      m_indent_level := self1.m_indent_level + 1 }

/-- The method `PopSection()`. -/
def PopSection (self : ConsoleLogger) : ConsoleLogger :=
  if 0 < self.m_indent_level then { self with m_indent_level := self.m_indent_level - 1 }
  else self

/-- The method `AssertFailed(type, location, message)`. -/
def AssertFailed (self : ConsoleLogger) (type : AssertType) (location : AssertLocation)
    (message : String) : ConsoleLogger :=
  let self1 := { self with m_test_failed := true }.Indent
  FlushIfVerbose
    { self1 with
      m_test_log := self1.m_test_log ++ "@" ++ toString location.LineNumber ++ " " ++
        (match type with
         | AssertType.Throw => "REQUIRE"
         | AssertType.Continue => "CHECK") ++
        ": " ++ cstr message ++ endl }

/-- The method `UnhandledException(message)`. -/
def UnhandledException (self : ConsoleLogger) (message : String) : ConsoleLogger :=
  let self1 := { self with m_test_failed := true }.Indent
  FlushIfVerbose
    { self1 with m_test_log := self1.m_test_log ++ "Fail: " ++ cstr message ++ endl }

/-- The console logger receiving one event of the `ILogger` interface. -/
def handle (self : ConsoleLogger) : Event → ConsoleLogger
  | Event.BeginRun test_count => self.BeginRun test_count
  | Event.EndRun pass_count fail_count skip_count =>
    self.EndRun pass_count fail_count skip_count
  | Event.SkipTest name => self.SkipTest name
  | Event.EnterTest name => self.EnterTest name
  | Event.ExitTest => self.ExitTest
  | Event.SkipSection name => self.SkipSection name
  | Event.PushSection name => self.PushSection name
  | Event.PopSection => self.PopSection
  | Event.AssertFailed type location message => self.AssertFailed type location message
  | Event.UnhandledException message => self.UnhandledException message

/-- The console logger receiving a sequence of events, in order. -/
def consume (self : ConsoleLogger) (events : List Event) : ConsoleLogger :=
  events.foldl handle self

end ConsoleLogger

/-- A failure report: `AssertFailed` or `UnhandledException`. -/
def Event.isFailure : Event → Bool
  | Event.AssertFailed _ _ _ => true
  | Event.UnhandledException _ => true
  | _ => false

/-- An event a test sends between `EnterTest` and `ExitTest`: a section event or a
failure report. -/
def Event.isInnerEvent : Event → Bool
  | Event.PushSection _ => true
  | Event.PopSection => true
  | Event.SkipSection _ => true
  | Event.AssertFailed _ _ _ => true
  | Event.UnhandledException _ => true
  | _ => false

/-- The text a test leaves in the buffer of a console logger with `Verbose` off:
the buffer after `EnterTest(name)` and the events of the test. -/
def ConsoleLogger.testLog (name : String) (events : List Event) : String :=
  (ConsoleLogger.consume (ConsoleLogger.Create {}) (Event.EnterTest name :: events)).m_test_log

/-- What a registered test lets a console logger with `Verbose` off print: its
buffered log when it ran and received a failure report, nothing otherwise. -/
def ConsoleLogger.quietOutput (options : RunOptions) (T : TTestCase) : String :=
  if ShouldRunTest options T.Name T.Tags &&
      (bodyEvents T.Run ++ faultReport (bodySignal T.Run)).any Event.isFailure then
    cstr (ConsoleLogger.testLog T.Name (bodyEvents T.Run ++ faultReport (bodySignal T.Run)))
  else ""

/-! ## The keyword filter -/

theorem startsWith_iff (needle hay : List Char) :
    startsWith needle hay = true ↔ needle <+: hay := by
  induction needle generalizing hay with
  | nil => simp [startsWith]
  | cons a as ih =>
    cases hay with
    | nil => simp [startsWith]
    | cons b bs => simp [startsWith, ih, List.cons_prefix_cons]

theorem findFrom_isSome_iff (needle hay : List Char) (pos : Nat) :
    (findFrom needle hay pos).isSome = true ↔ needle <:+: hay := by
  induction hay generalizing pos with
  | nil =>
    cases needle <;> simp [findFrom]
  | cons c cs ih =>
    rw [findFrom, List.infix_cons_iff]
    by_cases h : startsWith needle (c :: cs) = true
    · simp [h, (startsWith_iff needle (c :: cs)).1 h]
    · have hp : ¬ needle <+: c :: cs := fun hp => h ((startsWith_iff _ _).2 hp)
      simp [h, hp, ih]

theorem tagsMatch_iff (keyword : String) (tags : List String) :
    tagsMatch keyword tags = true ↔ keyword ∈ tags := by
  induction tags with
  | nil => simp [tagsMatch]
  | cons t ts ih =>
    by_cases h : t = keyword
    · simp [tagsMatch, h]
    · have h2 : ¬ keyword = t := fun e => h e.symm
      simp [tagsMatch, h, h2, ih]

theorem keywordsMatch_iff (name : String) (tags keywords : List String) :
    keywordsMatch name tags keywords = true ↔
      ∃ k ∈ keywords, k.data <:+: name.data ∨ k ∈ tags := by
  induction keywords with
  | nil => simp [keywordsMatch]
  | cons k ks ih =>
    have hf : (find name k).isSome = true ↔ k.data <:+: name.data := by
      unfold find
      exact findFrom_isSome_iff _ _ _
    by_cases h1 : (find name k).isSome = true
    · simp [keywordsMatch, h1, hf.1 h1]
    · have h1n : ¬ k.data <:+: name.data := fun h => h1 (hf.2 h)
      by_cases h2 : tagsMatch k tags = true
      · simp [keywordsMatch, h1, h2, (tagsMatch_iff k tags).1 h2]
      · have h2n : ¬ k ∈ tags := fun h => h2 ((tagsMatch_iff k tags).2 h)
        simp [keywordsMatch, h1, h2, ih, h1n, h2n]

/-- C2: `ShouldRunTest` is true iff the keyword list is empty, or some keyword is
a substring of the test name, or some keyword equals one of the tags; with the
examples of the filter `"Foo"` and of the empty filter. -/
theorem C2_ShouldRunTest_iff :
    (∀ (options : RunOptions) (name : String) (tags : List String),
      ShouldRunTest options name tags = true ↔
        (options.Keywords = [] ∨
          (∃ k ∈ options.Keywords, k.data <:+: name.data) ∨
          (∃ k ∈ options.Keywords, k ∈ tags))) ∧
    (∀ tags : List String,
      ShouldRunTest { Keywords := ["Foo"] } "FooBar::Baz" tags = true) ∧
    (∀ (name : String) (tags1 tags2 : List String),
      ShouldRunTest { Keywords := ["Foo"] } name (tags1 ++ "Foo" :: tags2) = true) ∧
    ShouldRunTest { Keywords := ["Foo"] } "Bar::Baz" [] = false ∧
    ShouldRunTest { Keywords := ["Fo"] } "Bar::Baz" ["Foo"] = false ∧
    (∀ (verbose : Bool) (name : String) (tags : List String),
      ShouldRunTest { Verbose := verbose, Keywords := [] } name tags = true) := by
  have main : ∀ (options : RunOptions) (name : String) (tags : List String),
      ShouldRunTest options name tags = true ↔
        (options.Keywords = [] ∨
          (∃ k ∈ options.Keywords, k.data <:+: name.data) ∨
          (∃ k ∈ options.Keywords, k ∈ tags)) := by
    intro options name tags
    unfold ShouldRunTest
    by_cases h : options.Keywords = []
    · simp [h]
    · have hne : options.Keywords.isEmpty = false := by
        cases hk : options.Keywords with
        | nil => exact absurd hk h
        | cons a l => rfl
      rw [hne]
      simp only [Bool.false_eq_true, if_false, h, false_or]
      rw [keywordsMatch_iff]
      constructor
      · rintro ⟨k, hk, h1 | h2⟩
        · exact Or.inl ⟨k, hk, h1⟩
        · exact Or.inr ⟨k, hk, h2⟩
      · rintro (⟨k, hk, h1⟩ | ⟨k, hk, h2⟩)
        · exact ⟨k, hk, Or.inl h1⟩
        · exact ⟨k, hk, Or.inr h2⟩
  refine ⟨main, ?_, ?_, by decide, by decide, ?_⟩
  · intro tags
    rw [main]
    refine Or.inr (Or.inl ⟨"Foo", by simp, by decide⟩)
  · intro name tags1 tags2
    rw [main]
    exact Or.inr (Or.inr ⟨"Foo", by simp, by simp⟩)
  · intro verbose name tags
    rw [main]
    exact Or.inl rfl



theorem Throws_eq {σ : Type} (K : String) (callback : σ → σ × Signal) (s : σ) :
    Assert.Throws K callback s = ((callback s).1, throwsOutcome K (callback s).2) := by
  unfold Assert.Throws throwsOutcome
  rcases h : callback s with ⟨s1, sig⟩
  cases sig
  · simp
  · simp
  · simp only []
    split_ifs <;> rfl

theorem HandleAssert_eq (self : CommonFixture) (b : AssertType) (loc : AssertLocation)
    (o : Option AssertException) :
    self.HandleAssert b loc o =
      match o with
      | none => (self, none)
      | some ex =>
        match b with
        | AssertType.Throw =>
          (⟨self.m_check_has_failed, self.m_logger ++ [Event.AssertFailed b loc ex.what]⟩,
            some ex.toThrown)
        | AssertType.Continue =>
          (⟨true, self.m_logger ++ [Event.AssertFailed b loc ex.what]⟩, none) := by
  cases o with
  | none => rfl
  | some ex => cases b <;> rfl

theorem exec_eq (b : Body) (c : Bool) (lg : ILogger) :
    exec b ⟨c, lg⟩ =
      (⟨c || (exec b ⟨false, []⟩).1.m_check_has_failed,
        lg ++ (exec b ⟨false, []⟩).1.m_logger⟩, (exec b ⟨false, []⟩).2) := by
  induction b generalizing c lg with
  | done => simp [exec]
  | ret => simp [exec]
  | throw e => simp [exec]
  | HandleAssert behavior location o rest ih =>
    cases o with
    | none => 
      simp only [exec, CommonFixture.HandleAssert]
      exact ih c lg
    | some ex =>
      cases behavior with
      | Throw => simp [exec, CommonFixture.HandleAssert, ILogger.AssertFailed]
      | Continue =>
        simp only [exec, CommonFixture.HandleAssert, ILogger.AssertFailed]
        simp
        rw [ih true (lg ++ _), ih true [_]]
        simp
  | EnterSection text inner rest ih1 ih2 =>
    simp only [exec, CommonFixture.EnterSection, SectionLock.ctor, SectionLock.dtor,
      ILogger.PushSection, ILogger.PopSection]
    simp
    rw [ih1 c (lg ++ _), ih1 false [_]]
    simp
    cases hs : (exec inner ⟨false, []⟩).2 with
    | normal =>
      simp
      rw [ih2 (c || _) (lg ++ _), ih2 (exec inner ⟨false, []⟩).1.m_check_has_failed (_ :: _)]
      simp [Bool.or_assoc]
    | returned => simp
    | threw e => simp
  | Throws behavior location K cb rest ih1 ih2 =>
    simp only [exec, Throws_eq]
    rw [ih1 c lg]
    simp only [HandleAssert_eq]
    cases ho : throwsOutcome K (exec cb ⟨false, []⟩).2 with
    | none =>
      simp only []
      rw [ih2 (c || _) (lg ++ _), ih2 (exec cb ⟨false, []⟩).1.m_check_has_failed _]
      simp [Bool.or_assoc]
    | some ex =>
      cases behavior with
      | Throw => simp
      | Continue =>
        simp only []
        rw [ih2 true (lg ++ _ ++ _), ih2 true (_ ++ _)]
        simp

theorem exec_fresh (b : Body) (lg : ILogger) :
    exec b (CommonFixture.ctor lg) =
      (⟨bodyChecksFailed b, lg ++ bodyEvents b⟩, bodySignal b) := by
  unfold CommonFixture.ctor
  rw [exec_eq]
  simp [bodyChecksFailed, bodyEvents, bodySignal, CommonFixture.ctor,
    CommonFixture.HaveChecksFailed]

theorem AddCallback_eq (T : TTestCase) (lg : ILogger) :
    TestRegistry.AddCallback T lg =
      (lg ++ bodyEvents T.Run,
        match bodySignal T.Run with
        | Signal.threw e => Except.error e
        | _ => Except.ok (bodyChecksFailed T.Run)) := by
  unfold TestRegistry.AddCallback
  simp only [exec_fresh]
  cases bodySignal T.Run <;> rfl

theorem RunCallback_eq (T : TTestCase) (lg : ILogger) :
    TestRegistry.RunCallback (TestRegistry.AddCallback T) lg =
      (lg ++ bodyEvents T.Run ++ faultReport (bodySignal T.Run), bodyFailed T.Run) := by
  unfold TestRegistry.RunCallback
  rw [AddCallback_eq]
  unfold bodyFailed faultReport
  cases bodySignal T.Run with
  | normal => simp
  | returned => simp
  | threw e =>
    simp only [ILogger.UnhandledException]
    split_ifs <;> simp

theorem RunTestCase_eq (options : RunOptions) (st : RunState) (T : TTestCase) :
    TestRegistry.RunTestCase options st (TestRegistry.details T) =
      if ShouldRunTest options T.Name T.Tags then
        { logger := st.logger ++ ([Event.EnterTest T.Name] ++ bodyEvents T.Run ++
            faultReport (bodySignal T.Run) ++ [Event.ExitTest]),
          pass_count := st.pass_count + (if bodyFailed T.Run then 0 else 1),
          fail_count := st.fail_count + (if bodyFailed T.Run then 1 else 0),
          skip_count := st.skip_count }
      else
        { logger := st.logger ++ [Event.SkipTest T.Name],
          pass_count := st.pass_count, fail_count := st.fail_count,
          skip_count := st.skip_count + 1 } := by
  unfold TestRegistry.RunTestCase
  simp only [TestRegistry.details, RunCallback_eq, ILogger.SkipTest, ILogger.EnterTest,
    ILogger.ExitTest]
  cases ShouldRunTest options T.Name T.Tags <;> cases bodyFailed T.Run <;> simp

theorem testEvents_eq (options : RunOptions) (T : TTestCase) :
    testEvents options T =
      if ShouldRunTest options T.Name T.Tags then
        [Event.EnterTest T.Name] ++ bodyEvents T.Run ++
          faultReport (bodySignal T.Run) ++ [Event.ExitTest]
      else [Event.SkipTest T.Name] := by
  unfold testEvents
  rw [RunTestCase_eq]
  cases ShouldRunTest options T.Name T.Tags <;> simp

theorem RunTestCase_logger (options : RunOptions) (st : RunState) (T : TTestCase) :
    (TestRegistry.RunTestCase options st (TestRegistry.details T)).logger =
      st.logger ++ testEvents options T := by
  rw [RunTestCase_eq, testEvents_eq]
  cases ShouldRunTest options T.Name T.Tags <;> simp

theorem AddAll_eq (Ts : List TTestCase) :
    TestRegistry.AddAll Ts = Ts.map TestRegistry.details := by
  have h : ∀ (Ts : List TTestCase) (init : List TestDetails),
      Ts.foldl (fun s_test_vector T => TestRegistry.Add T s_test_vector) init =
        init ++ Ts.map TestRegistry.details := by
    intro Ts
    induction Ts with
    | nil => simp
    | cons T Ts ih =>
      intro init
      rw [List.foldl_cons, ih]
      simp [TestRegistry.Add]
  simpa [TestRegistry.AddAll] using h Ts []

theorem RunTestCase_counts (options : RunOptions) (st : RunState) (test_case : TestDetails) :
    (TestRegistry.RunTestCase options st test_case).pass_count +
      (TestRegistry.RunTestCase options st test_case).fail_count +
      (TestRegistry.RunTestCase options st test_case).skip_count =
    st.pass_count + st.fail_count + st.skip_count + 1 := by
  simp only [TestRegistry.RunTestCase]
  split_ifs <;> simp only [] <;> omega

theorem RunLoop_counts (options : RunOptions) (all_test_cases : List TestDetails)
    (st : RunState) :
    (TestRegistry.RunLoop options all_test_cases st).pass_count +
      (TestRegistry.RunLoop options all_test_cases st).fail_count +
      (TestRegistry.RunLoop options all_test_cases st).skip_count =
    st.pass_count + st.fail_count + st.skip_count + all_test_cases.length := by
  induction all_test_cases generalizing st with
  | nil => simp [TestRegistry.RunLoop]
  | cons t ts ih =>
    have h := ih (TestRegistry.RunTestCase options st t)
    simp only [TestRegistry.RunLoop, List.foldl_cons, List.length_cons] at h ⊢
    rw [h, RunTestCase_counts]
    omega

/-- C1: the counts `Run` passes to `EndRun` add up to the number of registered
tests, the value it passed to `BeginRun`, for every test vector (callbacks of
any behaviour), every filter and every logger state. -/
theorem C1_counts_sum_to_test_count (options : RunOptions)
    (all_test_cases : List TestDetails) (logger : ILogger) :
    ∃ st : RunState,
      st = TestRegistry.RunLoop options all_test_cases
        { logger := logger ++ [Event.BeginRun all_test_cases.length],
          pass_count := 0, fail_count := 0, skip_count := 0 } ∧
      TestRegistry.Run options all_test_cases logger =
        st.logger ++ [Event.EndRun st.pass_count st.fail_count st.skip_count] ∧
      st.pass_count + st.fail_count + st.skip_count = all_test_cases.length := by
  refine ⟨_, rfl, rfl, ?_⟩
  rw [RunLoop_counts]
  simp

/-! ## Bodies, constructor by constructor -/

theorem body_done :
    bodyEvents Body.done = [] ∧ bodySignal Body.done = Signal.normal ∧
      bodyChecksFailed Body.done = false := by
  simp [bodyEvents, bodySignal, bodyChecksFailed, exec, CommonFixture.ctor,
    CommonFixture.HaveChecksFailed]

theorem body_ret :
    bodyEvents Body.ret = [] ∧ bodySignal Body.ret = Signal.returned ∧
      bodyChecksFailed Body.ret = false := by
  simp [bodyEvents, bodySignal, bodyChecksFailed, exec, CommonFixture.ctor,
    CommonFixture.HaveChecksFailed]

theorem body_throw (e : Thrown) :
    bodyEvents (Body.throw e) = [] ∧ bodySignal (Body.throw e) = Signal.threw e ∧
      bodyChecksFailed (Body.throw e) = false := by
  simp [bodyEvents, bodySignal, bodyChecksFailed, exec, CommonFixture.ctor,
    CommonFixture.HaveChecksFailed]

theorem body_HandleAssert_none (b : AssertType) (loc : AssertLocation) (rest : Body) :
    bodyEvents (Body.HandleAssert b loc none rest) = bodyEvents rest ∧
      bodySignal (Body.HandleAssert b loc none rest) = bodySignal rest ∧
      bodyChecksFailed (Body.HandleAssert b loc none rest) = bodyChecksFailed rest := by
  simp [bodyEvents, bodySignal, bodyChecksFailed, exec, CommonFixture.HandleAssert]

theorem body_HandleAssert_Throw (loc : AssertLocation) (ex : AssertException) (rest : Body) :
    bodyEvents (Body.HandleAssert AssertType.Throw loc (some ex) rest) =
        [Event.AssertFailed AssertType.Throw loc ex.what] ∧
      bodySignal (Body.HandleAssert AssertType.Throw loc (some ex) rest) =
        Signal.threw ex.toThrown ∧
      bodyChecksFailed (Body.HandleAssert AssertType.Throw loc (some ex) rest) = false := by
  simp [bodyEvents, bodySignal, bodyChecksFailed, exec, CommonFixture.HandleAssert,
    CommonFixture.ctor, CommonFixture.HaveChecksFailed, ILogger.AssertFailed]

theorem body_HandleAssert_Continue (loc : AssertLocation) (ex : AssertException)
    (rest : Body) :
    bodyEvents (Body.HandleAssert AssertType.Continue loc (some ex) rest) =
        Event.AssertFailed AssertType.Continue loc ex.what :: bodyEvents rest ∧
      bodySignal (Body.HandleAssert AssertType.Continue loc (some ex) rest) =
        bodySignal rest ∧
      bodyChecksFailed (Body.HandleAssert AssertType.Continue loc (some ex) rest) = true := by
  simp only [bodyEvents, bodySignal, bodyChecksFailed, exec, CommonFixture.HandleAssert,
    CommonFixture.ctor, CommonFixture.HaveChecksFailed, ILogger.AssertFailed]
  simp
  rw [exec_eq]
  simp

theorem body_EnterSection (text : String) (inner rest : Body) :
    bodyEvents (Body.EnterSection text inner rest) =
        Event.PushSection text :: bodyEvents inner ++ Event.PopSection ::
          (if bodySignal inner = Signal.normal then bodyEvents rest else []) ∧
      bodySignal (Body.EnterSection text inner rest) =
        (if bodySignal inner = Signal.normal then bodySignal rest else bodySignal inner) ∧
      bodyChecksFailed (Body.EnterSection text inner rest) =
        (bodyChecksFailed inner ||
          (if bodySignal inner = Signal.normal then bodyChecksFailed rest else false)) := by
  simp only [bodyEvents, bodySignal, bodyChecksFailed, exec, CommonFixture.EnterSection,
    SectionLock.ctor, SectionLock.dtor, CommonFixture.ctor, CommonFixture.HaveChecksFailed,
    ILogger.PushSection, ILogger.PopSection]
  simp
  rw [exec_eq inner false [_]]
  simp
  cases hs : (exec inner ⟨false, []⟩).2 with
  | normal =>
    simp
    rw [exec_eq rest]
    simp
  | returned => simp
  | threw e => simp

/-- The assertion statement `Assert::Throws` hands to `HandleAssert` behaves
like a plain assertion statement after the callback. -/
theorem body_Throws (b : AssertType) (loc : AssertLocation) (K : String)
    (callback rest : Body) :
    bodyEvents (Body.Throws b loc K callback rest) =
        bodyEvents callback ++
          bodyEvents (Body.HandleAssert b loc (throwsOutcome K (bodySignal callback)) rest) ∧
      bodySignal (Body.Throws b loc K callback rest) =
        bodySignal (Body.HandleAssert b loc (throwsOutcome K (bodySignal callback)) rest) ∧
      bodyChecksFailed (Body.Throws b loc K callback rest) =
        (bodyChecksFailed callback ||
          bodyChecksFailed
            (Body.HandleAssert b loc (throwsOutcome K (bodySignal callback)) rest)) := by
  have h : ∀ s : CommonFixture, exec (Body.Throws b loc K callback rest) s =
      exec (Body.HandleAssert b loc (throwsOutcome K (exec callback s).2) rest)
        (exec callback s).1 := by
    intro s
    simp only [exec, Throws_eq]
  simp only [bodyEvents, bodySignal, bodyChecksFailed, CommonFixture.ctor,
    CommonFixture.HaveChecksFailed, h]
  rw [exec_eq (Body.HandleAssert b loc _ rest)
    (exec callback ⟨false, []⟩).1.m_check_has_failed (exec callback ⟨false, []⟩).1.m_logger]
  simp

theorem bodyEvents_all_isBodyEvent (b : Body) :
    (bodyEvents b).all Event.isBodyEvent = true := by
  induction b with
  | done => simp [body_done]
  | ret => simp [body_ret]
  | throw e => simp [body_throw]
  | HandleAssert behavior location o rest ih =>
    cases o with
    | none => simpa [body_HandleAssert_none] using ih
    | some ex =>
      cases behavior with
      | Throw => simp [body_HandleAssert_Throw, Event.isBodyEvent]
      | Continue => simpa [body_HandleAssert_Continue, Event.isBodyEvent] using ih
  | EnterSection text inner rest ih1 ih2 =>
    rw [(body_EnterSection text inner rest).1]
    split_ifs
    · simp only [List.all_cons, List.all_append, ih1, ih2, Event.isBodyEvent, Bool.and_self]
    · simp only [List.all_cons, List.all_append, ih1, Event.isBodyEvent, List.all_nil,
        Bool.and_self]
  | Throws behavior location K cb rest ih1 ih2 =>
    rw [(body_Throws behavior location K cb rest).1, List.all_append, ih1, Bool.true_and]
    cases throwsOutcome K (bodySignal cb) with
    | none => simpa [body_HandleAssert_none] using ih2
    | some ex =>
      cases behavior with
      | Throw => simp [body_HandleAssert_Throw, Event.isBodyEvent]
      | Continue => simpa [body_HandleAssert_Continue, Event.isBodyEvent] using ih2

/-! ## The loop of Run on registered test cases -/

theorem RunLoop_details (options : RunOptions) (Ts : List TTestCase) (st : RunState) :
    TestRegistry.RunLoop options (Ts.map TestRegistry.details) st =
      { logger := st.logger ++ (Ts.map (testEvents options)).flatten,
        pass_count := st.pass_count + Ts.countP (testPassed options),
        fail_count := st.fail_count + Ts.countP (testFailed options),
        skip_count := st.skip_count + Ts.countP (testSkipped options) } := by
  induction Ts generalizing st with
  | nil => simp [TestRegistry.RunLoop]
  | cons T Ts ih =>
    have h := ih (TestRegistry.RunTestCase options st (TestRegistry.details T))
    simp only [TestRegistry.RunLoop, List.map_cons, List.foldl_cons] at h ⊢
    rw [h, RunTestCase_eq, testEvents_eq]
    by_cases hS : ShouldRunTest options T.Name T.Tags = true <;>
      by_cases hF : bodyFailed T.Run = true <;>
      simp [List.countP_cons, testPassed, testFailed, testSkipped, hS, hF] <;> omega

theorem Run_AddAll (options : RunOptions) (Ts : List TTestCase) (logger : ILogger) :
    TestRegistry.Run options (TestRegistry.AddAll Ts) logger =
      logger ++ [Event.BeginRun Ts.length] ++ (Ts.map (testEvents options)).flatten ++
        [Event.EndRun (Ts.countP (testPassed options)) (Ts.countP (testFailed options))
          (Ts.countP (testSkipped options))] := by
  unfold TestRegistry.Run
  simp only [AddAll_eq, RunLoop_details, ILogger.BeginRun, ILogger.EndRun, List.length_map,
    Nat.zero_add]

theorem faultReport_cases (s : Signal) :
    faultReport s = [] ∨ ∃ m, faultReport s = [Event.UnhandledException m] := by
  unfold faultReport
  cases s with
  | normal => exact Or.inl rfl
  | returned => exact Or.inl rfl
  | threw e =>
    simp only []
    split_ifs
    · exact Or.inl rfl
    · exact Or.inr ⟨_, rfl⟩
    · exact Or.inr ⟨_, rfl⟩

theorem countP_eq_zero_of_all_isBodyEvent (p : Event → Bool) (l : List Event)
    (hp : ∀ e, Event.isBodyEvent e = true → p e = false)
    (hl : l.all Event.isBodyEvent = true) : l.countP p = 0 := by
  induction l with
  | nil => rfl
  | cons e l ih =>
    simp only [List.all_cons, Bool.and_eq_true] at hl
    rw [List.countP_cons, ih hl.2, hp e hl.1]
    simp

theorem visitedNames_testEvents (options : RunOptions) (T : TTestCase) :
    visitedNames (testEvents options T) = [T.Name] := by
  have hb : (bodyEvents T.Run).filterMap Event.visitedName = [] := by
    have h := bodyEvents_all_isBodyEvent T.Run
    generalize bodyEvents T.Run = l at h
    induction l with
    | nil => rfl
    | cons e l ih =>
      simp only [List.all_cons, Bool.and_eq_true] at h
      cases e <;> simp_all [Event.isBodyEvent, Event.visitedName]
  have hf : (faultReport (bodySignal T.Run)).filterMap Event.visitedName = [] := by
    rcases faultReport_cases (bodySignal T.Run) with h | ⟨m, h⟩ <;>
      simp [h, Event.visitedName]
  rw [testEvents_eq]
  unfold visitedNames
  split_ifs
  · simp [List.filterMap_append, hb, hf, Event.visitedName]
  · simp [Event.visitedName]

theorem visitedNames_flatten (options : RunOptions) (Ts : List TTestCase) :
    visitedNames (Ts.map (testEvents options)).flatten = Ts.map TTestCase.Name := by
  induction Ts with
  | nil => rfl
  | cons T Ts ih =>
    have h := visitedNames_testEvents options T
    unfold visitedNames at h ih ⊢
    simp [List.filterMap_append, h, ih]

/-- C4: `Run` visits every registered descriptor exactly once and in registration
order: the names carried by its `SkipTest` and `EnterTest` events are the
registered names, whatever each test does; a name registered twice is visited
twice. -/
theorem C4_visits_in_registration_order (options : RunOptions) (Ts : List TTestCase)
    (logger : ILogger) :
    (TestRegistry.AddAll Ts).map TestDetails.Name = Ts.map TTestCase.Name ∧
    TestRegistry.Run options (TestRegistry.AddAll Ts) logger =
      logger ++ TestRegistry.Run options (TestRegistry.AddAll Ts) [] ∧
    visitedNames (TestRegistry.Run options (TestRegistry.AddAll Ts) []) =
      (TestRegistry.AddAll Ts).map TestDetails.Name ∧
    (∀ T : TTestCase,
      visitedNames (TestRegistry.Run options (TestRegistry.AddAll (T :: Ts)) []) =
        T.Name :: visitedNames (TestRegistry.Run options (TestRegistry.AddAll Ts) [])) ∧
    (∀ T : TTestCase,
      visitedNames (TestRegistry.Run options (TestRegistry.AddAll [T, T]) []) =
        [T.Name, T.Name]) := by
  have hn : ∀ Ts : List TTestCase,
      (TestRegistry.AddAll Ts).map TestDetails.Name = Ts.map TTestCase.Name := by
    intro Ts
    rw [AddAll_eq, List.map_map]
    rfl
  have hv : ∀ Ts : List TTestCase,
      visitedNames (TestRegistry.Run options (TestRegistry.AddAll Ts) []) =
        Ts.map TTestCase.Name := by
    intro Ts
    rw [Run_AddAll]
    have h := visitedNames_flatten options Ts
    unfold visitedNames at h ⊢
    simp [List.filterMap_append, h, Event.visitedName]
  refine ⟨hn Ts, ?_, ?_, ?_, ?_⟩
  · simp [Run_AddAll]
  · rw [hv, hn]
  · intro T
    rw [hv, hv]
    rfl
  · intro T
    rw [hv]
    rfl

theorem countP_testEvents (options : RunOptions) (T : TTestCase) :
    (testEvents options T).countP Event.isEnterTest =
        (if ShouldRunTest options T.Name T.Tags then 1 else 0) ∧
      (testEvents options T).countP Event.isExitTest =
        (if ShouldRunTest options T.Name T.Tags then 1 else 0) ∧
      (testEvents options T).countP Event.isSkipTest =
        (if ShouldRunTest options T.Name T.Tags then 0 else 1) ∧
      (testEvents options T).countP Event.isBeginRun = 0 ∧
      (testEvents options T).countP Event.isEndRun = 0 := by
  have hb := bodyEvents_all_isBodyEvent T.Run
  have b1 := countP_eq_zero_of_all_isBodyEvent Event.isEnterTest _
    (by intro e; cases e <;> simp [Event.isBodyEvent, Event.isEnterTest]) hb
  have b2 := countP_eq_zero_of_all_isBodyEvent Event.isExitTest _
    (by intro e; cases e <;> simp [Event.isBodyEvent, Event.isExitTest]) hb
  have b3 := countP_eq_zero_of_all_isBodyEvent Event.isSkipTest _
    (by intro e; cases e <;> simp [Event.isBodyEvent, Event.isSkipTest]) hb
  have b4 := countP_eq_zero_of_all_isBodyEvent Event.isBeginRun _
    (by intro e; cases e <;> simp [Event.isBodyEvent, Event.isBeginRun]) hb
  have b5 := countP_eq_zero_of_all_isBodyEvent Event.isEndRun _
    (by intro e; cases e <;> simp [Event.isBodyEvent, Event.isEndRun]) hb
  rw [testEvents_eq]
  by_cases hS : ShouldRunTest options T.Name T.Tags = true
  · rcases faultReport_cases (bodySignal T.Run) with h | ⟨m, h⟩ <;>
      simp [hS, h, List.countP_append, List.countP_cons, b1, b2, b3, b4, b5,
        Event.isEnterTest, Event.isExitTest, Event.isSkipTest, Event.isBeginRun,
        Event.isEndRun]
  · simp [hS, List.countP_cons, Event.isEnterTest, Event.isExitTest, Event.isSkipTest,
      Event.isBeginRun, Event.isEndRun]

theorem countP_flatten_testEvents (options : RunOptions) (Ts : List TTestCase) :
    (Ts.map (testEvents options)).flatten.countP Event.isEnterTest =
        Ts.countP (testPassed options) + Ts.countP (testFailed options) ∧
      (Ts.map (testEvents options)).flatten.countP Event.isSkipTest =
        Ts.countP (testSkipped options) ∧
      (Ts.map (testEvents options)).flatten.countP Event.isBeginRun = 0 ∧
      (Ts.map (testEvents options)).flatten.countP Event.isEndRun = 0 := by
  induction Ts with
  | nil => simp
  | cons T Ts ih =>
    obtain ⟨h1, _, h3, h4, h5⟩ := countP_testEvents options T
    obtain ⟨i1, i3, i4, i5⟩ := ih
    simp only [List.map_cons, List.flatten_cons, List.countP_append, List.countP_cons,
      h1, h3, h4, h5, i1, i3, i4, i5, testPassed, testFailed, testSkipped]
    by_cases hS : ShouldRunTest options T.Name T.Tags = true <;>
      by_cases hF : bodyFailed T.Run = true <;> simp [hS, hF] <;> omega

/-- C5: in the trace of `Run` the events of the tests follow each other test by
test, in order; a test excluded by the filter contributes exactly `SkipTest name`;
every other test contributes `EnterTest name`, the events of its body, the report
of an escaped fault if any, and one closing `ExitTest`, however the body ends. -/
theorem C5_per_test_event_bracket (options : RunOptions) (Ts : List TTestCase)
    (logger : ILogger) :
    (∃ p f s : Nat,
      TestRegistry.Run options (TestRegistry.AddAll Ts) logger =
        logger ++ [Event.BeginRun Ts.length] ++ (Ts.map (testEvents options)).flatten ++
          [Event.EndRun p f s]) ∧
    (∀ T : TTestCase,
      testEvents options T =
        (if ShouldRunTest options T.Name T.Tags then
          [Event.EnterTest T.Name] ++ bodyEvents T.Run ++ faultReport (bodySignal T.Run) ++
            [Event.ExitTest]
        else [Event.SkipTest T.Name]) ∧
      (faultReport (bodySignal T.Run) = [] ∨
        ∃ m, faultReport (bodySignal T.Run) = [Event.UnhandledException m]) ∧
      (bodyEvents T.Run).all Event.isBodyEvent = true ∧
      (testEvents options T).countP Event.isEnterTest =
        (if ShouldRunTest options T.Name T.Tags then 1 else 0) ∧
      (testEvents options T).countP Event.isExitTest =
        (if ShouldRunTest options T.Name T.Tags then 1 else 0) ∧
      (testEvents options T).countP Event.isSkipTest =
        (if ShouldRunTest options T.Name T.Tags then 0 else 1)) := by
  refine ⟨⟨_, _, _, Run_AddAll options Ts logger⟩, ?_⟩
  intro T
  obtain ⟨h1, h2, h3, _, _⟩ := countP_testEvents options T
  exact ⟨testEvents_eq options T, faultReport_cases _, bodyEvents_all_isBodyEvent _,
    h1, h2, h3⟩

/-- C6: `Run` emits `BeginRun` once, first, with the number of registered tests,
and `EndRun` once, last, with the final counters of its loop; the skip count is
the number of `SkipTest` events and pass plus fail is the number of `EnterTest`
events. -/
theorem C6_run_bracket_and_counts (options : RunOptions) (Ts : List TTestCase)
    (logger : ILogger) :
    ∃ (mid : List Event) (st : RunState),
      st = TestRegistry.RunLoop options (TestRegistry.AddAll Ts)
        { logger := ILogger.BeginRun logger (TestRegistry.AddAll Ts).length,
          pass_count := 0, fail_count := 0, skip_count := 0 } ∧
      (TestRegistry.AddAll Ts).length = Ts.length ∧
      TestRegistry.Run options (TestRegistry.AddAll Ts) logger =
        logger ++ [Event.BeginRun (TestRegistry.AddAll Ts).length] ++ mid ++
          [Event.EndRun st.pass_count st.fail_count st.skip_count] ∧
      mid.countP Event.isBeginRun = 0 ∧
      mid.countP Event.isEndRun = 0 ∧
      st.skip_count = mid.countP Event.isSkipTest ∧
      st.pass_count + st.fail_count = mid.countP Event.isEnterTest := by
  obtain ⟨h1, h2, h3, h4⟩ := countP_flatten_testEvents options Ts
  refine ⟨(Ts.map (testEvents options)).flatten, _, rfl, ?_, ?_, h3, h4, ?_, ?_⟩
  · simp [AddAll_eq]
  · rw [Run_AddAll]
    simp [AddAll_eq, RunLoop_details]
  · simp [AddAll_eq, RunLoop_details, h2]
  · simp [AddAll_eq, RunLoop_details, h1]

/-! ## The tally of one test -/

theorem bodyChecksFailed_HandleAssert (b : AssertType) (loc : AssertLocation)
    (o : Option AssertException) (rest : Body)
    (ih : bodyChecksFailed rest = (bodyEvents rest).any Event.isContinueFailure) :
    bodyChecksFailed (Body.HandleAssert b loc o rest) =
      (bodyEvents (Body.HandleAssert b loc o rest)).any Event.isContinueFailure := by
  cases o with
  | none => simpa [body_HandleAssert_none] using ih
  | some ex =>
    cases b with
    | Throw => simp [body_HandleAssert_Throw, Event.isContinueFailure]
    | Continue => simp [body_HandleAssert_Continue, Event.isContinueFailure]

theorem bodyChecksFailed_eq_any (b : Body) :
    bodyChecksFailed b = (bodyEvents b).any Event.isContinueFailure := by
  induction b with
  | done => simp [body_done]
  | ret => simp [body_ret]
  | throw e => simp [body_throw]
  | HandleAssert behavior location o rest ih =>
    exact bodyChecksFailed_HandleAssert behavior location o rest ih
  | EnterSection text inner rest ih1 ih2 =>
    rw [(body_EnterSection text inner rest).1, (body_EnterSection text inner rest).2.2]
    split_ifs <;> simp [ih1, ih2, Event.isContinueFailure]
  | Throws behavior location K cb rest ih1 ih2 =>
    rw [(body_Throws behavior location K cb rest).1,
      (body_Throws behavior location K cb rest).2.2, List.any_append, ih1,
      bodyChecksFailed_HandleAssert behavior location _ rest ih2]

theorem bodyChecksFailed_false_iff (b : Body) :
    bodyChecksFailed b = false ↔
      ∀ loc msg, Event.AssertFailed AssertType.Continue loc msg ∉ bodyEvents b := by
  rw [bodyChecksFailed_eq_any]
  constructor
  · intro h loc msg hmem
    have := List.any_eq_true.2 ⟨_, hmem, (rfl : Event.isContinueFailure
      (Event.AssertFailed AssertType.Continue loc msg) = true)⟩
    rw [h] at this
    exact Bool.false_ne_true this
  · intro h
    rw [Bool.eq_false_iff]
    intro hany
    obtain ⟨e, hmem, he⟩ := List.any_eq_true.1 hany
    cases e with
    | AssertFailed t loc msg =>
      cases t with
      | Throw => simp [Event.isContinueFailure] at he
      | Continue => exact h loc msg hmem
    | _ => simp [Event.isContinueFailure] at he

theorem bodyFailed_false_iff (b : Body) :
    bodyFailed b = false ↔
      ((∀ e, bodySignal b ≠ Signal.threw e) ∧
        ∀ loc msg, Event.AssertFailed AssertType.Continue loc msg ∉ bodyEvents b) := by
  rw [← bodyChecksFailed_false_iff]
  unfold bodyFailed
  cases bodySignal b with
  | normal => simp
  | returned => simp
  | threw e => simp

/-! ## Exceptions at the per-test boundary -/

theorem toThrown_catches (ex : AssertException) (K : String) :
    ex.toThrown.catches K = (K == "AssertException" || K == "std::exception") := by
  have h1 : ("AssertException" == K) = (K == "AssertException") := by
    rw [Bool.eq_iff_iff, beq_iff_eq, beq_iff_eq]
    exact eq_comm
  simp only [Thrown.catches, AssertException.toThrown, List.contains_cons, List.contains_nil,
    Bool.or_false, h1]

/-- C7: `HandleAssert` reports a fatal failure with `AssertFailed` and throws;
when that signal ends a test body, `Run` adds nothing between the events of the
body and `ExitTest` (no `UnhandledException` for the test), still emits
`ExitTest`, and counts the test as failed. -/
theorem C7_fatal_signal_caught_without_report (options : RunOptions) (st : RunState)
    (T : TTestCase) (ex : AssertException)
    (hrun : ShouldRunTest options T.Name T.Tags = true)
    (hsig : bodySignal T.Run = Signal.threw ex.toThrown) :
    (∀ (self : CommonFixture) (location : AssertLocation),
      self.HandleAssert AssertType.Throw location (some ex) =
        ({ m_check_has_failed := self.m_check_has_failed,
           m_logger := self.m_logger ++
             [Event.AssertFailed AssertType.Throw location ex.what] },
          some ex.toThrown)) ∧
    (TestRegistry.RunTestCase options st (TestRegistry.details T)).logger =
      st.logger ++ ([Event.EnterTest T.Name] ++ bodyEvents T.Run ++ [Event.ExitTest]) ∧
    ([Event.EnterTest T.Name] ++ bodyEvents T.Run ++
      [Event.ExitTest]).countP Event.isUnhandledException = 0 ∧
    (TestRegistry.RunTestCase options st (TestRegistry.details T)).fail_count =
      st.fail_count + 1 ∧
    (TestRegistry.RunTestCase options st (TestRegistry.details T)).pass_count =
      st.pass_count ∧
    (TestRegistry.RunTestCase options st (TestRegistry.details T)).skip_count =
      st.skip_count := by
  have hu := countP_eq_zero_of_all_isBodyEvent Event.isUnhandledException _
    (by intro e; cases e <;> simp [Event.isBodyEvent, Event.isUnhandledException])
    (bodyEvents_all_isBodyEvent T.Run)
  have hf : bodyFailed T.Run = true := by simp [bodyFailed, hsig]
  have hr : faultReport (bodySignal T.Run) = [] := by
    simp [hsig, faultReport, toThrown_catches]
  refine ⟨fun self location => rfl, ?_, ?_, ?_, ?_, ?_⟩
  · rw [RunTestCase_eq, if_pos hrun, hr]
    simp
  · simp [List.countP_append, List.countP_cons, hu, Event.isUnhandledException]
  · rw [RunTestCase_eq, if_pos hrun, hf]
    simp
  · rw [RunTestCase_eq, if_pos hrun, hf]
    simp
  · rw [RunTestCase_eq, if_pos hrun]

/-- C7 at a concrete test: `REQUIRE(false)` inside a section. -/
theorem C7_fatal_signal_caught_without_report_witness :
    ShouldRunTest {} "AssertTest::IsTrue" [] = true ∧
    (TestRegistry.RunTestCase {}
      { logger := [], pass_count := 0, fail_count := 0, skip_count := 0 }
      (TestRegistry.details
        { Name := "AssertTest::IsTrue", Tags := [],
          Run := Body.EnterSection "Section: Check fails"
            (Body.HandleAssert AssertType.Throw ⟨"AssertTest.cpp", 139⟩
              (some ⟨"IsTrue(false)"⟩) Body.done)
            Body.done })).fail_count = 0 + 1 :=
  ⟨by decide,
    (C7_fatal_signal_caught_without_report {}
      { logger := [], pass_count := 0, fail_count := 0, skip_count := 0 }
      { Name := "AssertTest::IsTrue", Tags := [],
        Run := Body.EnterSection "Section: Check fails"
          (Body.HandleAssert AssertType.Throw ⟨"AssertTest.cpp", 139⟩
            (some ⟨"IsTrue(false)"⟩) Body.done)
          Body.done }
      ⟨"IsTrue(false)"⟩ (by decide) (by rfl)).2.2.2.1⟩

/-- C8: when a fault that the `AssertException` handler does not catch leaves a
test body, `Run` reports it with exactly one `UnhandledException` event, carrying
`what()` for a `std::exception` and `<unstructured>` otherwise, counts the test as
failed and goes on with the remaining tests. -/
theorem C8_unhandled_fault_reported_once (options : RunOptions) (st : RunState)
    (T : TTestCase) (e : Thrown) (remaining : List TestDetails)
    (hrun : ShouldRunTest options T.Name T.Tags = true)
    (hsig : bodySignal T.Run = Signal.threw e)
    (hother : e.catches "AssertException" = false) :
    (TestRegistry.RunTestCase options st (TestRegistry.details T)).logger =
      st.logger ++ ([Event.EnterTest T.Name] ++ bodyEvents T.Run ++
        [Event.UnhandledException
          (if e.catches "std::exception" then e.what else "<unstructured>"),
         Event.ExitTest]) ∧
    ([Event.EnterTest T.Name] ++ bodyEvents T.Run ++
      [Event.UnhandledException
        (if e.catches "std::exception" then e.what else "<unstructured>"),
       Event.ExitTest]).countP Event.isUnhandledException = 1 ∧
    (TestRegistry.RunTestCase options st (TestRegistry.details T)).fail_count =
      st.fail_count + 1 ∧
    (TestRegistry.RunTestCase options st (TestRegistry.details T)).pass_count =
      st.pass_count ∧
    TestRegistry.RunLoop options (TestRegistry.details T :: remaining) st =
      TestRegistry.RunLoop options remaining
        (TestRegistry.RunTestCase options st (TestRegistry.details T)) := by
  have hu := countP_eq_zero_of_all_isBodyEvent Event.isUnhandledException _
    (by intro e; cases e <;> simp [Event.isBodyEvent, Event.isUnhandledException])
    (bodyEvents_all_isBodyEvent T.Run)
  have hf : bodyFailed T.Run = true := by simp [bodyFailed, hsig]
  have hr : faultReport (bodySignal T.Run) = [Event.UnhandledException
      (if e.catches "std::exception" then e.what else "<unstructured>")] := by
    by_cases h : e.catches "std::exception" = true <;> simp [hsig, faultReport, hother, h]
  refine ⟨?_, ?_, ?_, ?_, rfl⟩
  · rw [RunTestCase_eq, if_pos hrun, hr]
    simp
  · simp [List.countP_append, List.countP_cons, hu, Event.isUnhandledException]
  · rw [RunTestCase_eq, if_pos hrun, hf]
    simp
  · rw [RunTestCase_eq, if_pos hrun, hf]
    simp

/-- C8 at a concrete test: a body that throws `std::runtime_error("Bang")`. -/
theorem C8_unhandled_fault_reported_once_witness :
    ShouldRunTest {} "Demo::Throws" [] = true ∧
    (TestRegistry.RunTestCase {}
      { logger := [], pass_count := 0, fail_count := 0, skip_count := 0 }
      (TestRegistry.details
        { Name := "Demo::Throws", Tags := [],
          Run := Body.throw ⟨"std::runtime_error", ["std::exception"], "Bang"⟩ })).logger =
      [] ++ ([Event.EnterTest "Demo::Throws"] ++ [] ++
        [Event.UnhandledException "Bang", Event.ExitTest]) :=
  ⟨by decide,
    (C8_unhandled_fault_reported_once {}
      { logger := [], pass_count := 0, fail_count := 0, skip_count := 0 }
      { Name := "Demo::Throws", Tags := [],
        Run := Body.throw ⟨"std::runtime_error", ["std::exception"], "Bang"⟩ }
      ⟨"std::runtime_error", ["std::exception"], "Bang"⟩ [] (by decide) (by rfl)
      (by decide)).1⟩

/-- C10: `HandleAssert` with a Pass outcome returns the fixture unchanged (same
logger, same check-failed flag) and raises nothing, for both severities; a test
body goes on with the statement after it. -/
theorem C10_HandleAssert_pass_is_noop (self : CommonFixture) (behavior : AssertType)
    (location : AssertLocation) (rest : Body) :
    self.HandleAssert behavior location none = (self, none) ∧
    (self.HandleAssert behavior location none).1.m_logger = self.m_logger ∧
    (self.HandleAssert behavior location none).1.HaveChecksFailed = self.HaveChecksFailed ∧
    exec (Body.HandleAssert behavior location none rest) self = exec rest self := by
  refine ⟨rfl, rfl, rfl, ?_⟩
  simp [exec, CommonFixture.HandleAssert]

/-! ## The fatal signal inside a body -/

/-- In a body without `Assert::Throws` statements, a fatal `AssertFailed` report
is followed only by the pops of the enclosing sections, and its exception leaves
the body. -/
theorem fatal_report_ends_body (b : Body) (hno : b.hasThrows = false)
    (loc : AssertLocation) (msg : String)
    (hmem : Event.AssertFailed AssertType.Throw loc msg ∈ bodyEvents b) :
    ∃ (pre : List Event) (d : Nat),
      bodyEvents b =
        pre ++ Event.AssertFailed AssertType.Throw loc msg ::
          List.replicate d Event.PopSection ∧
      bodySignal b = Signal.threw ⟨"AssertException", ["std::exception"], msg⟩ := by
  induction b with
  | done => simp [body_done] at hmem
  | ret => simp [body_ret] at hmem
  | throw e => simp [body_throw] at hmem
  | HandleAssert behavior location o rest ih =>
    simp only [Body.hasThrows] at hno
    cases o with
    | none =>
      rw [(body_HandleAssert_none behavior location rest).1] at hmem
      obtain ⟨pre, d, h1, h2⟩ := ih hno hmem
      exact ⟨pre, d, by rw [(body_HandleAssert_none behavior location rest).1, h1],
        by rw [(body_HandleAssert_none behavior location rest).2.1, h2]⟩
    | some ex =>
      cases behavior with
      | Throw =>
        rw [(body_HandleAssert_Throw location ex rest).1] at hmem
        simp only [List.mem_singleton, Event.AssertFailed.injEq, true_and] at hmem
        obtain ⟨hl, hm⟩ := hmem
        subst hl hm
        exact ⟨[], 0, by simp [body_HandleAssert_Throw],
          by simp [body_HandleAssert_Throw, AssertException.toThrown]⟩
      | Continue =>
        rw [(body_HandleAssert_Continue location ex rest).1] at hmem
        simp only [List.mem_cons, Event.AssertFailed.injEq, false_and, false_or,
          reduceCtorEq] at hmem
        obtain ⟨pre, d, h1, h2⟩ := ih hno hmem
        exact ⟨_ :: pre, d, by rw [(body_HandleAssert_Continue location ex rest).1, h1]; rfl,
          by rw [(body_HandleAssert_Continue location ex rest).2.1, h2]⟩
  | EnterSection text inner rest ih1 ih2 =>
    simp only [Body.hasThrows, Bool.or_eq_false_iff] at hno
    rw [(body_EnterSection text inner rest).1] at hmem
    simp only [List.mem_cons, List.mem_append, reduceCtorEq, false_or] at hmem
    rcases hmem with hin | hre
    · obtain ⟨pre, d, h1, h2⟩ := ih1 hno.1 hin
      refine ⟨Event.PushSection text :: pre, d + 1, ?_, ?_⟩
      · rw [(body_EnterSection text inner rest).1, h1, h2]
        simp [List.replicate_succ']
      · rw [(body_EnterSection text inner rest).2.1, h2]
        simp
    · by_cases hn : bodySignal inner = Signal.normal
      · rw [if_pos hn] at hre
        obtain ⟨pre, d, h1, h2⟩ := ih2 hno.2 hre
        refine ⟨Event.PushSection text :: bodyEvents inner ++ Event.PopSection :: pre, d,
          ?_, ?_⟩
        · rw [(body_EnterSection text inner rest).1, if_pos hn, h1]
          simp
        · rw [(body_EnterSection text inner rest).2.1, if_pos hn, h2]
      · rw [if_neg hn] at hre
        simp at hre
  | Throws behavior location K cb rest ih1 ih2 =>
    simp [Body.hasThrows] at hno

theorem exec_signal (b : Body) (self : CommonFixture) :
    (exec b self).2 = bodySignal b := by
  have h := exec_eq b self.m_check_has_failed self.m_logger
  exact (congrArg Prod.snd h).trans rfl

/-- C9, counterexample: the body `CHECK_THROW(AssertException, REQUIRE_EQUAL(0, 1));`
followed by a section.  The fatal failure is reported through `AssertFailed`,
`Assert::Throws` absorbs its signal, the body goes on with the section and the
test is tallied as passed. -/
theorem C9_counterexample_Throws_absorbs_fatal_signal :
    TestRegistry.Run {}
      (TestRegistry.AddAll
        [{ Name := "AssertTest::AreEqual_Integer", Tags := [],
           Run := Body.Throws AssertType.Continue ⟨"AssertTest.cpp", 28⟩ "AssertException"
             (Body.HandleAssert AssertType.Throw ⟨"AssertTest.cpp", 28⟩
               (some ⟨"[0] == [1]"⟩) Body.done)
             (Body.EnterSection "Section: after" Body.done Body.done) }]) [] =
      [Event.BeginRun 1,
       Event.EnterTest "AssertTest::AreEqual_Integer",
       Event.AssertFailed AssertType.Throw ⟨"AssertTest.cpp", 28⟩ "[0] == [1]",
       Event.PushSection "Section: after",
       Event.PopSection,
       Event.ExitTest,
       Event.EndRun 1 0 0] := by
  decide

/-! ## HandleAssert on a Fail outcome and the check-failed flag -/

theorem body_failingChecks (cs : List (AssertLocation × AssertException)) (rest : Body) :
    bodyEvents (failingChecks cs rest) =
        cs.map (fun c => Event.AssertFailed AssertType.Continue c.1 c.2.what) ++
          bodyEvents rest ∧
      bodySignal (failingChecks cs rest) = bodySignal rest := by
  induction cs with
  | nil => exact ⟨rfl, rfl⟩
  | cons c cs ih =>
    simp only [failingChecks, List.map_cons, List.cons_append]
    rw [(body_HandleAssert_Continue c.1 c.2 _).1, (body_HandleAssert_Continue c.1 c.2 _).2.1,
      ih.1, ih.2]
    exact ⟨rfl, rfl⟩

/-- C11: `HandleAssert` with a Fail outcome appends exactly one `AssertFailed`
event carrying the severity, the location and the outcome's message (`what()`);
with severity `Throw` it then throws an `AssertException` with that message, with
severity `Continue` it sets the check-failed flag and returns, so the body goes
on; a run of failing continuing checks yields their reports in order. -/
theorem C11_HandleAssert_fail_reports_once (self : CommonFixture) (behavior : AssertType)
    (location : AssertLocation) (ex : AssertException) (rest : Body)
    (cs : List (AssertLocation × AssertException)) :
    (self.HandleAssert behavior location (some ex)).1.m_logger =
      self.m_logger ++ [Event.AssertFailed behavior location ex.what] ∧
    self.HandleAssert AssertType.Throw location (some ex) =
      ({ m_check_has_failed := self.m_check_has_failed,
         m_logger := self.m_logger ++
           [Event.AssertFailed AssertType.Throw location ex.what] },
        some ex.toThrown) ∧
    ex.toThrown.what = ex.what ∧
    ex.toThrown.type = "AssertException" ∧
    self.HandleAssert AssertType.Continue location (some ex) =
      ({ m_check_has_failed := true,
         m_logger := self.m_logger ++
           [Event.AssertFailed AssertType.Continue location ex.what] },
        none) ∧
    exec (Body.HandleAssert AssertType.Continue location (some ex) rest) self =
      exec rest
        { m_check_has_failed := true,
          m_logger := self.m_logger ++
            [Event.AssertFailed AssertType.Continue location ex.what] } ∧
    bodyEvents (failingChecks cs rest) =
      cs.map (fun c => Event.AssertFailed AssertType.Continue c.1 c.2.what) ++
        bodyEvents rest ∧
    ((cs.map (fun c => Event.AssertFailed AssertType.Continue c.1 c.2.what)).length =
      cs.length) := by
  refine ⟨?_, rfl, rfl, rfl, rfl, ?_, (body_failingChecks cs rest).1, by simp⟩
  · cases behavior <;> rfl
  · simp [exec, CommonFixture.HandleAssert, ILogger.AssertFailed]

theorem HandleAssert_flag (self : CommonFixture) (c : AssertCall) :
    (self.HandleAssert c.behavior c.location c.exception00).1.HaveChecksFailed =
      (self.HaveChecksFailed || c.isContinueFail) := by
  rcases c with ⟨b, loc, o⟩
  cases o with
  | none => simp [CommonFixture.HandleAssert, AssertCall.isContinueFail]
  | some ex =>
    cases b <;>
      simp [CommonFixture.HandleAssert, AssertCall.isContinueFail,
        CommonFixture.HaveChecksFailed]

theorem HandleAsserts_flag (calls : List AssertCall) (self : CommonFixture) :
    (self.HandleAsserts calls).HaveChecksFailed =
      (self.HaveChecksFailed || calls.any AssertCall.isContinueFail) := by
  induction calls generalizing self with
  | nil => simp [CommonFixture.HandleAsserts]
  | cons c rest ih =>
    rw [CommonFixture.HandleAsserts, ih, HandleAssert_flag, List.any_cons, Bool.or_assoc]

/-- C12: `HaveChecksFailed()` is false on a fresh fixture; after any sequence of
`HandleAssert` calls it is true iff one of them was a `Continue`-severity Fail;
every call keeps a flag that is set; and the callback `Add` stores builds a fresh
fixture, so its result does not depend on what ran before: a test after one with
a failed check still passes. -/
theorem C12_HaveChecksFailed_iff_continue_fail (logger : ILogger) (calls : List AssertCall)
    (self : CommonFixture) (c : AssertCall) (T : TTestCase) :
    (CommonFixture.ctor logger).HaveChecksFailed = false ∧
    (((CommonFixture.ctor logger).HandleAsserts calls).HaveChecksFailed = true ↔
      ∃ call ∈ calls, call.behavior = AssertType.Continue ∧ call.exception00.isSome = true) ∧
    (self.HandleAssert c.behavior c.location none).1.HaveChecksFailed =
      self.HaveChecksFailed ∧
    (self.HandleAssert c.behavior c.location c.exception00).1.HaveChecksFailed =
      (self.HaveChecksFailed || c.isContinueFail) ∧
    (self.HandleAsserts calls).HaveChecksFailed =
      (self.HaveChecksFailed || calls.any AssertCall.isContinueFail) ∧
    (TestRegistry.AddCallback T logger).2 = (TestRegistry.AddCallback T []).2 ∧
    (bodyChecksFailed T.Run = true ↔
      ∃ loc msg, Event.AssertFailed AssertType.Continue loc msg ∈ bodyEvents T.Run) ∧
    TestRegistry.Run {}
      (TestRegistry.AddAll
        [{ Name := "Demo::CheckFails", Tags := [],
           Run := Body.HandleAssert AssertType.Continue ⟨"Demo.cpp", 3⟩
             (some ⟨"IsTrue(false)"⟩) Body.done },
         { Name := "Demo::Passes", Tags := [], Run := Body.done }]) [] =
      [Event.BeginRun 2,
       Event.EnterTest "Demo::CheckFails",
       Event.AssertFailed AssertType.Continue ⟨"Demo.cpp", 3⟩ "IsTrue(false)",
       Event.ExitTest,
       Event.EnterTest "Demo::Passes",
       Event.ExitTest,
       Event.EndRun 1 1 0] := by
  refine ⟨rfl, ?_, rfl, HandleAssert_flag self c, HandleAsserts_flag calls self, ?_, ?_,
    by decide⟩
  · rw [HandleAsserts_flag]
    simp [CommonFixture.ctor, CommonFixture.HaveChecksFailed, AssertCall.isContinueFail]
  · rw [AddCallback_eq, AddCallback_eq]
  · have h := bodyChecksFailed_false_iff T.Run
    constructor
    · intro ht
      by_contra hne
      have hf := h.2 (fun loc msg hmem => hne ⟨loc, msg, hmem⟩)
      rw [ht] at hf
      exact Bool.noConfusion hf
    · rintro ⟨loc, msg, hmem⟩
      by_contra hne
      have hf : bodyChecksFailed T.Run = false := by
        cases hb : bodyChecksFailed T.Run
        · rfl
        · exact absurd hb hne
      exact h.1 hf loc msg hmem

/-! ## Section nesting -/

theorem sectionDepth_append (l1 l2 : List Event) (d : Nat) :
    sectionDepth d (l1 ++ l2) = (sectionDepth d l1).bind (fun d1 => sectionDepth d1 l2) := by
  induction l1 generalizing d with
  | nil => simp [sectionDepth]
  | cons e l ih =>
    cases e <;> cases d <;> simp [sectionDepth, ih]

theorem sectionDepth_bodyEvents (b : Body) (d : Nat) :
    sectionDepth d (bodyEvents b) = some d := by
  induction b generalizing d with
  | done => simp [body_done, sectionDepth]
  | ret => simp [body_ret, sectionDepth]
  | throw e => simp [body_throw, sectionDepth]
  | HandleAssert behavior location o rest ih =>
    cases o with
    | none => simpa [body_HandleAssert_none] using ih d
    | some ex =>
      cases behavior with
      | Throw => simp [body_HandleAssert_Throw, sectionDepth]
      | Continue => simpa [body_HandleAssert_Continue, sectionDepth] using ih d
  | EnterSection text inner rest ih1 ih2 =>
    rw [(body_EnterSection text inner rest).1]
    simp only [sectionDepth, sectionDepth_append, ih1, Option.some_bind]
    split_ifs
    · exact ih2 d
    · simp [sectionDepth]
  | Throws behavior location K cb rest ih1 ih2 =>
    rw [(body_Throws behavior location K cb rest).1, sectionDepth_append, ih1, Option.some_bind]
    cases throwsOutcome K (bodySignal cb) with
    | none => simpa [body_HandleAssert_none] using ih2 d
    | some ex =>
      cases behavior with
      | Throw => simp [body_HandleAssert_Throw, sectionDepth]
      | Continue => simpa [body_HandleAssert_Continue, sectionDepth] using ih2 d

theorem sectionDepth_counts (l : List Event) (d d1 : Nat) (h : sectionDepth d l = some d1) :
    d + l.countP Event.isPushSection = d1 + l.countP Event.isPopSection ∧
      ∀ n, (l.take n).countP Event.isPopSection ≤
        d + (l.take n).countP Event.isPushSection := by
  induction l generalizing d with
  | nil =>
    simp only [sectionDepth, Option.some.injEq] at h
    simp [h]
  | cons e l ih =>
    have key : ∀ n, (List.take n (e :: l)) =
        if n = 0 then [] else e :: List.take (n - 1) l := by
      intro n
      cases n <;> simp
    cases e with
    | PushSection name =>
      simp only [sectionDepth] at h
      obtain ⟨h1, h2⟩ := ih (d + 1) h
      refine ⟨by simp [List.countP_cons, Event.isPushSection, Event.isPopSection]; omega, ?_⟩
      intro n
      rw [key]
      split_ifs
      · simp
      · have := h2 (n - 1)
        simp [List.countP_cons, Event.isPushSection, Event.isPopSection]
        omega
    | PopSection =>
      cases d with
      | zero => simp [sectionDepth] at h
      | succ k =>
        simp only [sectionDepth] at h
        obtain ⟨h1, h2⟩ := ih k h
        refine ⟨by simp [List.countP_cons, Event.isPushSection, Event.isPopSection]; omega, ?_⟩
        intro n
        rw [key]
        split_ifs
        · simp
        · have := h2 (n - 1)
          simp [List.countP_cons, Event.isPushSection, Event.isPopSection]
          omega
    | _ =>
      have h0 : sectionDepth d l = some d1 := by
        cases d <;> simpa [sectionDepth] using h
      obtain ⟨h1, h2⟩ := ih d h0
      refine ⟨by simpa [List.countP_cons, Event.isPushSection, Event.isPopSection] using h1, ?_⟩
      intro n
      rw [key]
      split_ifs
      · simp
      · have := h2 (n - 1)
        simpa [List.countP_cons, Event.isPushSection, Event.isPopSection] using this

theorem sectionDepth_testEvents (options : RunOptions) (T : TTestCase) :
    sectionDepth 0 (testEvents options T) = some 0 := by
  rw [testEvents_eq]
  split_ifs
  · rcases faultReport_cases (bodySignal T.Run) with h | ⟨m, h⟩ <;>
      simp [h, sectionDepth, sectionDepth_append, sectionDepth_bodyEvents]
  · simp [sectionDepth]

/-- C13: for every test body, the events of the test hold as many `PushSection`
as `PopSection` events once it has completed, however it ended, and in every
prefix of its events the pops never outnumber the pushes. -/
theorem C13_section_pushes_and_pops_balance (options : RunOptions) (T : TTestCase)
    (n : Nat) :
    (bodyEvents T.Run).countP Event.isPushSection =
      (bodyEvents T.Run).countP Event.isPopSection ∧
    ((bodyEvents T.Run).take n).countP Event.isPopSection ≤
      ((bodyEvents T.Run).take n).countP Event.isPushSection ∧
    (testEvents options T).countP Event.isPushSection =
      (testEvents options T).countP Event.isPopSection ∧
    ((testEvents options T).take n).countP Event.isPopSection ≤
      ((testEvents options T).take n).countP Event.isPushSection ∧
    (testEvents options T).getLast? =
      (if ShouldRunTest options T.Name T.Tags then some Event.ExitTest
       else some (Event.SkipTest T.Name)) := by
  obtain ⟨b1, b2⟩ := sectionDepth_counts _ 0 0 (sectionDepth_bodyEvents T.Run 0)
  obtain ⟨t1, t2⟩ := sectionDepth_counts _ 0 0 (sectionDepth_testEvents options T)
  refine ⟨by omega, by have := b2 n; omega, by omega, by have := t2 n; omega, ?_⟩
  rw [testEvents_eq]
  split_ifs
  · rw [List.getLast?_append]
    rfl
  · rfl

/-! ## C strings -/

theorem cstr_data (s : String) :
    (cstr s).data = s.data.takeWhile (fun c => c != Char.ofNat 0) := rfl

theorem cstr_eq_self_iff (s : String) : cstr s = s ↔ isCString s = true := by
  rw [String.ext_iff, cstr_data, List.takeWhile_eq_self_iff, isCString, List.all_eq_true]

theorem isCString_cstr (s : String) : isCString (cstr s) = true := by
  rw [isCString, List.all_eq_true, cstr_data]
  intro c hc
  exact List.mem_takeWhile_imp (p := fun c => c != Char.ofNat 0) hc

theorem cstr_cstr (s : String) : cstr (cstr s) = cstr s :=
  (cstr_eq_self_iff _).2 (isCString_cstr s)

theorem isCString_append (a b : String) :
    isCString (a ++ b) = (isCString a && isCString b) := by
  simp [isCString, String.data_append, List.all_append]

theorem cstr_append_left (a b : String) (ha : isCString a = true) :
    cstr (a ++ b) = a ++ cstr b := by
  apply String.ext
  rw [cstr_data, String.data_append, String.data_append, cstr_data, List.takeWhile_append]
  have h : List.takeWhile (fun c => c != Char.ofNat 0) a.data = a.data := by
    rw [List.takeWhile_eq_self_iff]
    simpa [isCString, List.all_eq_true] using ha
  rw [h]
  simp

theorem cstr_append_of_not_isCString (a b : String) (ha : isCString a = false) :
    cstr (a ++ b) = cstr a := by
  apply String.ext
  rw [cstr_data, String.data_append, cstr_data, List.takeWhile_append]
  have h : List.takeWhile (fun c => c != Char.ofNat 0) a.data ≠ a.data := by
    intro h
    rw [List.takeWhile_eq_self_iff] at h
    have : isCString a = true := by
      simpa [isCString, List.all_eq_true] using h
    rw [ha] at this
    exact Bool.noConfusion this
  have hl : (List.takeWhile (fun c => c != Char.ofNat 0) a.data).length ≠ a.data.length := by
    intro hl
    apply h
    exact (List.takeWhile_prefix _).sublist.eq_of_length hl
  rw [if_neg hl]

/-! ## Section events in order -/

theorem body_seq (p q : Body) (h : bodySignal p = Signal.normal) :
    bodyEvents (p.seq q) = bodyEvents p ++ bodyEvents q ∧
      bodySignal (p.seq q) = bodySignal q := by
  have hHA : ∀ (b : AssertType) (loc : AssertLocation) (o : Option AssertException)
      (rest : Body),
      (bodySignal rest = Signal.normal →
        bodyEvents (rest.seq q) = bodyEvents rest ++ bodyEvents q ∧
          bodySignal (rest.seq q) = bodySignal q) →
      bodySignal (Body.HandleAssert b loc o rest) = Signal.normal →
      bodyEvents (Body.HandleAssert b loc o (rest.seq q)) =
          bodyEvents (Body.HandleAssert b loc o rest) ++ bodyEvents q ∧
        bodySignal (Body.HandleAssert b loc o (rest.seq q)) = bodySignal q := by
    intro b loc o rest ih hs
    cases o with
    | none =>
      simp only [body_HandleAssert_none] at hs ⊢
      exact ih hs
    | some ex =>
      cases b with
      | Throw => simp [body_HandleAssert_Throw] at hs
      | Continue =>
        simp only [body_HandleAssert_Continue] at hs ⊢
        obtain ⟨h1, h2⟩ := ih hs
        exact ⟨by rw [h1]; rfl, h2⟩
  induction p with
  | done => simp [Body.seq, body_done]
  | ret => simp [body_ret] at h
  | throw e => simp [body_throw] at h
  | HandleAssert behavior location o rest ih =>
    exact hHA behavior location o rest ih h
  | EnterSection text inner rest ih1 ih2 =>
    rw [(body_EnterSection text inner rest).2.1] at h
    by_cases hn : bodySignal inner = Signal.normal
    · rw [if_pos hn] at h
      obtain ⟨h1, h2⟩ := ih2 h
      simp only [Body.seq]
      rw [(body_EnterSection text inner _).1, (body_EnterSection text inner _).2.1,
        (body_EnterSection text inner rest).1, h1, h2]
      simp [hn]
    · rw [if_neg hn] at h
      exact absurd h hn
  | Throws behavior location K cb rest ih1 ih2 =>
    rw [(body_Throws behavior location K cb rest).2.1] at h
    obtain ⟨h1, h2⟩ := hHA behavior location _ rest ih2 h
    simp only [Body.seq]
    rw [(body_Throws behavior location K cb _).1, (body_Throws behavior location K cb _).2.1,
      (body_Throws behavior location K cb rest).1, h1, h2]
    simp

theorem body_fatalInside (frames : List EnclosingSection) (before : Body)
    (location : AssertLocation) (failure : AssertException) (rest : Body)
    (hbefore : bodySignal before = Signal.normal)
    (hframes : ∀ f ∈ frames, bodySignal f.before = Signal.normal) :
    bodyEvents (fatalInside frames before location failure rest) =
        eventsBeforeFatal frames before ++
          Event.AssertFailed AssertType.Throw location failure.what ::
            List.replicate frames.length Event.PopSection ∧
      bodySignal (fatalInside frames before location failure rest) =
        Signal.threw failure.toThrown ∧
      (eventsBeforeFatal frames before).countP Event.isPushSection =
        (eventsBeforeFatal frames before).countP Event.isPopSection + frames.length := by
  induction frames with
  | nil =>
    obtain ⟨h1, h2⟩ := body_seq before
      (Body.HandleAssert AssertType.Throw location (some failure) rest) hbefore
    obtain ⟨c1, _⟩ := sectionDepth_counts _ 0 0 (sectionDepth_bodyEvents before 0)
    simp only [fatalInside, eventsBeforeFatal, List.length_nil, List.replicate_zero]
    rw [h1, h2, (body_HandleAssert_Throw location failure rest).1,
      (body_HandleAssert_Throw location failure rest).2.1]
    exact ⟨rfl, rfl, by omega⟩
  | cons f frames ih =>
    obtain ⟨i1, i2, i3⟩ := ih (fun g hg => hframes g (List.mem_cons_of_mem _ hg))
    have hf := hframes f (List.mem_cons_self _ _)
    obtain ⟨h1, h2⟩ := body_seq f.before
      (Body.EnterSection f.text (fatalInside frames before location failure rest) f.after) hf
    obtain ⟨c1, _⟩ := sectionDepth_counts _ 0 0 (sectionDepth_bodyEvents f.before 0)
    have hne : bodySignal (fatalInside frames before location failure rest) ≠
        Signal.normal := by
      rw [i2]
      exact fun h => Signal.noConfusion h
    simp only [fatalInside, eventsBeforeFatal, List.length_cons]
    rw [h1, h2, (body_EnterSection f.text _ f.after).1,
      (body_EnterSection f.text _ f.after).2.1, if_neg hne, if_neg hne, i1, i2]
    refine ⟨?_, rfl, ?_⟩
    · simp [List.replicate_succ']
    · simp only [List.countP_append, List.countP_cons, Event.isPushSection,
        Event.isPopSection, i3]
      simp
      omega

/-- C14: section events are well nested.  `SECTION("Outer") { SECTION("Inner") {} }`
yields push, push, pop, pop; the push of a section precedes the events of its
block and its pop follows them, before anything of the next sibling; the BDD
scenario of the test suite yields its ten events in order. -/
theorem C14_section_events_are_well_nested (text text2 : String)
    (inner inner2 rest : Body) (d : Nat) :
    bodyEvents (SECTION "Outer" (SECTION "Inner" Body.done Body.done) Body.done) =
      [Event.PushSection "Section: Outer", Event.PushSection "Section: Inner",
       Event.PopSection, Event.PopSection] ∧
    bodyEvents (Body.EnterSection text inner rest) =
      Event.PushSection text :: bodyEvents inner ++ Event.PopSection ::
        (if bodySignal inner = Signal.normal then bodyEvents rest else []) ∧
    bodyEvents (Body.EnterSection text inner (Body.EnterSection text2 inner2 rest)) =
      Event.PushSection text :: bodyEvents inner ++ Event.PopSection ::
        (if bodySignal inner = Signal.normal then
          Event.PushSection text2 :: bodyEvents inner2 ++ Event.PopSection ::
            (if bodySignal inner2 = Signal.normal then bodyEvents rest else [])
        else []) ∧
    sectionDepth d (bodyEvents inner) = some d ∧
    bodyEvents
      ( SCENARIO "Refunded items should be returned to stock"
        (GIVEN "a customer previously bought a black sweater from me" Body.done
          (AND "I have three black sweaters in stock" Body.done
            (WHEN "they return the black sweater for a refund" Body.done
              (THEN "I should have four black sweaters in stock" Body.done Body.done))))
        Body.done) =
      [Event.PushSection "Scenario: Refunded items should be returned to stock",
       Event.PushSection "Given: a customer previously bought a black sweater from me",
       Event.PopSection,
       Event.PushSection "And: I have three black sweaters in stock",
       Event.PopSection,
       Event.PushSection "When: they return the black sweater for a refund",
       Event.PopSection,
       Event.PushSection "Then: I should have four black sweaters in stock",
       Event.PopSection,
       Event.PopSection] := by
  refine ⟨by decide, (body_EnterSection text inner rest).1, ?_,
    sectionDepth_bodyEvents inner d, by decide⟩
  rw [(body_EnterSection text inner _).1, (body_EnterSection text2 inner2 rest).1]

/-- C16: each of SECTION, SCENARIO, GIVEN, AND, WHEN and THEN enters a section
whose label is its kind prefix followed by the text (read as the C string the
literal denotes), and pushes that label; the six differ in the prefix only;
entering the same text again later emits the same push and pop again. -/
theorem C16_section_macros_push_prefixed_label (Text : String) (inner rest : Body) :
    SECTION Text inner rest = Body.EnterSection ("Section: " ++ cstr Text) inner rest ∧
    SCENARIO Text inner rest = Body.EnterSection ("Scenario: " ++ cstr Text) inner rest ∧
    GIVEN Text inner rest = Body.EnterSection ("Given: " ++ cstr Text) inner rest ∧
    AND Text inner rest = Body.EnterSection ("And: " ++ cstr Text) inner rest ∧
    WHEN Text inner rest = Body.EnterSection ("When: " ++ cstr Text) inner rest ∧
    THEN Text inner rest = Body.EnterSection ("Then: " ++ cstr Text) inner rest ∧
    (cstr Text = Text ↔ isCString Text = true) ∧
    bodyEvents (SECTION Text inner rest) =
      Event.PushSection ("Section: " ++ cstr Text) :: bodyEvents inner ++
        Event.PopSection ::
          (if bodySignal inner = Signal.normal then bodyEvents rest else []) ∧
    bodyEvents (SECTION Text Body.done (SECTION Text Body.done Body.done)) =
      [Event.PushSection ("Section: " ++ cstr Text), Event.PopSection,
       Event.PushSection ("Section: " ++ cstr Text), Event.PopSection] ∧
    bodySignal (SECTION Text Body.done (SECTION Text Body.done Body.done)) =
      Signal.normal ∧
    bodyEvents (THEN "I should have four black sweaters in stock" Body.done Body.done) =
      [Event.PushSection "Then: I should have four black sweaters in stock",
       Event.PopSection] := by
  have e1 : SECTION Text inner rest =
      Body.EnterSection ("Section: " ++ cstr Text) inner rest := by
    rw [SECTION, cstr_append_left _ _ (by decide)]
  have e1d : ∀ r : Body, SECTION Text Body.done r =
      Body.EnterSection ("Section: " ++ cstr Text) Body.done r := by
    intro r
    rw [SECTION, cstr_append_left _ _ (by decide)]
  refine ⟨e1, ?_, ?_, ?_, ?_, ?_, cstr_eq_self_iff Text, ?_, ?_, ?_, by decide⟩
  · rw [ SCENARIO, cstr_append_left _ _ (by decide)]
  · rw [GIVEN, cstr_append_left _ _ (by decide)]
  · rw [AND, cstr_append_left _ _ (by decide)]
  · rw [WHEN, cstr_append_left _ _ (by decide)]
  · rw [THEN, cstr_append_left _ _ (by decide)]
  · rw [e1, (body_EnterSection _ inner rest).1]
  · rw [e1d, e1d, (body_EnterSection _ _ _).1, (body_EnterSection _ _ _).1]
    simp [body_done]
  · rw [e1d, e1d, (body_EnterSection _ _ _).2.1, (body_EnterSection _ _ _).2.1]
    simp [body_done]

/-- C15, counterexample: the body of `TEST_CASE(AssertTest, AreEqual_Integer)`,
section "Check fails", with two of its statements.  The first fatal failure
occurs inside one open section; after its `AssertFailed` event come the report of
the next statement, then the pop and `ExitTest`, and the test is tallied as
passed. -/
theorem C15_counterexample_body_goes_on_after_absorbed_fatal_failure :
    TestRegistry.Run {}
      (TestRegistry.AddAll
        [{ Name := "AssertTest::AreEqual_Integer", Tags := [],
           Run := SECTION "Check fails"
             (Body.Throws AssertType.Continue ⟨"AssertTest.cpp", 28⟩ "AssertException"
               (Body.HandleAssert AssertType.Throw ⟨"AssertTest.cpp", 28⟩
                 (some ⟨"[0] == [1]"⟩) Body.done)
               (Body.Throws AssertType.Continue ⟨"AssertTest.cpp", 29⟩ "AssertException"
                 (Body.HandleAssert AssertType.Throw ⟨"AssertTest.cpp", 29⟩
                   (some ⟨"[1] == [0]"⟩) Body.done)
                 Body.done))
             Body.done }]) [] =
      [Event.BeginRun 1,
       Event.EnterTest "AssertTest::AreEqual_Integer",
       Event.PushSection "Section: Check fails",
       Event.AssertFailed AssertType.Throw ⟨"AssertTest.cpp", 28⟩ "[0] == [1]",
       Event.AssertFailed AssertType.Throw ⟨"AssertTest.cpp", 29⟩ "[1] == [0]",
       Event.PopSection,
       Event.ExitTest,
       Event.EndRun 1 0 0] := by
  decide

/-! ## Assert::AreEqual -/

theorem AreEqual_what {TLeft TRight : Type} [Ext.TypeInfo TLeft] [Ext.TypeInfo TRight]
    (eq : TLeft → TRight → Bool) (left : TLeft) (right : TRight) :
    (Assert.AreEqual eq left right).map AssertException.what =
      if eq left right then none
      else some (cstr ("[" ++ Ext.ToString left ++ "] == [" ++ Ext.ToString right ++ "]")) := by
  unfold Assert.AreEqual
  by_cases h : eq left right = true
  · simp [h]
  · simp [h, AssertException.what, cstr_cstr]

theorem AreEqual_message_isCString_iff (a b : String) :
    cstr ("[" ++ a ++ "] == [" ++ b ++ "]") = "[" ++ a ++ "] == [" ++ b ++ "]" ↔
      (isCString a = true ∧ isCString b = true) := by
  rw [cstr_eq_self_iff]
  simp only [isCString_append, Bool.and_eq_true]
  have h1 : isCString "[" = true := by decide
  have h2 : isCString "] == [" = true := by decide
  have h3 : isCString "]" = true := by decide
  simp [h1, h2, h3]

/-- C17, counterexample: `AreEqual` on two `std::string` values, the first of three
characters `a`, NUL, `b`, the second `c`.  They differ, the text built for the
failure holds both operands, and the message of the returned failure is `[a`: it
does not contain the right operand. -/
theorem C17_counterexample_message_cut_at_NUL :
    (Assert.AreEqual TextArg.operatorEq
        (TextArg.std_string (String.mk ['a', Char.ofNat 0, 'b']))
        (TextArg.std_string "c")).map AssertException.what = some "[a" ∧
    Ext.ToString (TextArg.std_string (String.mk ['a', Char.ofNat 0, 'b'])) =
      String.mk ['a', Char.ofNat 0, 'b'] ∧
    Ext.ToString (TextArg.std_string "c") = "c" ∧
    "[" ++ Ext.ToString (TextArg.std_string (String.mk ['a', Char.ofNat 0, 'b'])) ++
        "] == [" ++ Ext.ToString (TextArg.std_string "c") ++ "]" ≠ "[a" := by
  decide

/-- C17, amended: `AreEqual(l, r)` returns Pass iff `l == r`; otherwise it returns
a Fail whose message is the text `[ToString(l)] == [ToString(r)]` cut at its
first NUL character, which is the whole text, both formatted operands included
and the left one first, exactly when neither formatted operand holds a NUL
character; `AreEqual(0, 1)` fails with `[0] == [1]`, `AreEqual(true, false)`
fails and `AreEqual(-10, -10)` passes. -/
theorem C17_AreEqual_pass_iff_equal_and_message {TLeft TRight : Type}
    [Ext.TypeInfo TLeft] [Ext.TypeInfo TRight]
    (eq : TLeft → TRight → Bool) (left : TLeft) (right : TRight) :
    (Assert.AreEqual eq left right = none ↔ eq left right = true) ∧
    (Assert.AreEqual eq left right).map AssertException.what =
      (if eq left right then none
       else some (cstr ("[" ++ Ext.ToString left ++ "] == [" ++ Ext.ToString right ++ "]"))) ∧
    (cstr ("[" ++ Ext.ToString left ++ "] == [" ++ Ext.ToString right ++ "]") =
        "[" ++ Ext.ToString left ++ "] == [" ++ Ext.ToString right ++ "]" ↔
      (isCString (Ext.ToString left) = true ∧ isCString (Ext.ToString right) = true)) ∧
    (Assert.AreEqual (fun a b : Int => a == b) 0 1).map AssertException.what =
      some "[0] == [1]" ∧
    (Assert.AreEqual (fun a b : Int => a == b) 0 (-1)).map AssertException.what =
      some "[0] == [-1]" ∧
    (Assert.AreEqual (fun a b : Bool => a == b) true false).map AssertException.what =
      some "[1] == [0]" ∧
    Assert.AreEqual (fun a b : Int => a == b) (-10) (-10) = none ∧
    Assert.AreEqual (fun a b : Bool => a == b) true true = none := by
  refine ⟨?_, AreEqual_what eq left right, AreEqual_message_isCString_iff _ _,
    by decide, by decide, by decide, by decide, by decide⟩
  unfold Assert.AreEqual
  by_cases h : eq left right = true <;> simp [h]

theorem AreEqualText_pass_iff (left right : TextArg) :
    Assert.AreEqualText left right = none ↔
      (match left, right with
       | TextArg.const_char_ptr p, TextArg.const_char_ptr q => cstr p.chars = cstr q.chars
       | TextArg.const_char_ptr p, TextArg.char_ptr q => p.address = q.address
       | TextArg.char_ptr p, TextArg.const_char_ptr q => p.address = q.address
       | TextArg.char_ptr p, TextArg.char_ptr q => p.address = q.address
       | l, r => l.text = r.text) := by
  cases left <;> cases right <;>
    simp [Assert.AreEqualText, Assert.AreEqual_const_char_ptr, Assert.AreEqual,
      TextArg.operatorEq, TextArg.rawAddress, TextArg.text]

/-- C18: `AreEqual` on text arguments.  Two distinct mutable character buffers
that hold the same characters select the template, which compares their
addresses: the call fails, with the message `[Value] == [Value]`; so does a
buffer against a literal.  For `const char*`, `std::string` and
`std::string_view` arguments, in all nine pairings, the call passes iff the
character sequences are equal, whatever the addresses, and `("left", "Value")`
and `("left", "")` fail with both texts in the message. -/
theorem C18_AreEqual_text_by_content_except_mutable_buffers
    (p q : CharPtr) (s t : String) :
    (Assert.AreEqualText (TextArg.char_ptr ⟨4096, "Value"⟩)
        (TextArg.char_ptr ⟨8192, "Value"⟩)).map AssertException.what =
      some "[Value] == [Value]" ∧
    (Assert.AreEqualText (TextArg.char_ptr ⟨4096, "Value"⟩)
        (TextArg.const_char_ptr ⟨8192, "Value"⟩)).map AssertException.what =
      some "[Value] == [Value]" ∧
    (Assert.AreEqualText (TextArg.const_char_ptr p) (TextArg.const_char_ptr q) = none ↔
      cstr p.chars = cstr q.chars) ∧
    (Assert.AreEqualText (TextArg.const_char_ptr p) (TextArg.std_string t) = none ↔
      cstr p.chars = t) ∧
    (Assert.AreEqualText (TextArg.const_char_ptr p) (TextArg.std_string_view t) = none ↔
      cstr p.chars = t) ∧
    (Assert.AreEqualText (TextArg.std_string s) (TextArg.const_char_ptr q) = none ↔
      s = cstr q.chars) ∧
    (Assert.AreEqualText (TextArg.std_string s) (TextArg.std_string t) = none ↔ s = t) ∧
    (Assert.AreEqualText (TextArg.std_string s) (TextArg.std_string_view t) = none ↔
      s = t) ∧
    (Assert.AreEqualText (TextArg.std_string_view s) (TextArg.const_char_ptr q) = none ↔
      s = cstr q.chars) ∧
    (Assert.AreEqualText (TextArg.std_string_view s) (TextArg.std_string t) = none ↔
      s = t) ∧
    (Assert.AreEqualText (TextArg.std_string_view s) (TextArg.std_string_view t) = none ↔
      s = t) ∧
    Assert.AreEqualText (TextArg.const_char_ptr ⟨4096, "Value"⟩)
      (TextArg.const_char_ptr ⟨8192, "Value"⟩) = none ∧
    Assert.AreEqualText (TextArg.const_char_ptr ⟨4096, ""⟩) (TextArg.std_string_view "") =
      none ∧
    (Assert.AreEqualText (TextArg.const_char_ptr ⟨4096, "left"⟩)
        (TextArg.const_char_ptr ⟨8192, "Value"⟩)).map AssertException.what =
      some "[left] == [Value]" ∧
    (Assert.AreEqualText (TextArg.std_string "left")
        (TextArg.std_string_view "Value")).map AssertException.what =
      some "[left] == [Value]" ∧
    (Assert.AreEqualText (TextArg.const_char_ptr ⟨4096, "left"⟩)
        (TextArg.std_string "")).map AssertException.what =
      some "[left] == []" := by
  refine ⟨by decide, by decide, ?_, ?_, ?_, ?_, ?_, ?_, ?_, ?_, ?_, by decide, by decide,
    by decide, by decide, by decide⟩ <;>
  exact AreEqualText_pass_iff _ _

/-! ## Assert::IsNull, Assert::IsTrue, Assert::IsFalse -/

theorem what_wrapped (pre e : String) (hpre : isCString pre = true) :
    AssertException.what ⟨pre ++ cstr e ++ ")"⟩ = pre ++ cstr e ++ ")" := by
  unfold AssertException.what
  rw [cstr_eq_self_iff]
  simp only [isCString_append, hpre, isCString_cstr, Bool.and_self, Bool.true_and]
  decide

/-- C19: `IsNull(value, expression)` passes iff `value == nullptr`: for the
`nullptr` literal and for a pointer of any pointee type whose address is 0; for
every other pointer it fails with the message `IsNull(` expression `)`, the
expression being the C string passed in. -/
theorem C19_IsNull_pass_iff_null {T : Type} (eqNullptr : T → Bool) (value : T)
    (p : Pointer) (expression : String) :
    (Assert.IsNull eqNullptr value expression = none ↔ eqNullptr value = true) ∧
    Assert.IsNull nullptr_t_eqNullptr () expression = none ∧
    (Assert.IsNull Pointer.eqNullptr p expression = none ↔ p.address = 0) ∧
    (Assert.IsNull Pointer.eqNullptr p expression).map AssertException.what =
      (if p.address = 0 then none else some ("IsNull(" ++ cstr expression ++ ")")) ∧
    (cstr expression = expression ↔ isCString expression = true) ∧
    Assert.IsNull Pointer.eqNullptr ⟨"int", 0⟩ "reinterpret_cast<int*>(0)" = none ∧
    (Assert.IsNull Pointer.eqNullptr ⟨"int", 140737488355328⟩ "&v").map
      AssertException.what = some "IsNull(&v)" := by
  refine ⟨?_, rfl, ?_, ?_, cstr_eq_self_iff expression, by decide, by decide⟩
  · unfold Assert.IsNull
    by_cases h : eqNullptr value = true <;> simp [h]
  · unfold Assert.IsNull Pointer.eqNullptr
    by_cases h : p.address = 0 <;> simp [h]
  · unfold Assert.IsNull Pointer.eqNullptr
    by_cases h : p.address = 0
    · simp [h]
    · simp only [beq_iff_eq, h, if_false, Option.map_some']
      rw [what_wrapped _ _ (by decide)]

/-- C20: for every boolean and every expression text, `IsTrue` passes iff the
value is true and `IsFalse` passes iff it is false, so exactly one of the two
passes; the failing one carries the message `IsTrue(` expression `)`, respectively
`IsFalse(` expression `)`, with the expression text (a C string) unchanged. -/
theorem C20_IsTrue_IsFalse_complementary (value : Bool) (expression : String) :
    (Assert.IsTrue value expression = none ↔ value = true) ∧
    (Assert.IsFalse value expression = none ↔ value = false) ∧
    ((Assert.IsTrue value expression).isNone ≠ (Assert.IsFalse value expression).isNone) ∧
    (Assert.IsTrue false expression).map AssertException.what =
      some ("IsTrue(" ++ cstr expression ++ ")") ∧
    (Assert.IsFalse true expression).map AssertException.what =
      some ("IsFalse(" ++ cstr expression ++ ")") ∧
    (cstr expression = expression ↔ isCString expression = true) ∧
    (Assert.IsTrue false "BoolWrapper(false)").map AssertException.what =
      some "IsTrue(BoolWrapper(false))" ∧
    (Assert.IsFalse true "true").map AssertException.what = some "IsFalse(true)" := by
  refine ⟨?_, ?_, ?_, ?_, ?_, cstr_eq_self_iff expression, by decide, by decide⟩
  · cases value <;> simp [Assert.IsTrue]
  · cases value <;> simp [Assert.IsFalse]
  · cases value <;> simp [Assert.IsTrue, Assert.IsFalse]
  · simp only [Assert.IsTrue, Bool.not_false, if_true, Option.map_some']
    rw [what_wrapped _ _ (by decide)]
  · simp only [Assert.IsFalse, if_true, Option.map_some']
    rw [what_wrapped _ _ (by decide)]

/-! ## The command line -/

theorem ParseArguments_cons_positional (self : RunOptions) (arg : String)
    (rest : List String) (h : isPositional arg = true) :
    RunOptions.ParseArguments self (arg :: rest) =
      RunOptions.ParseArguments { self with Keywords := self.Keywords ++ [arg] } rest := by
  have h1 : arg.data.head? ≠ some '-' := by
    simpa [isPositional] using h
  rw [RunOptions.ParseArguments, if_pos h1]

theorem dash_option_eq (tl : List Char) (s : String) :
    ((String.mk tl == s) = true) ↔ (String.mk ('-' :: tl) = String.mk ('-' :: s.data)) := by
  rw [beq_iff_eq, String.ext_iff, String.ext_iff]
  simp

theorem ParseArguments_cons_dash (self : RunOptions) (tl : List Char)
    (rest : List String) :
    RunOptions.ParseArguments self (String.mk ('-' :: tl) :: rest) =
      if String.mk ('-' :: tl) = "-h" ∨ String.mk ('-' :: tl) = "--help" ∨
          String.mk ('-' :: tl) = "-?" then
        { options := self,
          out := ["Usage:",
                  "    -h, --help, -?:  Displays this message",
                  "    -v, --verbose:   Show verbose output"],
          ok := false }
      else if String.mk ('-' :: tl) = "-v" ∨ String.mk ('-' :: tl) = "--verbose" then
        RunOptions.ParseArguments { self with Verbose := true } rest
      else
        { options := self, out := ["Unknown option: " ++ String.mk tl], ok := false } := by
  have e1 := dash_option_eq tl "h"
  have e2 := dash_option_eq tl "-help"
  have e3 := dash_option_eq tl "?"
  have e4 := dash_option_eq tl "v"
  have e5 := dash_option_eq tl "-verbose"
  have k1 : String.mk ('-' :: "h".data) = "-h" := by decide
  have k2 : String.mk ('-' :: "-help".data) = "--help" := by decide
  have k3 : String.mk ('-' :: "?".data) = "-?" := by decide
  have k4 : String.mk ('-' :: "v".data) = "-v" := by decide
  have k5 : String.mk ('-' :: "-verbose".data) = "--verbose" := by decide
  rw [k1] at e1
  rw [k2] at e2
  rw [k3] at e3
  rw [k4] at e4
  rw [k5] at e5
  rw [RunOptions.ParseArguments]
  simp only [List.head?_cons, ne_eq, not_true_eq_false, if_false, List.drop_succ_cons,
    List.drop_zero, Bool.or_eq_true, e1, e2, e3, e4, e5, or_assoc]

theorem ParseArguments_spec (args : List String) (self : RunOptions) :
    (RunOptions.ParseArguments self args).ok = !(args.any isRejectedArgument) ∧
      ((RunOptions.ParseArguments self args).ok = true →
        (RunOptions.ParseArguments self args).options.Keywords =
            self.Keywords ++ args.filter isPositional ∧
          (RunOptions.ParseArguments self args).options.Verbose =
            (self.Verbose || args.any (fun a => a == "-v" || a == "--verbose")) ∧
          (RunOptions.ParseArguments self args).out = []) := by
  induction args generalizing self with
  | nil => simp [RunOptions.ParseArguments]
  | cons arg rest ih =>
    by_cases hp : isPositional arg = true
    · have hr : isRejectedArgument arg = false := by
        simp only [isPositional, bne_iff_ne, ne_eq] at hp
        simp [isRejectedArgument, hp]
      have hv : (arg == "-v" || arg == "--verbose") = false := by
        rw [Bool.or_eq_false_iff]
        constructor
        · rw [beq_eq_false_iff_ne]
          intro h
          rw [h] at hp
          exact absurd hp (by decide)
        · rw [beq_eq_false_iff_ne]
          intro h
          rw [h] at hp
          exact absurd hp (by decide)
      rw [ParseArguments_cons_positional self arg rest hp]
      obtain ⟨i1, i2⟩ := ih { self with Keywords := self.Keywords ++ [arg] }
      refine ⟨by simp [i1, hr], ?_⟩
      intro hok
      obtain ⟨j1, j2, j3⟩ := i2 hok
      simp [j1, j2, j3, List.filter_cons, hp, hv]
    · have hd : ∃ tl, arg = String.mk ('-' :: tl) := by
        rcases arg with ⟨data⟩
        cases data with
        | nil => simp [isPositional] at hp
        | cons c tl =>
          simp only [isPositional, List.head?_cons, bne_iff_ne, ne_eq, Option.some.injEq,
            not_not] at hp
          exact ⟨tl, by rw [hp]⟩
      obtain ⟨tl, rfl⟩ := hd
      rw [ParseArguments_cons_dash]
      by_cases hh : String.mk ('-' :: tl) = "-h" ∨ String.mk ('-' :: tl) = "--help" ∨
          String.mk ('-' :: tl) = "-?"
      · have hr : isRejectedArgument (String.mk ('-' :: tl)) = true := by
          rcases hh with h | h | h <;> rw [h] <;> decide
        rw [if_pos hh]
        simp [hr]
      · rw [if_neg hh]
        by_cases hv : String.mk ('-' :: tl) = "-v" ∨ String.mk ('-' :: tl) = "--verbose"
        · have hr : isRejectedArgument (String.mk ('-' :: tl)) = false := by
            rcases hv with h | h <;> rw [h] <;> decide
          have hvb : (String.mk ('-' :: tl) == "-v" || String.mk ('-' :: tl) == "--verbose") =
              true := by
            simpa using hv
          rw [if_pos hv]
          obtain ⟨i1, i2⟩ := ih { self with Verbose := true }
          refine ⟨by simp [i1, hr], ?_⟩
          intro hok
          obtain ⟨j1, j2, j3⟩ := i2 hok
          simp [j1, j2, j3, List.filter_cons, hp, hvb]
        · have hr : isRejectedArgument (String.mk ('-' :: tl)) = true := by
            simp only [not_or] at hv
            simp [isRejectedArgument, hv.1, hv.2]
          rw [if_neg hv]
          simp [hr]

theorem ParseCommandLine_accepted (argv : List String)
    (h : (argv.drop 1).any isRejectedArgument = false) :
    RunOptions.ParseCommandLine {} argv =
      { options :=
          { Verbose := (argv.drop 1).any (fun a => a == "-v" || a == "--verbose"),
            Keywords := (argv.drop 1).filter isPositional },
        out := [], ok := true } := by
  obtain ⟨h1, h2⟩ := ParseArguments_spec (argv.drop 1) {}
  have hok : (RunOptions.ParseArguments {} (argv.drop 1)).ok = true := by
    rw [h1, h]
    rfl
  obtain ⟨k1, k2, k3⟩ := h2 hok
  unfold RunOptions.ParseCommandLine
  rcases hr : RunOptions.ParseArguments {} (argv.drop 1) with ⟨⟨v, k⟩, o, b⟩
  rw [hr] at hok k1 k2 k3
  simp only at hok k1 k2 k3
  simp [hok, k1, k2, k3]

/-- C30: on an argument vector with no help flag and no unknown option,
`ParseCommandLine` (on default-constructed options) returns true, skips `argv[0]`,
leaves in `Keywords` exactly the arguments that do not start with `-`, in order,
and sets `Verbose` iff `-v` or `--verbose` occurs; it returns false exactly when
some argument after `argv[0]` starts with `-` and is neither `-v` nor
`--verbose`, as `-h`, `--help` and `-?` are. -/
theorem C30_ParseCommandLine_keywords_and_flags (argv : List String) (self : RunOptions) :
    ((self.ParseCommandLine argv).ok = false ↔
      ∃ arg ∈ argv.drop 1,
        arg.data.head? = some '-' ∧ arg ≠ "-v" ∧ arg ≠ "--verbose") ∧
    ((argv.drop 1).any isRejectedArgument = false →
      RunOptions.ParseCommandLine {} argv =
        { options :=
            { Verbose := (argv.drop 1).any (fun a => a == "-v" || a == "--verbose"),
              Keywords := (argv.drop 1).filter isPositional },
          out := [], ok := true }) ∧
    ((self.ParseCommandLine argv).ok = true →
      (self.ParseCommandLine argv).options.Keywords =
          self.Keywords ++ (argv.drop 1).filter isPositional ∧
        (self.ParseCommandLine argv).options.Verbose =
          (self.Verbose || (argv.drop 1).any (fun a => a == "-v" || a == "--verbose"))) ∧
    isRejectedArgument "-h" = true ∧ isRejectedArgument "--help" = true ∧
    isRejectedArgument "-?" = true ∧ isRejectedArgument "-x" = true ∧
    isRejectedArgument "-v" = false ∧ isRejectedArgument "--verbose" = false ∧
    RunOptions.ParseCommandLine {} ["prog", "Foo", "-v", "Bar", "--verbose"] =
      { options := { Verbose := true, Keywords := ["Foo", "Bar"] }, out := [], ok := true } ∧
    RunOptions.ParseCommandLine {} ["-x", "Foo"] =
      { options := { Verbose := false, Keywords := ["Foo"] }, out := [], ok := true } ∧
    (RunOptions.ParseCommandLine {} ["prog", "Foo", "--help", "-v"]).ok = false ∧
    (RunOptions.ParseCommandLine {} ["prog", "--version"]).ok = false := by
  obtain ⟨h1, h2⟩ := ParseArguments_spec (argv.drop 1) self
  refine ⟨?_, ParseCommandLine_accepted argv, ?_, by decide, by decide, by decide,
    by decide, by decide, by decide, by decide, by decide, by decide, by decide⟩
  · unfold RunOptions.ParseCommandLine
    rw [h1]
    simp [isRejectedArgument]
  · intro hok
    obtain ⟨k1, k2, _⟩ := h2 hok
    exact ⟨k1, k2⟩

theorem main_eq (argv : List String) (s_test_vector : List TestDetails) :
    main argv s_test_vector =
      if (argv.drop 1).any isRejectedArgument then
        { exit_code := -1, out := (RunOptions.ParseCommandLine {} argv).out, events := [] }
      else
        { exit_code := 0, out := [],
          events := TestRegistry.Run
            { Verbose := (argv.drop 1).any (fun a => a == "-v" || a == "--verbose"),
              Keywords := (argv.drop 1).filter isPositional }
            s_test_vector [] } := by
  by_cases h : (argv.drop 1).any isRejectedArgument = true
  · have hok : (RunOptions.ParseCommandLine {} argv).ok = false := by
      unfold RunOptions.ParseCommandLine
      rw [(ParseArguments_spec (argv.drop 1) {}).1, h]
      rfl
    rw [if_pos h]
    unfold main
    simp only [hok, Bool.not_false, if_true]
  · have h0 : (argv.drop 1).any isRejectedArgument = false := by
      cases hb : (argv.drop 1).any isRejectedArgument
      · rfl
      · exact absurd hb h
    rw [if_neg h]
    unfold main
    rw [ParseCommandLine_accepted argv h0]
    rfl

/-- C28: the generated `main` exits with -1 when some argument after `argv[0]` is
a help flag or an unknown option, without calling `Run` (no event, no test), and
with 0 otherwise, whatever the registered tests do: with only keywords and
`-v`/`--verbose` it exits with 0 also when a test fails. -/
theorem C28_main_exit_code (argv : List String) (s_test_vector : List TestDetails) :
    (main argv s_test_vector).exit_code =
      (if (argv.drop 1).any isRejectedArgument then -1 else 0) ∧
    ((main argv s_test_vector).exit_code ≠ 0 ↔
      ∃ arg ∈ argv.drop 1,
        arg.data.head? = some '-' ∧ arg ≠ "-v" ∧ arg ≠ "--verbose") ∧
    (main argv s_test_vector).events =
      (if (argv.drop 1).any isRejectedArgument then []
       else TestRegistry.Run
         { Verbose := (argv.drop 1).any (fun a => a == "-v" || a == "--verbose"),
           Keywords := (argv.drop 1).filter isPositional }
         s_test_vector []) ∧
    main ["prog", "-v", "Demo"]
        (TestRegistry.AddAll
          [TEST_CASE "Demo" "Fails" []
            (Body.HandleAssert AssertType.Throw ⟨"Demo.cpp", 3⟩ (some ⟨"IsTrue(false)"⟩)
              Body.done)]) =
      { exit_code := 0, out := [],
        events :=
          [Event.BeginRun 1,
           Event.EnterTest "Demo::Fails",
           Event.AssertFailed AssertType.Throw ⟨"Demo.cpp", 3⟩ "IsTrue(false)",
           Event.ExitTest,
           Event.EndRun 0 1 0] } ∧
    main ["prog", "Demo", "--fast"]
        (TestRegistry.AddAll [TEST_CASE "Demo" "Passes" [] Body.done]) =
      { exit_code := -1, out := ["Unknown option: -fast"], events := [] } ∧
    (main ["prog", "-h"] s_test_vector).exit_code = -1 := by
  have hm := main_eq argv s_test_vector
  have hiff : ((argv.drop 1).any isRejectedArgument = true) ↔
      ∃ arg ∈ argv.drop 1,
        arg.data.head? = some '-' ∧ arg ≠ "-v" ∧ arg ≠ "--verbose" := by
    simp [isRejectedArgument]
  refine ⟨?_, ?_, ?_, by decide, by decide, ?_⟩
  · rw [hm]
    split_ifs <;> rfl
  · rw [hm, ← hiff]
    by_cases h : (argv.drop 1).any isRejectedArgument = true
    · rw [if_pos h]
      exact ⟨fun _ => h, fun _ => by simp⟩
    · rw [if_neg h]
      exact ⟨fun hne => absurd rfl hne, fun hh => absurd hh h⟩
  · rw [hm]
    split_ifs <;> rfl
  · rw [main_eq]
    rfl

/-! ## The registry -/

/-- C29: `Add` appends exactly one descriptor, at the end, with the name and the
tags the test case declares, keeps every earlier descriptor and accepts a name
that is registered already; `Run` takes the registry as a constant, and a second
`Run` with the same filter emits the same events, so it visits the same tests in
the same order. -/
theorem C29_registry_is_append_only (T : TTestCase) (s_test_vector : List TestDetails)
    (options : RunOptions) (Ts : List TTestCase) (logger : ILogger) (Run : Body) :
    TestRegistry.Add T s_test_vector = s_test_vector ++ [TestRegistry.details T] ∧
    (TestRegistry.Add T s_test_vector).length = s_test_vector.length + 1 ∧
    (TestRegistry.Add T s_test_vector).take s_test_vector.length = s_test_vector ∧
    (TestRegistry.details T).Name = T.Name ∧
    (TestRegistry.details T).Tags = T.Tags ∧
    (TestRegistry.Add T (TestRegistry.Add T s_test_vector)).map TestDetails.Name =
      s_test_vector.map TestDetails.Name ++ [T.Name, T.Name] ∧
    (TestRegistry.AddAll Ts).map TestDetails.Name = Ts.map TTestCase.Name ∧
    (TestRegistry.AddAll Ts).map TestDetails.Tags = Ts.map TTestCase.Tags ∧
    (TEST_CASE "TestCaseTest" "TestWithoutTags" [] Run).Name =
      "TestCaseTest::TestWithoutTags" ∧
    (TEST_CASE "TestCaseTest" "TestWithoutTags" [] Run).Tags = [] ∧
    (TEST_CASE "TestCaseTest" "TestWithTags" ["Tag1", "Tag2"] Run).Name =
      "TestCaseTest::TestWithTags" ∧
    (TEST_CASE "TestCaseTest" "TestWithTags" ["Tag1", "Tag2"] Run).Tags =
      ["Tag1", "Tag2"] ∧
    TestRegistry.Run options (TestRegistry.AddAll Ts)
        (TestRegistry.Run options (TestRegistry.AddAll Ts) logger) =
      logger ++ TestRegistry.Run options (TestRegistry.AddAll Ts) [] ++
        TestRegistry.Run options (TestRegistry.AddAll Ts) [] ∧
    visitedNames (TestRegistry.Run options (TestRegistry.AddAll Ts)
        (TestRegistry.Run options (TestRegistry.AddAll Ts) [])) =
      Ts.map TTestCase.Name ++ Ts.map TTestCase.Name := by
  have hrun : ∀ lg : ILogger, TestRegistry.Run options (TestRegistry.AddAll Ts) lg =
      lg ++ TestRegistry.Run options (TestRegistry.AddAll Ts) [] := by
    intro lg
    simp [Run_AddAll]
  have hv : visitedNames (TestRegistry.Run options (TestRegistry.AddAll Ts) []) =
      Ts.map TTestCase.Name := by
    rw [Run_AddAll]
    have h := visitedNames_flatten options Ts
    unfold visitedNames at h ⊢
    simp [List.filterMap_append, h, Event.visitedName]
  refine ⟨rfl, by simp [TestRegistry.Add], by simp [TestRegistry.Add], rfl, rfl,
    by simp [TestRegistry.Add, TestRegistry.details], ?_, ?_,
    by simp only [TEST_CASE]; decide, rfl, by simp only [TEST_CASE]; decide, rfl, ?_, ?_⟩
  · rw [AddAll_eq, List.map_map]
    rfl
  · rw [AddAll_eq, List.map_map]
    rfl
  · rw [hrun (TestRegistry.Run options (TestRegistry.AddAll Ts) logger), hrun logger]
  · rw [hrun (TestRegistry.Run options (TestRegistry.AddAll Ts) [])]
    unfold visitedNames at hv ⊢
    rw [List.filterMap_append, hv]

/-! ## Assert::Throws -/

/-- C21, counterexample: `Assert::Throws<std::exception>` around a callback that
throws `std::runtime_error("Bang")` returns Pass, although the callback raised
another kind than `std::exception`. -/
theorem C21_counterexample_Throws_passes_on_derived_kind :
    (Assert.Throws "std::exception"
        (fun s : Unit =>
          (s, Signal.threw ⟨"std::runtime_error", ["std::exception"], "Bang"⟩)) ()).2 =
      none ∧
    (⟨"std::runtime_error", ["std::exception"], "Bang"⟩ : Thrown).type ≠
      "std::exception" := by
  decide

/-- C21, amended: `Assert::Throws<K>(callback)` returns Pass iff the callback
raises an exception a handler for `const K&` catches, one of kind `K` or of a
kind derived from `K`; otherwise it returns a Fail, and the callback's exception
does not leave it: the message names `K` and the caught type with its `what()`
text for another `std::exception`, says "but caught another" for any other value
and "but none was thrown" when the callback returns. -/
theorem C21_Throws_pass_iff_caught_as_K {σ : Type} (K : String)
    (callback : σ → σ × Signal) (s : σ) (e : Thrown) :
    ((Assert.Throws K callback s).2 = none ↔
      ∃ x, (callback s).2 = Signal.threw x ∧ (x.type = K ∨ K ∈ x.bases)) ∧
    (Assert.Throws K callback s).1 = (callback s).1 ∧
    (Assert.Throws K callback s).2 = throwsOutcome K (callback s).2 ∧
    (throwsOutcome K (Signal.threw e)).map AssertException.what =
      (if e.catches K then none
       else if e.catches "std::exception" then
         some (cstr ("Expected exception [" ++ K ++ "] but caught [" ++ e.type ++ ": " ++
           e.what ++ "]"))
       else some (cstr ("Expected exception [" ++ K ++ "] but caught another"))) ∧
    (throwsOutcome K Signal.normal).map AssertException.what =
      some (cstr ("Expected exception [" ++ K ++ "] but none was thrown")) ∧
    (throwsOutcome K Signal.returned).map AssertException.what =
      some (cstr ("Expected exception [" ++ K ++ "] but none was thrown")) ∧
    (Assert.Throws "std::runtime_error"
        (fun u : Unit =>
          (u, Signal.threw ⟨"std::runtime_error", ["std::exception"], "Bang"⟩)) ()).2 =
      none ∧
    (Assert.Throws "int" (fun u : Unit => (u, Signal.threw ⟨"int", [], ""⟩)) ()).2 = none ∧
    ((Assert.Throws "std::runtime_error"
        (fun u : Unit =>
          (u, Signal.threw ⟨"std::logic_error", ["std::exception"], "Bang"⟩)) ()).2.map
      AssertException.what) =
      some "Expected exception [std::runtime_error] but caught [std::logic_error: Bang]" ∧
    ((Assert.Throws "std::runtime_error"
        (fun u : Unit => (u, Signal.threw ⟨"int", [], ""⟩)) ()).2.map
      AssertException.what) =
      some "Expected exception [std::runtime_error] but caught another" ∧
    ((Assert.Throws "std::runtime_error" (fun u : Unit => (u, Signal.normal)) ()).2.map
      AssertException.what) =
      some "Expected exception [std::runtime_error] but none was thrown" := by
  refine ⟨?_, ?_, ?_, ?_, ?_, ?_, by decide, by decide, by decide, by decide, by decide⟩
  · rw [Throws_eq]
    simp only []
    cases hs : (callback s).2 with
    | normal => simp [throwsOutcome]
    | returned => simp [throwsOutcome]
    | threw x =>
      by_cases hc : x.catches K = true
      · have hc2 : x.type = K ∨ K ∈ x.bases := by
          simpa [Thrown.catches] using hc
        simp [throwsOutcome, hc, hc2]
      · have hc2 : ¬ (x.type = K ∨ K ∈ x.bases) := by
          simpa [Thrown.catches] using hc
        have hc3 : ¬ (x.type = K) := fun h => hc2 (Or.inl h)
        have hc4 : ¬ (K ∈ x.bases) := fun h => hc2 (Or.inr h)
        by_cases hstd : x.catches "std::exception" = true <;>
          simp [throwsOutcome, hc, hstd, hc3, hc4]
  · rw [Throws_eq]
  · rw [Throws_eq]
  · unfold throwsOutcome
    by_cases hc : e.catches K = true
    · simp [hc]
    · by_cases hstd : e.catches "std::exception" = true <;>
        simp [hc, hstd, AssertException.what, cstr_cstr]
  · simp [throwsOutcome, AssertException.what, cstr_cstr]
  · simp [throwsOutcome, AssertException.what, cstr_cstr]

/-! ## Ext::ToString -/

/-- C23: `Ext::ToString` tests the categories in the order null, text-like,
pointer, enum, number, the first that applies deciding; it returns `nullptr` for
the null sentinel and every text verbatim, the empty one included; a character
pointer, text-like and pointer at once, is formatted as the text it points to,
whatever its address. -/
theorem C23_ToString_category_priority {T : Type} (value : T)
    (sc : Option (T → String)) (pa : Option (T → Nat))
    (es : Option (String × (T → String))) (ts : T → String)
    (ctor stream : T → String) (address : T → Nat) (name s : String) (p : CharPtr) :
    @Ext.ToString T ⟨true, sc, pa, es, ts⟩ value = "nullptr" ∧
    @Ext.ToString T ⟨false, some ctor, pa, es, ts⟩ value = ctor value ∧
    @Ext.ToString T ⟨false, none, some address, es, ts⟩ value =
      "0x" ++ String.mk (hexFixed 16 (address value % 2 ^ 64)) ∧
    @Ext.ToString T ⟨false, none, none, some (name, stream), ts⟩ value =
      "[" ++ name ++ "] " ++ stream value ∧
    @Ext.ToString T ⟨false, none, none, none, ts⟩ value = ts value ∧
    Ext.ToString () = "nullptr" ∧
    Ext.ToString (TextArg.std_string s) = s ∧
    Ext.ToString (TextArg.std_string_view s) = s ∧
    Ext.ToString (TextArg.const_char_ptr p) = cstr p.chars ∧
    Ext.ToString p = cstr p.chars ∧
    (instTypeInfoCharPtr.pointer_address.map (fun f => f p)) = some p.address ∧
    Ext.ToString (⟨4096, "Hello world"⟩ : CharPtr) = "Hello world" ∧
    Ext.ToString (TextArg.std_string "Hello world") = "Hello world" ∧
    Ext.ToString (⟨4096, ""⟩ : CharPtr) = "" ∧
    Ext.ToString (TextArg.std_string "") = "" := by
  refine ⟨rfl, rfl, rfl, rfl, rfl, rfl, rfl, rfl, rfl, rfl, rfl, by decide, by decide,
    by decide, by decide⟩

theorem hexFixed_length (width n : Nat) : (hexFixed width n).length = width := by
  induction width generalizing n with
  | zero => rfl
  | succ w ih => simp [hexFixed, ih]

/-- C25: `Ext::ToString` on enum values.  For `enum class Typed : uint8_t` the
underlying value is streamed as an `unsigned char`, so the value 200 gives the
type name followed by the single character with code 200, and the value 10 the
type name followed by a line feed, not the decimal texts `200` and `10`.  For an
underlying type of 16, 32 or 64 bits the decimal text follows the type name, as
for the unscoped enum value -20. -/
theorem C25_ToString_enum_streams_underlying_value (name : String) (signed : Bool)
    (v : Int) :
    Ext.ToString (⟨200⟩ : EnumValue "Typed" ⟨false, 8⟩) =
      "[Typed] " ++ String.mk [Char.ofNat 200] ∧
    Ext.ToString (⟨200⟩ : EnumValue "Typed" ⟨false, 8⟩) ≠ "[Typed] 200" ∧
    Ext.ToString (⟨10⟩ : EnumValue "Typed" ⟨false, 8⟩) =
      "[Typed] " ++ String.mk [Char.ofNat 10] ∧
    Ext.ToString (⟨10⟩ : EnumValue "Typed" ⟨false, 8⟩) ≠ "[Typed] 10" ∧
    Ext.ToString (⟨v⟩ : EnumValue name ⟨signed, 8⟩) =
      "[" ++ name ++ "] " ++ String.mk [Char.ofNat (v % 256).toNat] ∧
    Ext.ToString (⟨v⟩ : EnumValue name ⟨signed, 16⟩) = "[" ++ name ++ "] " ++ toString v ∧
    Ext.ToString (⟨v⟩ : EnumValue name ⟨signed, 32⟩) = "[" ++ name ++ "] " ++ toString v ∧
    Ext.ToString (⟨v⟩ : EnumValue name ⟨signed, 64⟩) = "[" ++ name ++ "] " ++ toString v ∧
    Ext.ToString (⟨-20⟩ : EnumValue "Untyped" ⟨true, 32⟩) = "[Untyped] -20" ∧
    Ext.ToString (⟨10⟩ : EnumValue "Untyped" ⟨true, 32⟩) = "[Untyped] 10" := by
  refine ⟨by decide, by decide, by decide, by decide, rfl, rfl, rfl, rfl, by decide,
    by decide⟩

/-- C26: `Ext::ToString` on floating-point values returns what `std::to_string`
writes, fixed notation with six decimals: `1.000000` for 1.0, `1.500000` for
1.5, `0.000000` for 1e-10 (which does not read back to the value) and
`-1.234000` for -1.234, for `double` and for `float`; not the shortest texts
`1`, `1.5`, `1e-10` and `-1.234`. -/
theorem C26_ToString_floating_point_is_fixed_notation :
    Ext.ToString (⟨1, 1⟩ : FloatingPoint) = "1.000000" ∧
    Ext.ToString (⟨3, 2⟩ : FloatingPoint) = "1.500000" ∧
    Ext.ToString (⟨7737125245533627, 77371252455336267181195264⟩ : FloatingPoint) =
      "0.000000" ∧
    Ext.ToString (⟨-694680242521899, 562949953421312⟩ : FloatingPoint) = "-1.234000" ∧
    Ext.ToString (⟨14411519, 144115188075855872⟩ : FloatingPoint) = "0.000000" ∧
    Ext.ToString (⟨-5175771, 4194304⟩ : FloatingPoint) = "-1.234000" ∧
    Ext.ToString (⟨1, 1⟩ : FloatingPoint) ≠ "1" ∧
    Ext.ToString (⟨3, 2⟩ : FloatingPoint) ≠ "1.5" ∧
    Ext.ToString (⟨7737125245533627, 77371252455336267181195264⟩ : FloatingPoint) ≠
      "1e-10" ∧
    Ext.ToString (⟨-694680242521899, 562949953421312⟩ : FloatingPoint) ≠ "-1.234" := by
  decide

/-- C27: `Ext::ToString` on a character pointer returns a string iff the pointer
is not null: on a null `const char*` it constructs a `std::string` from a null
pointer, which is undefined and returns nothing; on a pointer to any C string,
the empty one included, it returns the text.  In the other categories no
operation can fail. -/
theorem C27_ToString_faults_on_null_char_pointer (value : Option CharPtr) (p : CharPtr)
    (q : Pointer) (name : String) (ty : IntegerType) (v : Int) (f : FloatingPoint) :
    Ext.ToString_const_char_ptr none = none ∧
    (Ext.ToString_const_char_ptr value = none ↔ value = none) ∧
    Ext.ToString_const_char_ptr (some p) = some (cstr p.chars) ∧
    Ext.ToString_const_char_ptr (some ⟨4096, ""⟩) = some "" ∧
    Ext.ToString () = "nullptr" ∧
    (Ext.ToString q).length = 18 ∧
    Ext.ToString (⟨v⟩ : EnumValue name ty) = "[" ++ name ++ "] " ++ streamInteger ty v ∧
    Ext.ToString v = toString v ∧
    Ext.ToString f = std_to_string_f f := by
  refine ⟨rfl, ?_, rfl, by decide, rfl, ?_, rfl, rfl, rfl⟩
  · cases value <;> simp [Ext.ToString_const_char_ptr]
  · have hts : Ext.ToString q =
        "0x" ++ String.mk (hexFixed (sizeof_size_t * 2) (q.address % 2 ^ 64)) := by
      simp only [Ext.ToString, instTypeInfoPointer]
      rfl
    have e : "0x".data = ['0', 'x'] := by decide
    rw [String.length, hts, String.data_append, e]
    simp [hexFixed_length, sizeof_size_t]

/-! ## The filter as a function of the keyword set -/

theorem ShouldRunTest_true_iff (options : RunOptions) (name : String) (tags : List String) :
    ShouldRunTest options name tags = true ↔
      (options.Keywords = [] ∨
        ∃ k ∈ options.Keywords, k.data <:+: name.data ∨ k ∈ tags) := by
  unfold ShouldRunTest
  by_cases h : options.Keywords = []
  · simp [h]
  · have h2 : options.Keywords.isEmpty = false := by
      cases hk : options.Keywords with
      | nil => exact absurd hk h
      | cons a l => rfl
    rw [h2]
    simp only [Bool.false_eq_true, if_false, h, false_or]
    exact keywordsMatch_iff name tags options.Keywords

theorem ShouldRunTest_congr (options1 options2 : RunOptions) (name : String)
    (tags1 tags2 : List String)
    (hk : ∀ k, k ∈ options1.Keywords ↔ k ∈ options2.Keywords)
    (ht : ∀ t, t ∈ tags1 ↔ t ∈ tags2) :
    ShouldRunTest options1 name tags1 = ShouldRunTest options2 name tags2 := by
  have hnil : options1.Keywords = [] ↔ options2.Keywords = [] := by
    constructor
    · intro h
      apply List.eq_nil_iff_forall_not_mem.2
      intro a ha
      have := (hk a).2 ha
      rw [h] at this
      exact absurd this (List.not_mem_nil a)
    · intro h
      apply List.eq_nil_iff_forall_not_mem.2
      intro a ha
      have := (hk a).1 ha
      rw [h] at this
      exact absurd this (List.not_mem_nil a)
  rw [Bool.eq_iff_iff, ShouldRunTest_true_iff, ShouldRunTest_true_iff, hnil]
  constructor
  · rintro (h | ⟨k, hk1, h | h⟩)
    · exact Or.inl h
    · exact Or.inr ⟨k, (hk k).1 hk1, Or.inl h⟩
    · exact Or.inr ⟨k, (hk k).1 hk1, Or.inr ((ht k).1 h)⟩
  · rintro (h | ⟨k, hk1, h | h⟩)
    · exact Or.inl h
    · exact Or.inr ⟨k, (hk k).2 hk1, Or.inl h⟩
    · exact Or.inr ⟨k, (hk k).2 hk1, Or.inr ((ht k).2 h)⟩

/-- C32: `ShouldRunTest` depends only on the set of keywords and on the set of
tags (and not on `Verbose`): two keyword lists with the same members and two tag
lists with the same members give the same result, so a permuted list, a reversed
list and a list with a keyword repeated select the same tests; for a non-empty
keyword list the result is monotone: a test selected by it is selected by every
list that contains all its keywords.  The empty list, which selects every test,
is the one list that is not monotone. -/
theorem C32_ShouldRunTest_depends_on_keyword_set :
    (∀ (options1 options2 : RunOptions) (name : String) (tags1 tags2 : List String),
      (∀ k, k ∈ options1.Keywords ↔ k ∈ options2.Keywords) →
      (∀ t, t ∈ tags1 ↔ t ∈ tags2) →
      ShouldRunTest options1 name tags1 = ShouldRunTest options2 name tags2) ∧
    (∀ (v1 v2 : Bool) (K1 K2 : List String) (name : String) (tags : List String),
      K1.Perm K2 →
      ShouldRunTest { Verbose := v1, Keywords := K1 } name tags =
        ShouldRunTest { Verbose := v2, Keywords := K2 } name tags) ∧
    (∀ (v : Bool) (K : List String) (k : String) (name : String) (tags : List String),
      ShouldRunTest { Verbose := v, Keywords := k :: k :: K } name tags =
          ShouldRunTest { Verbose := v, Keywords := k :: K } name tags ∧
        ShouldRunTest { Verbose := v, Keywords := K ++ K } name tags =
          ShouldRunTest { Verbose := v, Keywords := K } name tags ∧
        ShouldRunTest { Verbose := v, Keywords := K.reverse } name tags =
          ShouldRunTest { Verbose := v, Keywords := K } name tags) ∧
    (∀ (options : RunOptions) (name : String) (tags1 tags2 : List String),
      tags1.Perm tags2 →
      ShouldRunTest options name tags1 = ShouldRunTest options name tags2) ∧
    (∀ (options1 options2 : RunOptions) (name : String) (tags : List String),
      options1.Keywords ≠ [] →
      (∀ k ∈ options1.Keywords, k ∈ options2.Keywords) →
      ShouldRunTest options1 name tags = true →
      ShouldRunTest options2 name tags = true) ∧
    (ShouldRunTest { Keywords := ["Foo", "Bar"] } "Bar::Baz" [] = true ∧
      ShouldRunTest { Keywords := ["Bar", "Foo", "Bar"] } "Bar::Baz" [] = true ∧
      ShouldRunTest { Keywords := ["Qux", "Foo"] } "Bar::Baz" ["Foo", "Slow"] = true ∧
      ShouldRunTest { Keywords := ["Foo", "Qux"] } "Bar::Baz" ["Slow", "Foo"] = true ∧
      ShouldRunTest { Keywords := ["Qux"] } "Bar::Baz" ["Slow", "Foo"] = false ∧
      ShouldRunTest { Keywords := ["Qux", "Qux"] } "Bar::Baz" ["Foo", "Slow"] = false) ∧
    (ShouldRunTest { Keywords := [] } "Bar::Baz" [] = true ∧
      ShouldRunTest { Keywords := ["Foo"] } "Bar::Baz" [] = false) := by
  refine ⟨?_, ?_, ?_, ?_, ?_, ?_, ?_⟩
  · intro options1 options2 name tags1 tags2 hk ht
    exact ShouldRunTest_congr options1 options2 name tags1 tags2 hk ht
  · intro v1 v2 K1 K2 name tags hp
    exact ShouldRunTest_congr _ _ name tags tags (fun k => hp.mem_iff) (fun _ => Iff.rfl)
  · intro v K k name tags
    refine ⟨?_, ?_, ?_⟩
    · exact ShouldRunTest_congr _ _ name tags tags (fun a => by simp) (fun _ => Iff.rfl)
    · exact ShouldRunTest_congr _ _ name tags tags (fun a => by simp) (fun _ => Iff.rfl)
    · exact ShouldRunTest_congr _ _ name tags tags (fun a => by simp) (fun _ => Iff.rfl)
  · intro options name tags1 tags2 hp
    exact ShouldRunTest_congr options options name tags1 tags2 (fun _ => Iff.rfl)
      (fun t => hp.mem_iff)
  · intro options1 options2 name tags hne hsub h
    rw [ShouldRunTest_true_iff] at h ⊢
    rcases h with h | ⟨k, hk, h⟩
    · exact absurd h hne
    · exact Or.inr ⟨k, hsub k hk, h⟩
  · decide
  · decide

/-! ## SectionLock: ownership under moves -/

theorem String.join_cons_eq (a : String) (l : List String) :
    String.join (a :: l) = a ++ String.join l := by
  apply String.ext
  simp [String.data_join, String.data_append]

theorem ConsoleLogger.consume_nil (st : ConsoleLogger) : ConsoleLogger.consume st [] = st := rfl

theorem ConsoleLogger.consume_cons (st : ConsoleLogger) (e : Event) (l : List Event) :
    ConsoleLogger.consume st (e :: l) = ConsoleLogger.consume (ConsoleLogger.handle st e) l :=
  rfl

theorem ConsoleLogger.consume_append (st : ConsoleLogger) (l1 l2 : List Event) :
    ConsoleLogger.consume st (l1 ++ l2) =
      ConsoleLogger.consume (ConsoleLogger.consume st l1) l2 := by
  simp [ConsoleLogger.consume, List.foldl_append]

theorem ConsoleLogger.handle_quiet_inner (st : ConsoleLogger) (e : Event)
    (hq : st.m_run_options.Verbose = false) (he : e.isInnerEvent = true) :
    (ConsoleLogger.handle st e).cout = st.cout ∧
      (ConsoleLogger.handle st e).m_run_options = st.m_run_options ∧
      (ConsoleLogger.handle st e).m_test_failed = (st.m_test_failed || e.isFailure) := by
  cases e <;> simp [Event.isInnerEvent] at he <;>
    simp [ConsoleLogger.handle, ConsoleLogger.SkipSection, ConsoleLogger.PushSection,
      ConsoleLogger.PopSection, ConsoleLogger.AssertFailed, ConsoleLogger.UnhandledException,
      ConsoleLogger.FlushIfVerbose, ConsoleLogger.Indent, hq, Event.isFailure]
  all_goals split_ifs <;> simp

theorem ConsoleLogger.handle_quiet_log (st st2 : ConsoleLogger) (e : Event)
    (hq : st.m_run_options.Verbose = false) (hq2 : st2.m_run_options.Verbose = false)
    (he : e.isInnerEvent = true)
    (hi : st2.m_indent_level = st.m_indent_level) (hl : st2.m_test_log = st.m_test_log) :
    (ConsoleLogger.handle st2 e).m_indent_level = (ConsoleLogger.handle st e).m_indent_level ∧
      (ConsoleLogger.handle st2 e).m_test_log = (ConsoleLogger.handle st e).m_test_log := by
  cases e <;> simp [Event.isInnerEvent] at he <;>
    simp [ConsoleLogger.handle, ConsoleLogger.SkipSection, ConsoleLogger.PushSection,
      ConsoleLogger.PopSection, ConsoleLogger.AssertFailed, ConsoleLogger.UnhandledException,
      ConsoleLogger.FlushIfVerbose, ConsoleLogger.Indent, hq, hq2, hi, hl]
  all_goals split_ifs <;> simp [hi, hl]

theorem ConsoleLogger.consume_quiet_inner (evs : List Event) (st : ConsoleLogger)
    (hq : st.m_run_options.Verbose = false) (he : evs.all Event.isInnerEvent = true) :
    (ConsoleLogger.consume st evs).cout = st.cout ∧
      (ConsoleLogger.consume st evs).m_run_options = st.m_run_options ∧
      (ConsoleLogger.consume st evs).m_test_failed =
        (st.m_test_failed || evs.any Event.isFailure) := by
  induction evs generalizing st with
  | nil => simp [ConsoleLogger.consume_nil]
  | cons e l ih =>
    rw [List.all_cons, Bool.and_eq_true] at he
    have h1 := ConsoleLogger.handle_quiet_inner st e hq he.1
    have h2 := ih (ConsoleLogger.handle st e) (by rw [h1.2.1]; exact hq) he.2
    rw [ConsoleLogger.consume_cons, h2.1, h2.2.1, h2.2.2, h1.1, h1.2.1, h1.2.2]
    simp [Bool.or_assoc]

theorem ConsoleLogger.consume_quiet_log (evs : List Event) (st st2 : ConsoleLogger)
    (hq : st.m_run_options.Verbose = false) (hq2 : st2.m_run_options.Verbose = false)
    (he : evs.all Event.isInnerEvent = true)
    (hi : st2.m_indent_level = st.m_indent_level) (hl : st2.m_test_log = st.m_test_log) :
    (ConsoleLogger.consume st2 evs).m_test_log = (ConsoleLogger.consume st evs).m_test_log := by
  induction evs generalizing st st2 with
  | nil => simpa [ConsoleLogger.consume_nil] using hl
  | cons e l ih =>
    rw [List.all_cons, Bool.and_eq_true] at he
    have h1 := ConsoleLogger.handle_quiet_inner st e hq he.1
    have h2 := ConsoleLogger.handle_quiet_inner st2 e hq2 he.1
    have h3 := ConsoleLogger.handle_quiet_log st st2 e hq hq2 he.1 hi hl
    rw [ConsoleLogger.consume_cons, ConsoleLogger.consume_cons]
    exact ih _ _ (by rw [h1.2.1]; exact hq) (by rw [h2.2.1]; exact hq2) he.2 h3.1 h3.2

theorem inner_of_body_and_report (b : Body) :
    (bodyEvents b ++ faultReport (bodySignal b)).all Event.isInnerEvent = true := by
  rw [List.all_append, Bool.and_eq_true]
  constructor
  · have h := bodyEvents_all_isBodyEvent b
    rw [List.all_eq_true] at h ⊢
    intro e he
    have := h e he
    cases e <;> simp [Event.isBodyEvent] at this <;> simp [Event.isInnerEvent]
  · rcases faultReport_cases (bodySignal b) with h | ⟨m, h⟩
    · rw [h]; rfl
    · rw [h]; rfl

/-- A test that ran, seen by a console logger with `Verbose` off between two
tests: its buffered log is printed at `ExitTest` when one of its events is a
failure report, and nothing is printed otherwise. -/
theorem ConsoleLogger.quiet_test (st : ConsoleLogger) (name : String) (mid : List Event)
    (hq : st.m_run_options.Verbose = false) (hi : st.m_indent_level = 0)
    (he : mid.all Event.isInnerEvent = true) :
    (ConsoleLogger.consume st ([Event.EnterTest name] ++ mid ++ [Event.ExitTest])).cout =
        st.cout ++
          (if mid.any Event.isFailure then cstr (ConsoleLogger.testLog name mid) else "") ∧
      (ConsoleLogger.consume st
        ([Event.EnterTest name] ++ mid ++ [Event.ExitTest])).m_indent_level = 0 ∧
      (ConsoleLogger.consume st
        ([Event.EnterTest name] ++ mid ++ [Event.ExitTest])).m_run_options =
        st.m_run_options := by
  have hq1 : (ConsoleLogger.handle st (Event.EnterTest name)).m_run_options.Verbose = false := by
    simp [ConsoleLogger.handle, ConsoleLogger.EnterTest, ConsoleLogger.FlushIfVerbose, hq]
  have hq0 : (ConsoleLogger.handle (ConsoleLogger.Create {})
      (Event.EnterTest name)).m_run_options.Verbose = false := by
    simp [ConsoleLogger.handle, ConsoleLogger.EnterTest, ConsoleLogger.FlushIfVerbose,
      ConsoleLogger.Create]
  have hlog := ConsoleLogger.consume_quiet_log mid
    (ConsoleLogger.handle (ConsoleLogger.Create {}) (Event.EnterTest name))
    (ConsoleLogger.handle st (Event.EnterTest name)) hq0 hq1 he
    (by simp [ConsoleLogger.handle, ConsoleLogger.EnterTest, ConsoleLogger.FlushIfVerbose,
      ConsoleLogger.Create, hq, hi])
    (by simp [ConsoleLogger.handle, ConsoleLogger.EnterTest, ConsoleLogger.FlushIfVerbose,
      ConsoleLogger.Create, hq])
  have hin := ConsoleLogger.consume_quiet_inner mid
    (ConsoleLogger.handle st (Event.EnterTest name)) hq1 he
  have h1 : (ConsoleLogger.handle st (Event.EnterTest name)).cout = st.cout ∧
      (ConsoleLogger.handle st (Event.EnterTest name)).m_run_options = st.m_run_options ∧
      (ConsoleLogger.handle st (Event.EnterTest name)).m_test_failed = false := by
    simp [ConsoleLogger.handle, ConsoleLogger.EnterTest, ConsoleLogger.FlushIfVerbose, hq]
  rw [h1.1, h1.2.1, h1.2.2] at hin
  have hcons : ConsoleLogger.consume st ([Event.EnterTest name] ++ mid ++ [Event.ExitTest]) =
      ConsoleLogger.ExitTest
        (ConsoleLogger.consume (ConsoleLogger.handle st (Event.EnterTest name)) mid) := by
    rw [ConsoleLogger.consume_append, List.singleton_append, ConsoleLogger.consume_cons]
    rfl
  rw [hcons]
  have htl : ConsoleLogger.testLog name mid =
      (ConsoleLogger.consume (ConsoleLogger.handle st (Event.EnterTest name)) mid).m_test_log := by
    unfold ConsoleLogger.testLog
    rw [ConsoleLogger.consume_cons]
    exact hlog.symm
  rw [htl]
  by_cases hf : mid.any Event.isFailure = true
  · simp [ConsoleLogger.ExitTest, ConsoleLogger.FlushLog, hin.1, hin.2.1, hin.2.2, hf, hq]
  · simp only [Bool.not_eq_true] at hf
    simp [ConsoleLogger.ExitTest, ConsoleLogger.FlushLog, hin.1, hin.2.1, hin.2.2, hf, hq]

/-- A skipped test, seen by a console logger with `Verbose` off: nothing is
printed. -/
theorem ConsoleLogger.quiet_skip (st : ConsoleLogger) (name : String)
    (hq : st.m_run_options.Verbose = false) :
    (ConsoleLogger.consume st [Event.SkipTest name]).cout = st.cout ∧
      (ConsoleLogger.consume st [Event.SkipTest name]).m_indent_level = st.m_indent_level ∧
      (ConsoleLogger.consume st [Event.SkipTest name]).m_run_options = st.m_run_options := by
  simp [ConsoleLogger.consume_cons, ConsoleLogger.consume_nil, ConsoleLogger.handle,
    ConsoleLogger.SkipTest, ConsoleLogger.FlushIfVerbose, hq]

theorem ConsoleLogger.quiet_tests (options : RunOptions) (Ts : List TTestCase)
    (st : ConsoleLogger)
    (hq : st.m_run_options.Verbose = false) (hi : st.m_indent_level = 0) :
    (ConsoleLogger.consume st (Ts.map (testEvents options)).flatten).cout =
        st.cout ++ String.join (Ts.map (ConsoleLogger.quietOutput options)) ∧
      (ConsoleLogger.consume st (Ts.map (testEvents options)).flatten).m_indent_level = 0 ∧
      (ConsoleLogger.consume st (Ts.map (testEvents options)).flatten).m_run_options =
        st.m_run_options := by
  induction Ts generalizing st with
  | nil =>
    simp [ConsoleLogger.consume_nil, hi]
    apply String.ext
    simp [String.data_append, String.data_join]
  | cons T Ts ih =>
    rw [List.map_cons, List.flatten_cons, ConsoleLogger.consume_append, List.map_cons,
      String.join_cons_eq]
    by_cases hS : ShouldRunTest options T.Name T.Tags = true
    · have hseg := ConsoleLogger.quiet_test st T.Name
        (bodyEvents T.Run ++ faultReport (bodySignal T.Run)) hq hi
        (inner_of_body_and_report T.Run)
      have hte : testEvents options T =
          [Event.EnterTest T.Name] ++ (bodyEvents T.Run ++ faultReport (bodySignal T.Run)) ++
            [Event.ExitTest] := by
        rw [testEvents_eq, if_pos hS]; simp
      rw [hte]
      have h2 := ih _ (by rw [hseg.2.2]; exact hq) hseg.2.1
      rw [h2.1, h2.2.1, h2.2.2, hseg.1, hseg.2.2]
      refine ⟨?_, rfl, rfl⟩
      simp only [ConsoleLogger.quietOutput, hS, Bool.true_and, String.append_assoc]
    · have hte : testEvents options T = [Event.SkipTest T.Name] := by
        rw [testEvents_eq, if_neg hS]
      rw [hte]
      have hseg := ConsoleLogger.quiet_skip st T.Name hq
      have h2 := ih _ (by rw [hseg.2.2]; exact hq) (by rw [hseg.2.1]; exact hi)
      rw [h2.1, h2.2.1, h2.2.2, hseg.1, hseg.2.2]
      refine ⟨?_, rfl, rfl⟩
      simp only [Bool.not_eq_true] at hS
      simp only [ConsoleLogger.quietOutput, hS, Bool.false_and, Bool.false_eq_true, if_false]
      apply String.ext
      simp [String.data_append]

theorem ite_ne_nul (p : Prop) [Decidable p] (a b : Char)
    (ha : (a != Char.ofNat 0) = true) (hb : (b != Char.ofNat 0) = true) :
    ((if p then a else b) != Char.ofNat 0) = true := by
  split <;> assumption

theorem digitChar_ne_nul (d : Nat) : (Nat.digitChar d != Char.ofNat 0) = true := by
  unfold Nat.digitChar
  repeat (apply ite_ne_nul _ _ _ (by decide))
  decide

theorem toDigitsCore_no_nul (base fuel n : Nat) (ds : List Char)
    (h : ds.all (fun c => c != Char.ofNat 0) = true) :
    (Nat.toDigitsCore base fuel n ds).all (fun c => c != Char.ofNat 0) = true := by
  induction fuel generalizing n ds with
  | zero => simpa [Nat.toDigitsCore] using h
  | succ f ih =>
    unfold Nat.toDigitsCore
    have hd : (Nat.digitChar (n % base) :: ds).all (fun c => c != Char.ofNat 0) = true := by
      rw [List.all_cons, digitChar_ne_nul, h]; rfl
    simp only []
    split_ifs
    · exact hd
    · exact ih _ _ hd

theorem isCString_toString_nat (n : Nat) : isCString (toString n) = true := by
  show isCString (Nat.repr n) = true
  unfold Nat.repr Nat.toDigits isCString
  exact toDigitsCore_no_nul 10 (n + 1) n [] rfl

theorem isCString_indent (n : Nat) :
    isCString (String.join (List.replicate n "    ")) = true := by
  induction n with
  | zero => rfl
  | succ k ih =>
    rw [List.replicate_succ, String.join_cons_eq, isCString_append, ih]
    rfl

theorem ConsoleLogger.handle_log_isCString (st : ConsoleLogger) (e : Event)
    (h : isCString st.m_test_log = true) :
    isCString (ConsoleLogger.handle st e).m_test_log = true := by
  have hempty : isCString "" = true := rfl
  cases hv : st.m_run_options.Verbose <;> cases e <;>
    simp only [ConsoleLogger.handle, ConsoleLogger.BeginRun, ConsoleLogger.EndRun,
      ConsoleLogger.SkipTest, ConsoleLogger.EnterTest, ConsoleLogger.ExitTest,
      ConsoleLogger.SkipSection, ConsoleLogger.PushSection, ConsoleLogger.PopSection,
      ConsoleLogger.AssertFailed, ConsoleLogger.UnhandledException,
      ConsoleLogger.FlushIfVerbose, ConsoleLogger.FlushLog, ConsoleLogger.Indent, hv,
      Bool.false_eq_true, if_false, if_true, Bool.or_false, Bool.or_true] <;>
    (try split_ifs) <;>
    (try split) <;>
    simp [isCString_append, isCString_cstr, isCString_indent, isCString_toString_nat, h,
      hempty, ConsoleLogger.endl] <;>
    decide

theorem ConsoleLogger.consume_log_isCString (evs : List Event) (st : ConsoleLogger)
    (h : isCString st.m_test_log = true) :
    isCString (ConsoleLogger.consume st evs).m_test_log = true := by
  induction evs generalizing st with
  | nil => exact h
  | cons e l ih =>
    rw [ConsoleLogger.consume_cons]
    exact ih _ (ConsoleLogger.handle_log_isCString st e h)

theorem ConsoleLogger.testLog_isCString (name : String) (evs : List Event) :
    cstr (ConsoleLogger.testLog name evs) = ConsoleLogger.testLog name evs := by
  rw [cstr_eq_self_iff]
  exact ConsoleLogger.consume_log_isCString _ _ rfl

theorem cstr_of_isCString (s : String) (h : isCString s = true) : cstr s = s :=
  (cstr_eq_self_iff s).2 h

theorem String.empty_append_eq (s : String) : "" ++ s = s := by
  apply String.ext
  simp [String.data_append]

theorem String.append_empty_eq (s : String) : s ++ "" = s := by
  apply String.ext
  simp [String.data_append]

theorem ConsoleLogger.quiet_run (options : RunOptions) (Ts : List TTestCase)
    (hq : options.Verbose = false) :
    (ConsoleLogger.consume (ConsoleLogger.Create options)
        (TestRegistry.Run options (TestRegistry.AddAll Ts) [])).cout =
      "Running " ++ toString Ts.length ++ " test cases..." ++ ConsoleLogger.endl ++
        String.join (Ts.map (ConsoleLogger.quietOutput options)) ++
        "Complete." ++ ConsoleLogger.endl ++
        "    Passed:  " ++ toString (Ts.countP (testPassed options)) ++ ConsoleLogger.endl ++
        "    Failed:  " ++ toString (Ts.countP (testFailed options)) ++ ConsoleLogger.endl ++
        "    Skipped: " ++ toString (Ts.countP (testSkipped options)) ++ ConsoleLogger.endl := by
  rw [Run_AddAll, List.nil_append, ConsoleLogger.consume_append, ConsoleLogger.consume_append,
    ConsoleLogger.consume_cons, ConsoleLogger.consume_nil, ConsoleLogger.consume_cons,
    ConsoleLogger.consume_nil]
  have h := ConsoleLogger.quiet_tests options Ts
    (ConsoleLogger.handle (ConsoleLogger.Create options) (Event.BeginRun Ts.length))
    (by simp [ConsoleLogger.handle, ConsoleLogger.BeginRun, ConsoleLogger.Create, hq])
    (by simp [ConsoleLogger.handle, ConsoleLogger.BeginRun, ConsoleLogger.Create])
  simp only [ConsoleLogger.handle, ConsoleLogger.EndRun] at h ⊢
  rw [h.1]
  simp only [ConsoleLogger.BeginRun, ConsoleLogger.Create, String.empty_append_eq]

theorem ConsoleLogger.handle_verbose (st : ConsoleLogger) (e : Event)
    (hv : st.m_run_options.Verbose = true) (hl : st.m_test_log = "") :
    (ConsoleLogger.handle st e).m_test_log = "" ∧
      (ConsoleLogger.handle st e).m_run_options = st.m_run_options ∧
      (ConsoleLogger.handle st e).cout = st.cout ++
        (match e with
         | Event.BeginRun test_count =>
           "Running " ++ toString test_count ++ " test cases..." ++ ConsoleLogger.endl
         | Event.EndRun pass_count fail_count skip_count =>
           "Complete." ++ ConsoleLogger.endl ++
             "    Passed:  " ++ toString pass_count ++ ConsoleLogger.endl ++
             "    Failed:  " ++ toString fail_count ++ ConsoleLogger.endl ++
             "    Skipped: " ++ toString skip_count ++ ConsoleLogger.endl
         | Event.SkipTest name => "Skip: " ++ cstr name ++ ConsoleLogger.endl
         | Event.EnterTest name => "Test: " ++ cstr name ++ ConsoleLogger.endl
         | Event.ExitTest => ""
         | Event.SkipSection name =>
           String.join (List.replicate st.m_indent_level "    ") ++ "[Skipped] " ++
             cstr name ++ ConsoleLogger.endl
         | Event.PushSection name =>
           String.join (List.replicate st.m_indent_level "    ") ++ cstr name ++
             ConsoleLogger.endl
         | Event.PopSection => ""
         | Event.AssertFailed type location message =>
           String.join (List.replicate st.m_indent_level "    ") ++ "@" ++
             toString location.LineNumber ++ " " ++
             (match type with
              | AssertType.Throw => "REQUIRE"
              | AssertType.Continue => "CHECK") ++
             ": " ++ cstr message ++ ConsoleLogger.endl
         | Event.UnhandledException message =>
           String.join (List.replicate st.m_indent_level "    ") ++ "Fail: " ++
             cstr message ++ ConsoleLogger.endl) := by
  have hendl : isCString ConsoleLogger.endl = true := by decide
  have hempty : cstr "" = "" := by decide
  refine ⟨?_, ?_, ?_⟩
  · cases e <;>
      simp [ConsoleLogger.handle, ConsoleLogger.BeginRun, ConsoleLogger.EndRun,
        ConsoleLogger.SkipTest, ConsoleLogger.EnterTest, ConsoleLogger.ExitTest,
        ConsoleLogger.SkipSection, ConsoleLogger.PushSection, ConsoleLogger.PopSection,
        ConsoleLogger.AssertFailed, ConsoleLogger.UnhandledException,
        ConsoleLogger.FlushIfVerbose, ConsoleLogger.FlushLog, ConsoleLogger.Indent, hv, hl]
    all_goals split_ifs <;> simp [hl]
  · cases e <;>
      simp [ConsoleLogger.handle, ConsoleLogger.BeginRun, ConsoleLogger.EndRun,
        ConsoleLogger.SkipTest, ConsoleLogger.EnterTest, ConsoleLogger.ExitTest,
        ConsoleLogger.SkipSection, ConsoleLogger.PushSection, ConsoleLogger.PopSection,
        ConsoleLogger.AssertFailed, ConsoleLogger.UnhandledException,
        ConsoleLogger.FlushIfVerbose, ConsoleLogger.FlushLog, ConsoleLogger.Indent, hv, hl]
    all_goals split_ifs <;> simp
  · cases e with
    | BeginRun n => simp [ConsoleLogger.handle, ConsoleLogger.BeginRun, String.append_assoc]
    | EndRun p f s => simp [ConsoleLogger.handle, ConsoleLogger.EndRun, String.append_assoc]
    | SkipTest name =>
      simp only [ConsoleLogger.handle, ConsoleLogger.SkipTest, ConsoleLogger.FlushIfVerbose,
        ConsoleLogger.FlushLog, hv, hl, if_true, String.empty_append_eq]
      rw [cstr_of_isCString _ (by simp [isCString_append, isCString_cstr, hendl]; decide)]
    | EnterTest name =>
      simp only [ConsoleLogger.handle, ConsoleLogger.EnterTest, ConsoleLogger.FlushIfVerbose,
        ConsoleLogger.FlushLog, hv, if_true, String.empty_append_eq]
      rw [cstr_of_isCString _ (by simp [isCString_append, isCString_cstr, hendl]; decide)]
    | ExitTest =>
      simp [ConsoleLogger.handle, ConsoleLogger.ExitTest, ConsoleLogger.FlushLog, hv, hl,
        hempty]
    | SkipSection name =>
      simp only [ConsoleLogger.handle, ConsoleLogger.SkipSection, ConsoleLogger.FlushIfVerbose,
        ConsoleLogger.FlushLog, ConsoleLogger.Indent, hv, hl, if_true, String.empty_append_eq]
      rw [cstr_of_isCString _
        (by simp [isCString_append, isCString_cstr, isCString_indent, hendl]; decide)]
    | PushSection name =>
      simp only [ConsoleLogger.handle, ConsoleLogger.PushSection, ConsoleLogger.FlushIfVerbose,
        ConsoleLogger.FlushLog, ConsoleLogger.Indent, hv, hl, if_true, String.empty_append_eq]
      rw [cstr_of_isCString _
        (by simp [isCString_append, isCString_cstr, isCString_indent, hendl])]
    | PopSection =>
      simp only [ConsoleLogger.handle, ConsoleLogger.PopSection, String.append_empty_eq]
      split_ifs <;> rfl
    | AssertFailed type location message =>
      simp only [ConsoleLogger.handle, ConsoleLogger.AssertFailed, ConsoleLogger.FlushIfVerbose,
        ConsoleLogger.FlushLog, ConsoleLogger.Indent, hv, hl, if_true, String.empty_append_eq]
      rw [cstr_of_isCString _
        (by
          cases type <;>
            simp [isCString_append, isCString_cstr, isCString_indent, isCString_toString_nat,
              hendl] <;> decide)]
    | UnhandledException message =>
      simp only [ConsoleLogger.handle, ConsoleLogger.UnhandledException,
        ConsoleLogger.FlushIfVerbose, ConsoleLogger.FlushLog, ConsoleLogger.Indent, hv, hl,
        if_true, String.empty_append_eq]
      rw [cstr_of_isCString _
        (by simp [isCString_append, isCString_cstr, isCString_indent, hendl]; decide)]

theorem ConsoleLogger.consume_verbose (evs : List Event) (st : ConsoleLogger)
    (hv : st.m_run_options.Verbose = true) (hl : st.m_test_log = "") :
    (ConsoleLogger.consume st evs).m_test_log = "" := by
  induction evs generalizing st with
  | nil => exact hl
  | cons e l ih =>
    rw [ConsoleLogger.consume_cons]
    have h := ConsoleLogger.handle_verbose st e hv hl
    exact ih _ (by rw [h.2.1]; exact hv) h.1

/-- C31, as the specification states it, fails: with `Verbose` off a skipped test
lets nothing be printed.  The run of one registered test `Bar::Baz` under the
keyword `Foo` sends `SkipTest("Bar::Baz")`, and the console logger prints the
begin line and the tally only; the text `Skip: Bar::Baz` is nowhere in the
output.  The same run with `Verbose` on prints the line. -/
theorem C31_counterexample_quiet_skip_line_is_not_printed :
    Event.SkipTest "Bar::Baz" ∈
        TestRegistry.Run { Verbose := false, Keywords := ["Foo"] }
          (TestRegistry.AddAll [{ Name := "Bar::Baz", Tags := [], Run := Body.done }]) [] ∧
      (ConsoleLogger.consume (ConsoleLogger.Create { Verbose := false, Keywords := ["Foo"] })
          (TestRegistry.Run { Verbose := false, Keywords := ["Foo"] }
            (TestRegistry.AddAll [{ Name := "Bar::Baz", Tags := [], Run := Body.done }])
            [])).cout =
        "Running 1 test cases...\nComplete.\n    Passed:  0\n    Failed:  0\n    Skipped: 1\n" ∧
      find
          (ConsoleLogger.consume
            (ConsoleLogger.Create { Verbose := false, Keywords := ["Foo"] })
            (TestRegistry.Run { Verbose := false, Keywords := ["Foo"] }
              (TestRegistry.AddAll [{ Name := "Bar::Baz", Tags := [], Run := Body.done }])
              [])).cout
          "Skip: Bar::Baz" = none ∧
      (ConsoleLogger.consume (ConsoleLogger.Create { Verbose := true, Keywords := ["Foo"] })
          (TestRegistry.Run { Verbose := true, Keywords := ["Foo"] }
            (TestRegistry.AddAll [{ Name := "Bar::Baz", Tags := [], Run := Body.done }])
            [])).cout =
        "Running 1 test cases...\nSkip: Bar::Baz\nComplete.\n    Passed:  0\n    Failed:  0\n    Skipped: 1\n" := by
  refine ⟨by decide, by decide, by decide, by decide⟩

/-- C31, amended: with `Verbose` off the console logger prints, for any run, the
begin line, the buffered log of every test that ran and received an
`AssertFailed` or an `UnhandledException` (its test line, section lines and
failure lines, printed whole at `ExitTest` and not before), and the tally; a
test that ran without such a report prints nothing and a skipped test prints
nothing: its `Skip: name` line stays in the buffer, which the next `EnterTest`
replaces.  With `Verbose` on
every event leaves the buffer empty: the line it writes is printed when the
event is received, `Skip: name` for `SkipTest(name)` included, and `ExitTest` and
`PopSection` print nothing. -/
theorem C31_ConsoleLogger_output :
    (∀ (options : RunOptions) (Ts : List TTestCase),
      options.Verbose = false →
      (ConsoleLogger.consume (ConsoleLogger.Create options)
          (TestRegistry.Run options (TestRegistry.AddAll Ts) [])).cout =
        "Running " ++ toString Ts.length ++ " test cases..." ++ ConsoleLogger.endl ++
          String.join (Ts.map (ConsoleLogger.quietOutput options)) ++
          "Complete." ++ ConsoleLogger.endl ++
          "    Passed:  " ++ toString (Ts.countP (testPassed options)) ++ ConsoleLogger.endl ++
          "    Failed:  " ++ toString (Ts.countP (testFailed options)) ++ ConsoleLogger.endl ++
          "    Skipped: " ++ toString (Ts.countP (testSkipped options)) ++
          ConsoleLogger.endl) ∧
    (∀ (options : RunOptions) (T : TTestCase),
      (ShouldRunTest options T.Name T.Tags = false →
        ConsoleLogger.quietOutput options T = "") ∧
      ((bodyEvents T.Run ++ faultReport (bodySignal T.Run)).any Event.isFailure = false →
        ConsoleLogger.quietOutput options T = "") ∧
      (ShouldRunTest options T.Name T.Tags = true →
        (bodyEvents T.Run ++ faultReport (bodySignal T.Run)).any Event.isFailure = true →
        ConsoleLogger.quietOutput options T =
          ConsoleLogger.testLog T.Name
            (bodyEvents T.Run ++ faultReport (bodySignal T.Run)))) ∧
    (∀ (st : ConsoleLogger) (name : String) (events : List Event),
      st.m_run_options.Verbose = false → st.m_indent_level = 0 →
      events.all Event.isInnerEvent = true →
      (ConsoleLogger.consume st (Event.EnterTest name :: events)).cout = st.cout ∧
        (ConsoleLogger.consume st
            ([Event.EnterTest name] ++ events ++ [Event.ExitTest])).cout =
          st.cout ++
            (if events.any Event.isFailure then ConsoleLogger.testLog name events else "")) ∧
    (∀ (st : ConsoleLogger) (name : String),
      st.m_run_options.Verbose = false →
      (ConsoleLogger.SkipTest st name).cout = st.cout ∧
        (ConsoleLogger.EnterTest (ConsoleLogger.SkipTest st name) name).m_test_log =
          "Test: " ++ cstr name ++ ConsoleLogger.endl) ∧
    (∀ (options : RunOptions) (events : List Event),
      options.Verbose = true →
      (ConsoleLogger.consume (ConsoleLogger.Create options) events).m_test_log = "") ∧
    (∀ (st : ConsoleLogger) (e : Event),
      st.m_run_options.Verbose = true → st.m_test_log = "" →
      (ConsoleLogger.handle st e).m_test_log = "" ∧
        (ConsoleLogger.handle st e).cout = st.cout ++
          (match e with
           | Event.BeginRun test_count =>
             "Running " ++ toString test_count ++ " test cases..." ++ ConsoleLogger.endl
           | Event.EndRun pass_count fail_count skip_count =>
             "Complete." ++ ConsoleLogger.endl ++
               "    Passed:  " ++ toString pass_count ++ ConsoleLogger.endl ++
               "    Failed:  " ++ toString fail_count ++ ConsoleLogger.endl ++
               "    Skipped: " ++ toString skip_count ++ ConsoleLogger.endl
           | Event.SkipTest name => "Skip: " ++ cstr name ++ ConsoleLogger.endl
           | Event.EnterTest name => "Test: " ++ cstr name ++ ConsoleLogger.endl
           | Event.ExitTest => ""
           | Event.SkipSection name =>
             String.join (List.replicate st.m_indent_level "    ") ++ "[Skipped] " ++
               cstr name ++ ConsoleLogger.endl
           | Event.PushSection name =>
             String.join (List.replicate st.m_indent_level "    ") ++ cstr name ++
               ConsoleLogger.endl
           | Event.PopSection => ""
           | Event.AssertFailed type location message =>
             String.join (List.replicate st.m_indent_level "    ") ++ "@" ++
               toString location.LineNumber ++ " " ++
               (match type with
                | AssertType.Throw => "REQUIRE"
                | AssertType.Continue => "CHECK") ++
               ": " ++ cstr message ++ ConsoleLogger.endl
           | Event.UnhandledException message =>
             String.join (List.replicate st.m_indent_level "    ") ++ "Fail: " ++
               cstr message ++ ConsoleLogger.endl)) ∧
    ((ConsoleLogger.consume (ConsoleLogger.Create { Verbose := false, Keywords := ["Run"] })
        (TestRegistry.Run { Verbose := false, Keywords := ["Run"] }
          (TestRegistry.AddAll
            [{ Name := "Demo::Skipped", Tags := [], Run := Body.done },
             { Name := "Run::Passes", Tags := [], Run := SECTION "Outer" Body.done Body.done },
             { Name := "Run::Fails", Tags := [],
               Run := SECTION "Outer"
                 (Body.HandleAssert AssertType.Continue
                   { SourceFile := "Demo.cpp", LineNumber := 12 }
                   (some { m_message := "Expected true" }) Body.done)
                 Body.done }])
          [])).cout =
        "Running 3 test cases...\nTest: Run::Fails\n    Section: Outer\n        @12 CHECK: Expected true\nComplete.\n    Passed:  1\n    Failed:  1\n    Skipped: 1\n" ∧
      (ConsoleLogger.consume (ConsoleLogger.Create { Verbose := true, Keywords := ["Run"] })
        (TestRegistry.Run { Verbose := true, Keywords := ["Run"] }
          (TestRegistry.AddAll
            [{ Name := "Demo::Skipped", Tags := [], Run := Body.done },
             { Name := "Run::Passes", Tags := [], Run := SECTION "Outer" Body.done Body.done },
             { Name := "Run::Fails", Tags := [],
               Run := SECTION "Outer"
                 (Body.HandleAssert AssertType.Continue
                   { SourceFile := "Demo.cpp", LineNumber := 12 }
                   (some { m_message := "Expected true" }) Body.done)
                 Body.done }])
          [])).cout =
        "Running 3 test cases...\nSkip: Demo::Skipped\nTest: Run::Passes\n    Section: Outer\nTest: Run::Fails\n    Section: Outer\n        @12 CHECK: Expected true\nComplete.\n    Passed:  1\n    Failed:  1\n    Skipped: 1\n") := by
  refine ⟨?_, ?_, ?_, ?_, ?_, ?_, ?_⟩
  · intro options Ts hq
    exact ConsoleLogger.quiet_run options Ts hq
  · intro options T
    refine ⟨?_, ?_, ?_⟩
    · intro h
      simp [ConsoleLogger.quietOutput, h]
    · intro h
      simp only [ConsoleLogger.quietOutput, h, Bool.and_false, Bool.false_eq_true, if_false]
    · intro h1 h2
      simp only [ConsoleLogger.quietOutput, h1, h2, Bool.and_self, if_true]
      exact ConsoleLogger.testLog_isCString _ _
  · intro st name events hq hi he
    have h1 : (ConsoleLogger.handle st (Event.EnterTest name)).cout = st.cout ∧
        (ConsoleLogger.handle st (Event.EnterTest name)).m_run_options.Verbose = false := by
      simp [ConsoleLogger.handle, ConsoleLogger.EnterTest, ConsoleLogger.FlushIfVerbose, hq]
    have h2 := ConsoleLogger.consume_quiet_inner events _ h1.2 he
    have h3 := ConsoleLogger.quiet_test st name events hq hi he
    rw [ConsoleLogger.testLog_isCString] at h3
    exact ⟨by rw [ConsoleLogger.consume_cons, h2.1, h1.1], h3.1⟩
  · intro st name hq
    simp [ConsoleLogger.SkipTest, ConsoleLogger.EnterTest, ConsoleLogger.FlushIfVerbose, hq,
      String.empty_append_eq]
  · intro options events hv
    exact ConsoleLogger.consume_verbose events _ hv rfl
  · intro st e hv hl
    have h := ConsoleLogger.handle_verbose st e hv hl
    exact ⟨h.1, h.2.2⟩
  · refine ⟨by decide, ?_⟩
    set_option maxRecDepth 4000 in decide

/-! ## Fatal failures outside callbacks -/

theorem fatalFailure_Throws (b : AssertType) (loc : AssertLocation) (K : String)
    (callback rest : Body) :
    (Body.Throws b loc K callback rest).fatalFailure =
      (Body.HandleAssert b loc (throwsOutcome K (bodySignal callback)) rest).fatalFailure := by
  simp only [Body.fatalFailure]

theorem fatalFailure_sound_HandleAssert (b : AssertType) (loc : AssertLocation)
    (o : Option AssertException) (rest : Body) (f : FatalFailure)
    (ih : rest.fatalFailure = some f →
      ∃ pre, bodyEvents rest =
          pre ++ Event.AssertFailed AssertType.Throw f.location f.failure.what ::
            List.replicate f.depth Event.PopSection ∧
        bodySignal rest = Signal.threw f.failure.toThrown ∧
        ∀ d, sectionDepth d pre = some (d + f.depth))
    (h : (Body.HandleAssert b loc o rest).fatalFailure = some f) :
    ∃ pre, bodyEvents (Body.HandleAssert b loc o rest) =
        pre ++ Event.AssertFailed AssertType.Throw f.location f.failure.what ::
          List.replicate f.depth Event.PopSection ∧
      bodySignal (Body.HandleAssert b loc o rest) = Signal.threw f.failure.toThrown ∧
      ∀ d, sectionDepth d pre = some (d + f.depth) := by
  cases o with
  | none =>
    simp only [Body.fatalFailure] at h
    obtain ⟨pre, h1, h2, h3⟩ := ih h
    exact ⟨pre, by rw [(body_HandleAssert_none b loc rest).1, h1],
      by rw [(body_HandleAssert_none b loc rest).2.1, h2], h3⟩
  | some ex =>
    cases b with
    | Throw =>
      simp only [Body.fatalFailure, if_true, Option.some.injEq] at h
      subst h
      exact ⟨[], by simp [body_HandleAssert_Throw], by simp [body_HandleAssert_Throw],
        by intro d; simp [sectionDepth]⟩
    | Continue =>
      simp only [Body.fatalFailure, reduceCtorEq, if_false] at h
      obtain ⟨pre, h1, h2, h3⟩ := ih h
      refine ⟨Event.AssertFailed AssertType.Continue loc ex.what :: pre, ?_, ?_, ?_⟩
      · rw [(body_HandleAssert_Continue loc ex rest).1, h1]
        rfl
      · rw [(body_HandleAssert_Continue loc ex rest).2.1, h2]
      · intro d
        simp [sectionDepth, h3]

/-- A fatal failure outside any callback ends the body: after its report come
only the pops of the sections open around it, as many as its depth, and its
exception leaves the body. -/
theorem fatalFailure_sound (b : Body) (f : FatalFailure) (h : b.fatalFailure = some f) :
    ∃ pre, bodyEvents b =
        pre ++ Event.AssertFailed AssertType.Throw f.location f.failure.what ::
          List.replicate f.depth Event.PopSection ∧
      bodySignal b = Signal.threw f.failure.toThrown ∧
      ∀ d, sectionDepth d pre = some (d + f.depth) := by
  induction b generalizing f with
  | done => simp [Body.fatalFailure] at h
  | ret => simp [Body.fatalFailure] at h
  | throw e => simp [Body.fatalFailure] at h
  | HandleAssert behavior location o rest ih =>
    exact fatalFailure_sound_HandleAssert behavior location o rest f (ih f) h
  | EnterSection text inner rest ih1 ih2 =>
    simp only [Body.fatalFailure] at h
    cases hin : inner.fatalFailure with
    | some g =>
      rw [hin] at h
      simp only [Option.some.injEq] at h
      subst h
      obtain ⟨pre, h1, h2, h3⟩ := ih1 g hin
      have hne : bodySignal inner ≠ Signal.normal := by
        rw [h2]
        exact fun e => Signal.noConfusion e
      refine ⟨Event.PushSection text :: pre, ?_, ?_, ?_⟩
      · rw [(body_EnterSection text inner rest).1, if_neg hne, h1]
        simp [List.replicate_succ']
      · rw [(body_EnterSection text inner rest).2.1, if_neg hne, h2]
      · intro d
        simp only [sectionDepth, h3]
        congr 1
        omega
    | none =>
      rw [hin] at h
      by_cases hn : bodySignal inner = Signal.normal
      · simp only [hn, if_true] at h
        obtain ⟨pre, h1, h2, h3⟩ := ih2 f h
        refine ⟨Event.PushSection text :: bodyEvents inner ++ Event.PopSection :: pre,
          ?_, ?_, ?_⟩
        · rw [(body_EnterSection text inner rest).1, if_pos hn, h1]
          simp
        · rw [(body_EnterSection text inner rest).2.1, if_pos hn, h2]
        · intro d
          rw [List.cons_append, sectionDepth, sectionDepth_append, sectionDepth_bodyEvents]
          simp [sectionDepth, h3]
      · simp [hn] at h
  | Throws behavior location K cb rest ih1 ih2 =>
    rw [fatalFailure_Throws] at h
    obtain ⟨pre, h1, h2, h3⟩ :=
      fatalFailure_sound_HandleAssert behavior location _ rest f (ih2 f) h
    refine ⟨bodyEvents cb ++ pre, ?_, ?_, ?_⟩
    · rw [(body_Throws behavior location K cb rest).1, h1]
      simp
    · rw [(body_Throws behavior location K cb rest).2.1, h2]
    · intro d
      rw [sectionDepth_append, sectionDepth_bodyEvents]
      simp [h3]

theorem fatalFailure_none_of_normal (b : Body) (h : bodySignal b = Signal.normal) :
    b.fatalFailure = none := by
  cases hf : b.fatalFailure with
  | none => rfl
  | some f =>
    obtain ⟨_, _, h2, _⟩ := fatalFailure_sound b f hf
    rw [h2] at h
    exact Signal.noConfusion h

/-- In a body without `Assert::Throws` statements every fatal report is the fatal
failure of the body. -/
theorem fatalFailure_of_no_Throws (b : Body) (hno : b.hasThrows = false)
    (loc : AssertLocation) (msg : String)
    (hmem : Event.AssertFailed AssertType.Throw loc msg ∈ bodyEvents b) :
    ∃ f, b.fatalFailure = some f ∧ f.location = loc ∧ f.failure.what = msg := by
  induction b with
  | done => simp [body_done] at hmem
  | ret => simp [body_ret] at hmem
  | throw e => simp [body_throw] at hmem
  | HandleAssert behavior location o rest ih =>
    simp only [Body.hasThrows] at hno
    cases o with
    | none =>
      rw [(body_HandleAssert_none behavior location rest).1] at hmem
      simpa [Body.fatalFailure] using ih hno hmem
    | some ex =>
      cases behavior with
      | Throw =>
        rw [(body_HandleAssert_Throw location ex rest).1] at hmem
        simp only [List.mem_singleton, Event.AssertFailed.injEq, true_and] at hmem
        exact ⟨{ location := location, failure := ex, depth := 0 },
          by simp [Body.fatalFailure], hmem.1.symm, hmem.2.symm⟩
      | Continue =>
        rw [(body_HandleAssert_Continue location ex rest).1] at hmem
        simp only [List.mem_cons, Event.AssertFailed.injEq, false_and, false_or,
          reduceCtorEq] at hmem
        simpa [Body.fatalFailure] using ih hno hmem
  | EnterSection text inner rest ih1 ih2 =>
    simp only [Body.hasThrows, Bool.or_eq_false_iff] at hno
    rw [(body_EnterSection text inner rest).1] at hmem
    simp only [List.mem_cons, List.mem_append, reduceCtorEq, false_or] at hmem
    rcases hmem with hin | hre
    · obtain ⟨f, h1, h2, h3⟩ := ih1 hno.1 hin
      exact ⟨{ f with depth := f.depth + 1 }, by simp [Body.fatalFailure, h1], h2, h3⟩
    · by_cases hn : bodySignal inner = Signal.normal
      · rw [if_pos hn] at hre
        obtain ⟨f, h1, h2, h3⟩ := ih2 hno.2 hre
        exact ⟨f, by simp [Body.fatalFailure, fatalFailure_none_of_normal inner hn, hn, h1],
          h2, h3⟩
      · rw [if_neg hn] at hre
        simp at hre
  | Throws behavior location K cb rest ih1 ih2 =>
    simp [Body.hasThrows] at hno

/-- In a body whose statements outside callbacks throw nothing themselves, an
exception leaves the body only as the signal of its fatal failure. -/
theorem fatalFailure_complete (b : Body) (hno : b.hasThrowOutside = false) (e : Thrown)
    (hs : bodySignal b = Signal.threw e) :
    ∃ f, b.fatalFailure = some f ∧ f.failure.toThrown = e := by
  have hHA : ∀ (bh : AssertType) (loc : AssertLocation) (o : Option AssertException)
      (rest : Body),
      (bodySignal rest = Signal.threw e →
        ∃ f, rest.fatalFailure = some f ∧ f.failure.toThrown = e) →
      bodySignal (Body.HandleAssert bh loc o rest) = Signal.threw e →
      ∃ f, (Body.HandleAssert bh loc o rest).fatalFailure = some f ∧
        f.failure.toThrown = e := by
    intro bh loc o rest ih h
    cases o with
    | none =>
      rw [(body_HandleAssert_none bh loc rest).2.1] at h
      simpa [Body.fatalFailure] using ih h
    | some ex =>
      cases bh with
      | Throw =>
        rw [(body_HandleAssert_Throw loc ex rest).2.1] at h
        simp only [Signal.threw.injEq] at h
        exact ⟨{ location := loc, failure := ex, depth := 0 }, by simp [Body.fatalFailure], h⟩
      | Continue =>
        rw [(body_HandleAssert_Continue loc ex rest).2.1] at h
        simpa [Body.fatalFailure] using ih h
  induction b with
  | done => simp [body_done] at hs
  | ret => simp [body_ret] at hs
  | throw e1 => simp [Body.hasThrowOutside] at hno
  | HandleAssert behavior location o rest ih =>
    simp only [Body.hasThrowOutside] at hno
    exact hHA behavior location o rest (ih hno) hs
  | EnterSection text inner rest ih1 ih2 =>
    simp only [Body.hasThrowOutside, Bool.or_eq_false_iff] at hno
    rw [(body_EnterSection text inner rest).2.1] at hs
    by_cases hn : bodySignal inner = Signal.normal
    · rw [if_pos hn] at hs
      obtain ⟨f, h1, h2⟩ := ih2 hno.2 hs
      exact ⟨f, by simp [Body.fatalFailure, fatalFailure_none_of_normal inner hn, hn, h1], h2⟩
    · rw [if_neg hn] at hs
      obtain ⟨f, h1, h2⟩ := ih1 hno.1 hs
      exact ⟨{ f with depth := f.depth + 1 }, by simp [Body.fatalFailure, h1], h2⟩
  | Throws behavior location K cb rest ih1 ih2 =>
    simp only [Body.hasThrowOutside] at hno
    rw [(body_Throws behavior location K cb rest).2.1] at hs
    rw [fatalFailure_Throws]
    exact hHA behavior location _ rest (ih2 hno) hs

theorem fatalFailure_seq (p q : Body) (h : bodySignal p = Signal.normal) :
    (p.seq q).fatalFailure = q.fatalFailure := by
  have hHA : ∀ (b : AssertType) (loc : AssertLocation) (o : Option AssertException)
      (rest : Body),
      (bodySignal rest = Signal.normal → (rest.seq q).fatalFailure = q.fatalFailure) →
      bodySignal (Body.HandleAssert b loc o rest) = Signal.normal →
      (Body.HandleAssert b loc o (rest.seq q)).fatalFailure = q.fatalFailure := by
    intro b loc o rest ih hs
    cases o with
    | none =>
      rw [(body_HandleAssert_none b loc rest).2.1] at hs
      simpa [Body.fatalFailure] using ih hs
    | some ex =>
      cases b with
      | Throw => simp [body_HandleAssert_Throw] at hs
      | Continue =>
        rw [(body_HandleAssert_Continue loc ex rest).2.1] at hs
        simpa [Body.fatalFailure] using ih hs
  induction p with
  | done => rfl
  | ret => simp [body_ret] at h
  | throw e => simp [body_throw] at h
  | HandleAssert behavior location o rest ih =>
    exact hHA behavior location o rest ih h
  | EnterSection text inner rest ih1 ih2 =>
    rw [(body_EnterSection text inner rest).2.1] at h
    by_cases hn : bodySignal inner = Signal.normal
    · rw [if_pos hn] at h
      simp only [Body.seq, Body.fatalFailure, fatalFailure_none_of_normal inner hn, hn,
        if_true]
      exact ih2 h
    · rw [if_neg hn] at h
      exact absurd h hn
  | Throws behavior location K cb rest ih1 ih2 =>
    rw [(body_Throws behavior location K cb rest).2.1] at h
    simp only [Body.seq]
    rw [fatalFailure_Throws]
    exact hHA behavior location _ rest ih2 h

theorem fatalFailure_fatalInside (frames : List EnclosingSection) (before : Body)
    (location : AssertLocation) (failure : AssertException) (rest : Body)
    (hbefore : bodySignal before = Signal.normal)
    (hframes : ∀ g ∈ frames, bodySignal g.before = Signal.normal) :
    (fatalInside frames before location failure rest).fatalFailure =
      some { location := location, failure := failure, depth := frames.length } := by
  induction frames with
  | nil =>
    simp only [fatalInside]
    rw [fatalFailure_seq _ _ hbefore]
    simp [Body.fatalFailure]
  | cons g frames ih =>
    have i := ih (fun k hk => hframes k (List.mem_cons_of_mem _ hk))
    simp only [fatalInside]
    rw [fatalFailure_seq _ _ (hframes g (List.mem_cons_self _ _))]
    simp [Body.fatalFailure, i]

/-- The tally of a test whose body runs into a fatal failure outside any
callback. -/
theorem RunTestCase_fatalFailure (options : RunOptions) (st : RunState) (T : TTestCase)
    (f : FatalFailure) (hrun : ShouldRunTest options T.Name T.Tags = true)
    (hfatal : T.Run.fatalFailure = some f) :
    (∃ pre,
      (TestRegistry.RunTestCase options st (TestRegistry.details T)).logger =
        st.logger ++ ([Event.EnterTest T.Name] ++ pre ++
          [Event.AssertFailed AssertType.Throw f.location f.failure.what] ++
          List.replicate f.depth Event.PopSection ++ [Event.ExitTest]) ∧
      bodyEvents T.Run =
        pre ++ Event.AssertFailed AssertType.Throw f.location f.failure.what ::
          List.replicate f.depth Event.PopSection ∧
      sectionDepth 0 pre = some f.depth ∧
      pre.countP Event.isPushSection = pre.countP Event.isPopSection + f.depth) ∧
    bodySignal T.Run = Signal.threw f.failure.toThrown ∧
    (TestRegistry.RunTestCase options st (TestRegistry.details T)).fail_count =
      st.fail_count + 1 ∧
    (TestRegistry.RunTestCase options st (TestRegistry.details T)).pass_count =
      st.pass_count := by
  obtain ⟨pre, h1, h2, h3⟩ := fatalFailure_sound T.Run f hfatal
  have hf : bodyFailed T.Run = true := by simp [bodyFailed, h2]
  have hr : faultReport (bodySignal T.Run) = [] := by
    simp [h2, faultReport, toThrown_catches]
  have hd : sectionDepth 0 pre = some f.depth := by simpa using h3 0
  have hc := (sectionDepth_counts pre 0 f.depth hd).1
  refine ⟨⟨pre, ?_, h1, hd, by omega⟩, h2, ?_, ?_⟩
  · rw [RunTestCase_eq, if_pos hrun]
    simp only [hr, h1]
    simp
  · rw [RunTestCase_eq, if_pos hrun]
    simp only [hf]
    simp
  · rw [RunTestCase_eq, if_pos hrun]
    simp only [hf]
    simp

/-! ## The tally of one test -/

/-- C3, as the specification states it, fails: the body
`CHECK_THROW(AssertException, REQUIRE_EQUAL(0, 1));` of the test suite has a fatal
failure while it runs (its `AssertFailed` report with severity `Throw` is among
the events of the body), `Assert::Throws` absorbs the signal, and the test is
tallied as passed. -/
theorem C3_counterexample_absorbed_fatal_failure_is_tallied_pass :
    ShouldRunTest {} "AssertTest::AreEqual_Integer" [] = true ∧
    Event.AssertFailed AssertType.Throw ⟨"AssertTest.cpp", 28⟩ "[0] == [1]" ∈
      bodyEvents
        (Body.Throws AssertType.Continue ⟨"AssertTest.cpp", 28⟩ "AssertException"
          (Body.HandleAssert AssertType.Throw ⟨"AssertTest.cpp", 28⟩
            (some ⟨"[0] == [1]"⟩) Body.done)
          Body.done) ∧
    (TestRegistry.RunTestCase {}
      { logger := [], pass_count := 0, fail_count := 0, skip_count := 0 }
      (TestRegistry.details
        { Name := "AssertTest::AreEqual_Integer", Tags := [],
          Run := Body.Throws AssertType.Continue ⟨"AssertTest.cpp", 28⟩ "AssertException"
            (Body.HandleAssert AssertType.Throw ⟨"AssertTest.cpp", 28⟩
              (some ⟨"[0] == [1]"⟩) Body.done)
            Body.done })) =
      { logger :=
          [Event.EnterTest "AssertTest::AreEqual_Integer",
           Event.AssertFailed AssertType.Throw ⟨"AssertTest.cpp", 28⟩ "[0] == [1]",
           Event.ExitTest],
        pass_count := 1, fail_count := 0, skip_count := 0 } := by
  refine ⟨by decide, by decide, by decide⟩

/-- C3, amended: a test that is not skipped adds exactly 1 to exactly one of
`pass_count` and `fail_count`; it is tallied as passed iff no exception left its
body (neither the signal of a fatal failure nor another fault) and no
continuing failure was reported while it ran, and as failed otherwise.  A fatal
failure outside any `Assert::Throws` callback sends its signal out of the body, so
the test is tallied as failed; one inside a callback is absorbed there and does
not by itself fail the test. -/
theorem C3_pass_iff_no_failure (options : RunOptions) (st : RunState) (T : TTestCase)
    (hrun : ShouldRunTest options T.Name T.Tags = true) :
    (((TestRegistry.RunTestCase options st (TestRegistry.details T)).pass_count =
          st.pass_count + 1 ∧
        (TestRegistry.RunTestCase options st (TestRegistry.details T)).fail_count =
          st.fail_count) ∨
      ((TestRegistry.RunTestCase options st (TestRegistry.details T)).pass_count =
          st.pass_count ∧
        (TestRegistry.RunTestCase options st (TestRegistry.details T)).fail_count =
          st.fail_count + 1)) ∧
    (TestRegistry.RunTestCase options st (TestRegistry.details T)).skip_count =
      st.skip_count ∧
    ((TestRegistry.RunTestCase options st (TestRegistry.details T)).pass_count =
        st.pass_count + 1 ↔
      ((∀ e, bodySignal T.Run ≠ Signal.threw e) ∧
        ∀ loc msg, Event.AssertFailed AssertType.Continue loc msg ∉ bodyEvents T.Run)) ∧
    ((TestRegistry.RunTestCase options st (TestRegistry.details T)).fail_count =
        st.fail_count + 1 ↔
      ¬ ((∀ e, bodySignal T.Run ≠ Signal.threw e) ∧
        ∀ loc msg, Event.AssertFailed AssertType.Continue loc msg ∉ bodyEvents T.Run)) ∧
    (∀ f, T.Run.fatalFailure = some f →
      bodySignal T.Run = Signal.threw f.failure.toThrown ∧
        (TestRegistry.RunTestCase options st (TestRegistry.details T)).fail_count =
          st.fail_count + 1) ∧
    (∀ (K : String) (location : AssertLocation) (callback rest : Body),
      (K = "AssertException" ∨ K = "std::exception") →
      (∃ f, callback.fatalFailure = some f) →
      bodySignal (Body.Throws AssertType.Continue location K callback rest) =
          bodySignal rest ∧
        bodyChecksFailed (Body.Throws AssertType.Continue location K callback rest) =
          (bodyChecksFailed callback || bodyChecksFailed rest)) := by
  refine ⟨?_, ?_, ?_, ?_, ?_, ?_⟩
  · rw [RunTestCase_eq, if_pos hrun]
    cases bodyFailed T.Run <;> simp
  · rw [RunTestCase_eq, if_pos hrun]
  · rw [← bodyFailed_false_iff, RunTestCase_eq, if_pos hrun]
    cases bodyFailed T.Run <;> simp
  · rw [← bodyFailed_false_iff, RunTestCase_eq, if_pos hrun]
    cases bodyFailed T.Run <;> simp
  · intro f hf
    have h := RunTestCase_fatalFailure options st T f hrun hf
    exact ⟨h.2.1, h.2.2.1⟩
  · intro K location callback rest hK hcb
    obtain ⟨f, hf⟩ := hcb
    obtain ⟨_, _, h2, _⟩ := fatalFailure_sound callback f hf
    have ho : throwsOutcome K (bodySignal callback) = none := by
      rw [h2]
      simp only [throwsOutcome, toThrown_catches]
      rcases hK with h | h <;> subst h <;> simp
    rw [(body_Throws AssertType.Continue location K callback rest).2.1,
      (body_Throws AssertType.Continue location K callback rest).2.2, ho,
      (body_HandleAssert_none AssertType.Continue location rest).2.1,
      (body_HandleAssert_none AssertType.Continue location rest).2.2]
    exact ⟨rfl, rfl⟩

/-- C3, amended, at a concrete test: a body with a passing check inside a section
is tallied as passed. -/
theorem C3_pass_iff_no_failure_witness :
    ShouldRunTest {} "AssertTest::IsTrue" [] = true ∧
    (TestRegistry.RunTestCase {}
      { logger := [], pass_count := 0, fail_count := 0, skip_count := 0 }
      (TestRegistry.details
        { Name := "AssertTest::IsTrue", Tags := [],
          Run := Body.EnterSection "Section: Check passes"
            (Body.HandleAssert AssertType.Throw ⟨"AssertTest.cpp", 131⟩ none Body.done)
            Body.done })).pass_count = 0 + 1 :=
  ⟨by decide,
    (C3_pass_iff_no_failure {}
      { logger := [], pass_count := 0, fail_count := 0, skip_count := 0 }
      { Name := "AssertTest::IsTrue", Tags := [],
        Run := Body.EnterSection "Section: Check passes"
          (Body.HandleAssert AssertType.Throw ⟨"AssertTest.cpp", 131⟩ none Body.done)
          Body.done }
      (by decide)).2.2.1.2
      ⟨fun _ h => Signal.noConfusion h, by
        intro loc msg h
        simp [bodyEvents, exec, CommonFixture.ctor, CommonFixture.EnterSection,
          CommonFixture.HandleAssert, SectionLock.ctor, SectionLock.dtor,
          ILogger.PushSection, ILogger.PopSection] at h⟩⟩

/-! ## The fatal signal: Assert::Throws and Run -/

/-- C9, amended: the fatal signal of `HandleAssert` is caught by an enclosing
`Assert::Throws<K>`, for every `K` (Pass when `K` names `AssertException` or
`std::exception`, otherwise a Fail naming `AssertException`), and the body goes
on as after a plain assertion with that outcome.  A fatal failure outside any
`Assert::Throws` callback, in a body that may hold `Assert::Throws` statements and
sections anywhere, ends the body: its report is followed only by the pops of the
sections open around it, its signal reaches `Run`, which reports no unhandled
exception, and the test is tallied as failed.  In a body without
`Assert::Throws` statements every fatal report is such a failure, and in a body
whose statements outside callbacks throw nothing themselves an exception leaves
the body iff it is the signal of such a failure. -/
theorem C9_fatal_signal_caught_by_Throws_or_Run (K : String) (callback rest : Body)
    (behavior : AssertType) (location : AssertLocation) (ex : AssertException)
    (self : CommonFixture) (options : RunOptions) (st : RunState) (T : TTestCase)
    (f : FatalFailure)
    (hcb : bodySignal callback = Signal.threw ex.toThrown)
    (hfatal : T.Run.fatalFailure = some f)
    (hrun : ShouldRunTest options T.Name T.Tags = true) :
    Assert.Throws K (exec callback) self =
      ((exec callback self).1,
        if (K == "AssertException" || K == "std::exception") = true then none
        else some ⟨cstr ("Expected exception [" ++ K ++ "] but caught [AssertException: "
          ++ ex.what ++ "]")⟩) ∧
    bodySignal (Body.Throws behavior location K callback rest) =
      bodySignal (Body.HandleAssert behavior location
        (if (K == "AssertException" || K == "std::exception") = true then none
        else some ⟨cstr ("Expected exception [" ++ K ++ "] but caught [AssertException: "
          ++ ex.what ++ "]")⟩) rest) ∧
    (∃ pre : List Event,
      bodyEvents T.Run =
        pre ++ Event.AssertFailed AssertType.Throw f.location f.failure.what ::
          List.replicate f.depth Event.PopSection ∧
      sectionDepth 0 pre = some f.depth) ∧
    bodySignal T.Run =
      Signal.threw ⟨"AssertException", ["std::exception"], f.failure.what⟩ ∧
    (TestRegistry.RunTestCase options st (TestRegistry.details T)).logger =
      st.logger ++ ([Event.EnterTest T.Name] ++ bodyEvents T.Run ++ [Event.ExitTest]) ∧
    (TestRegistry.RunTestCase options st (TestRegistry.details T)).fail_count =
      st.fail_count + 1 ∧
    (TestRegistry.RunTestCase options st (TestRegistry.details T)).pass_count =
      st.pass_count ∧
    (∀ (b : Body) (loc : AssertLocation) (msg : String),
      b.hasThrows = false →
      Event.AssertFailed AssertType.Throw loc msg ∈ bodyEvents b →
      ∃ g, b.fatalFailure = some g ∧ g.location = loc ∧ g.failure.what = msg) ∧
    (∀ (b : Body) (e : Thrown),
      b.hasThrowOutside = false →
      (bodySignal b = Signal.threw e ↔
        ∃ g, b.fatalFailure = some g ∧ g.failure.toThrown = e)) := by
  have ho : throwsOutcome K (Signal.threw ex.toThrown) =
      (if (K == "AssertException" || K == "std::exception") = true then none
        else some ⟨cstr ("Expected exception [" ++ K ++ "] but caught [AssertException: "
          ++ ex.what ++ "]")⟩) := by
    simp only [throwsOutcome, toThrown_catches]
    by_cases h : (K == "AssertException" || K == "std::exception") = true
    · simp [h]
    · have h2 : ex.toThrown.catches "std::exception" = true := by
        rw [toThrown_catches]
        rfl
      simp [h, h2, AssertException.toThrown, String.append_assoc]
  obtain ⟨⟨pre, _, h1, hd, _⟩, h2, h3, h4⟩ :=
    RunTestCase_fatalFailure options st T f hrun hfatal
  have hr : faultReport (bodySignal T.Run) = [] := by
    simp [h2, faultReport, toThrown_catches]
  refine ⟨?_, ?_, ⟨pre, h1, hd⟩, ?_, ?_, h3, h4, ?_, ?_⟩
  · rw [Throws_eq, exec_signal, hcb, ho]
  · rw [(body_Throws behavior location K callback rest).2.1, hcb, ho]
  · rw [h2]
    rfl
  · rw [RunTestCase_eq, if_pos hrun, hr]
    simp
  · intro b loc msg hno hmem
    exact fatalFailure_of_no_Throws b hno loc msg hmem
  · intro b e hno
    constructor
    · intro hs
      exact fatalFailure_complete b hno e hs
    · rintro ⟨g, hg, he⟩
      obtain ⟨_, _, hsig, _⟩ := fatalFailure_sound b g hg
      rw [hsig, he]

/-- C9, amended, at concrete inputs: `Assert::Throws<std::runtime_error>` around
`REQUIRE_EQUAL(0, 1)`, and a test whose body is
`CHECK_THROW(AssertException, REQUIRE_EQUAL(0, 1));` followed by `REQUIRE(false)`
in a section: the first fatal failure is absorbed, the second ends the test. -/
theorem C9_fatal_signal_caught_by_Throws_or_Run_witness :
    (bodySignal (Body.HandleAssert AssertType.Throw ⟨"AssertTest.cpp", 28⟩
        (some ⟨"[0] == [1]"⟩) Body.done) =
      Signal.threw (AssertException.toThrown ⟨"[0] == [1]"⟩) ∧
    Body.fatalFailure
        (Body.Throws AssertType.Continue ⟨"AssertTest.cpp", 28⟩ "AssertException"
          (Body.HandleAssert AssertType.Throw ⟨"AssertTest.cpp", 28⟩
            (some ⟨"[0] == [1]"⟩) Body.done)
          (Body.EnterSection "Section: Check fails"
            (Body.HandleAssert AssertType.Throw ⟨"AssertTest.cpp", 139⟩
              (some ⟨"IsTrue(false)"⟩) Body.done) Body.done)) =
      some { location := ⟨"AssertTest.cpp", 139⟩, failure := ⟨"IsTrue(false)"⟩, depth := 1 } ∧
    ShouldRunTest {} "AssertTest::Mixed" [] = true) ∧
    (TestRegistry.RunTestCase {}
      { logger := [], pass_count := 0, fail_count := 0, skip_count := 0 }
      (TestRegistry.details
        { Name := "AssertTest::Mixed", Tags := [],
          Run := Body.Throws AssertType.Continue ⟨"AssertTest.cpp", 28⟩ "AssertException"
            (Body.HandleAssert AssertType.Throw ⟨"AssertTest.cpp", 28⟩
              (some ⟨"[0] == [1]"⟩) Body.done)
            (Body.EnterSection "Section: Check fails"
              (Body.HandleAssert AssertType.Throw ⟨"AssertTest.cpp", 139⟩
                (some ⟨"IsTrue(false)"⟩) Body.done) Body.done) })).logger =
      [Event.EnterTest "AssertTest::Mixed",
       Event.AssertFailed AssertType.Throw ⟨"AssertTest.cpp", 28⟩ "[0] == [1]",
       Event.PushSection "Section: Check fails",
       Event.AssertFailed AssertType.Throw ⟨"AssertTest.cpp", 139⟩ "IsTrue(false)",
       Event.PopSection,
       Event.ExitTest] :=
  ⟨⟨by rfl, by decide, by decide⟩,
    (C9_fatal_signal_caught_by_Throws_or_Run "std::runtime_error"
      (Body.HandleAssert AssertType.Throw ⟨"AssertTest.cpp", 28⟩
        (some ⟨"[0] == [1]"⟩) Body.done)
      Body.done AssertType.Continue ⟨"AssertTest.cpp", 28⟩ ⟨"[0] == [1]"⟩
      (CommonFixture.ctor []) {}
      { logger := [], pass_count := 0, fail_count := 0, skip_count := 0 }
      { Name := "AssertTest::Mixed", Tags := [],
        Run := Body.Throws AssertType.Continue ⟨"AssertTest.cpp", 28⟩ "AssertException"
          (Body.HandleAssert AssertType.Throw ⟨"AssertTest.cpp", 28⟩
            (some ⟨"[0] == [1]"⟩) Body.done)
          (Body.EnterSection "Section: Check fails"
            (Body.HandleAssert AssertType.Throw ⟨"AssertTest.cpp", 139⟩
              (some ⟨"IsTrue(false)"⟩) Body.done) Body.done) }
      { location := ⟨"AssertTest.cpp", 139⟩, failure := ⟨"IsTrue(false)"⟩, depth := 1 }
      (by rfl) (by decide) (by decide)).2.2.2.2.1.trans (by decide)⟩

/-! ## A fatal failure inside sections -/

/-- C15, amended: when a fatal failure occurs inside `d` nested open sections and
outside any `Assert::Throws` callback, be it a failing plain assertion or a
failing `REQUIRE_THROW`, in a body that may hold sections and `Assert::Throws`
statements anywhere, the events of the test after its `AssertFailed` event are
exactly `d` `PopSection` events followed by `ExitTest`; no statement after the
failure produces an event, exactly `d` sections were open at the failure, and
the test is counted as failed.  The failing `HandleAssert(Throw, ..)` reached
through `d` enclosing sections after statements that completed is such a
failure, with the events before it given in full. -/
theorem C15_fatal_failure_pops_enclosing_sections (options : RunOptions) (st : RunState)
    (name : String) (tags : List String) (body : Body) (f : FatalFailure)
    (hrun : ShouldRunTest options name tags = true)
    (hfatal : body.fatalFailure = some f) :
    (∃ pre : List Event,
      (TestRegistry.RunTestCase options st
        (TestRegistry.details { Name := name, Tags := tags, Run := body })).logger =
        st.logger ++ ([Event.EnterTest name] ++ pre ++
          [Event.AssertFailed AssertType.Throw f.location f.failure.what] ++
          List.replicate f.depth Event.PopSection ++ [Event.ExitTest]) ∧
      bodyEvents body =
        pre ++ Event.AssertFailed AssertType.Throw f.location f.failure.what ::
          List.replicate f.depth Event.PopSection ∧
      sectionDepth 0 pre = some f.depth ∧
      pre.countP Event.isPushSection = pre.countP Event.isPopSection + f.depth) ∧
    (TestRegistry.RunTestCase options st
      (TestRegistry.details { Name := name, Tags := tags, Run := body })).fail_count =
      st.fail_count + 1 ∧
    (TestRegistry.RunTestCase options st
      (TestRegistry.details { Name := name, Tags := tags, Run := body })).pass_count =
      st.pass_count ∧
    (∀ (frames : List EnclosingSection) (before : Body) (location : AssertLocation)
      (failure : AssertException) (rest : Body),
      bodySignal before = Signal.normal →
      (∀ g ∈ frames, bodySignal g.before = Signal.normal) →
      (fatalInside frames before location failure rest).fatalFailure =
          some { location := location, failure := failure, depth := frames.length } ∧
        bodyEvents (fatalInside frames before location failure rest) =
          eventsBeforeFatal frames before ++
            Event.AssertFailed AssertType.Throw location failure.what ::
              List.replicate frames.length Event.PopSection) ∧
    (∀ (location : AssertLocation) (K : String) (callback rest : Body)
      (failure : AssertException),
      throwsOutcome K (bodySignal callback) = some failure →
      (Body.Throws AssertType.Throw location K callback rest).fatalFailure =
        some { location := location, failure := failure, depth := 0 }) ∧
    (∀ (text : String) (inner rest : Body) (g : FatalFailure),
      inner.fatalFailure = some g →
      (Body.EnterSection text inner rest).fatalFailure =
        some { g with depth := g.depth + 1 }) := by
  obtain ⟨h1, _, h3, h4⟩ := RunTestCase_fatalFailure options st
    { Name := name, Tags := tags, Run := body } f hrun hfatal
  refine ⟨h1, h3, h4, ?_, ?_, ?_⟩
  · intro frames before location failure rest hb hfr
    exact ⟨fatalFailure_fatalInside frames before location failure rest hb hfr,
      (body_fatalInside frames before location failure rest hb hfr).1⟩
  · intro location K callback rest failure ho
    simp [Body.fatalFailure, ho]
  · intro text inner rest g hg
    simp [Body.fatalFailure, hg]

/-- C15, amended, at a concrete test: inside "Outer", after a
`CHECK_THROW(AssertException, REQUIRE(false))` that absorbs its fatal failure,
the section "Inner" holds `REQUIRE_THROW(std::runtime_error, ...)` whose callback
throws nothing; statements follow at every level. -/
theorem C15_fatal_failure_pops_enclosing_sections_witness :
    (ShouldRunTest {} "Demo::Nested" [] = true ∧
      Body.fatalFailure
          (SECTION "Outer"
            (Body.Throws AssertType.Continue ⟨"Demo.cpp", 4⟩ "AssertException"
              (Body.HandleAssert AssertType.Throw ⟨"Demo.cpp", 4⟩
                (some ⟨"IsTrue(false)"⟩) Body.done)
              (SECTION "Inner"
                (Body.Throws AssertType.Throw ⟨"Demo.cpp", 6⟩ "std::runtime_error"
                  Body.done
                  (SECTION "Unreached" Body.done Body.done))
                (SECTION "Later" Body.done Body.done)))
            (Body.HandleAssert AssertType.Continue ⟨"Demo.cpp", 9⟩
              (some ⟨"IsTrue(after)"⟩) Body.done)) =
        some
          { location := ⟨"Demo.cpp", 6⟩,
            failure := ⟨"Expected exception [std::runtime_error] but none was thrown"⟩,
            depth := 2 }) ∧
    (TestRegistry.RunTestCase {}
      { logger := [], pass_count := 0, fail_count := 0, skip_count := 0 }
      (TestRegistry.details
        { Name := "Demo::Nested", Tags := [],
          Run := SECTION "Outer"
            (Body.Throws AssertType.Continue ⟨"Demo.cpp", 4⟩ "AssertException"
              (Body.HandleAssert AssertType.Throw ⟨"Demo.cpp", 4⟩
                (some ⟨"IsTrue(false)"⟩) Body.done)
              (SECTION "Inner"
                (Body.Throws AssertType.Throw ⟨"Demo.cpp", 6⟩ "std::runtime_error"
                  Body.done
                  (SECTION "Unreached" Body.done Body.done))
                (SECTION "Later" Body.done Body.done)))
            (Body.HandleAssert AssertType.Continue ⟨"Demo.cpp", 9⟩
              (some ⟨"IsTrue(after)"⟩) Body.done) })).fail_count = 0 + 1 ∧
    (TestRegistry.RunTestCase {}
      { logger := [], pass_count := 0, fail_count := 0, skip_count := 0 }
      (TestRegistry.details
        { Name := "Demo::Nested", Tags := [],
          Run := SECTION "Outer"
            (Body.Throws AssertType.Continue ⟨"Demo.cpp", 4⟩ "AssertException"
              (Body.HandleAssert AssertType.Throw ⟨"Demo.cpp", 4⟩
                (some ⟨"IsTrue(false)"⟩) Body.done)
              (SECTION "Inner"
                (Body.Throws AssertType.Throw ⟨"Demo.cpp", 6⟩ "std::runtime_error"
                  Body.done
                  (SECTION "Unreached" Body.done Body.done))
                (SECTION "Later" Body.done Body.done)))
            (Body.HandleAssert AssertType.Continue ⟨"Demo.cpp", 9⟩
              (some ⟨"IsTrue(after)"⟩) Body.done) })).logger =
      [Event.EnterTest "Demo::Nested",
       Event.PushSection "Section: Outer",
       Event.AssertFailed AssertType.Throw ⟨"Demo.cpp", 4⟩ "IsTrue(false)",
       Event.PushSection "Section: Inner",
       Event.AssertFailed AssertType.Throw ⟨"Demo.cpp", 6⟩
         "Expected exception [std::runtime_error] but none was thrown",
       Event.PopSection,
       Event.PopSection,
       Event.ExitTest] :=
  ⟨⟨by decide, by decide⟩,
    (C15_fatal_failure_pops_enclosing_sections {}
      { logger := [], pass_count := 0, fail_count := 0, skip_count := 0 }
      "Demo::Nested" []
      ( SECTION "Outer"
        (Body.Throws AssertType.Continue ⟨"Demo.cpp", 4⟩ "AssertException"
          (Body.HandleAssert AssertType.Throw ⟨"Demo.cpp", 4⟩
            (some ⟨"IsTrue(false)"⟩) Body.done)
          (SECTION "Inner"
            (Body.Throws AssertType.Throw ⟨"Demo.cpp", 6⟩ "std::runtime_error"
              Body.done
              (SECTION "Unreached" Body.done Body.done))
            (SECTION "Later" Body.done Body.done)))
        (Body.HandleAssert AssertType.Continue ⟨"Demo.cpp", 9⟩
          (some ⟨"IsTrue(after)"⟩) Body.done))
      { location := ⟨"Demo.cpp", 6⟩,
        failure := ⟨"Expected exception [std::runtime_error] but none was thrown"⟩,
        depth := 2 }
      (by decide) (by decide)).2.1,
    by decide⟩

end CppUnitTestFramework
